import Mathlib

/-! # Thermocouple direct measurement library: a verification development

Shallow embedding of `src/Thermocouple.h` and `src/Thermocouple.cpp`.

The C++ `double` is modelled by an arbitrary linearly ordered field `α` and every
decimal literal of the source by the number it denotes, so the arithmetic is exact
(no rounding, no overflow, no NaN).  At `α = ℚ` every definition below can be
evaluated; at `α = ℝ` the same definitions are the functions of a real voltage.
Division is the total division of the field; wherever a quotient matters the
divisor is stated separately, as the `denominator` macro of the source.

Every finite binary64 value is a rational number, so a statement for every `v : ℚ`
covers every voltage the program can receive.  The statements on the divisor of the
cold-junction form and on the rise inside a range test, where rounding could decide a
sign or an order, carry a margin (a divisor of at least 0.005, a rise of more than 10
degrees per millivolt over a step of 1e-6 mV) instead of a bare inequality.

The virtual dispatch over `TypeB` .. `TypeT` is the function `computeTemperature` /
`computeColdJunctionVoltage` on the enumeration `ThermocoupleType`.
-/

namespace Thermocouple

variable {α : Type} [LinearOrderedField α]

/-! ## Shared evaluators (class `AbstractThermocouple`) -/

/-- The nine locals `T0, V0, p1..p4, q1..q3` that a branch of `computeTemperature` assigns. -/
structure Coefficients (α : Type) where
  T0 : α
  V0 : α
  p1 : α
  p2 : α
  p3 : α
  p4 : α
  q1 : α
  q2 : α
  q3 : α

/-- Sentinel `AbstractThermocouple::TCOUPLE_OUT_OF_RANGE` (Thermocouple.h line 40). -/
def TCOUPLE_OUT_OF_RANGE : α := -1000.0

/-- Macro `numerator` of `computeColdJunction` (Thermocouple.cpp line 56). -/
def coldJunctionNumerator (Tcj T0 p1 p2 p3 p4 : α) : α :=
  ((Tcj - T0)*(p1 + (Tcj - T0)*(p2 + (Tcj - T0) * (p3 + p4*(Tcj - T0)))))

/-- Macro `denominator` of `computeColdJunction` (Thermocouple.cpp line 57). -/
def coldJunctionDenominator (Tcj T0 q1 q2 : α) : α :=
  (1.0 + (Tcj - T0) * (q1 + q2*(Tcj - T0)))

/-- Shared evaluator `AbstractThermocouple::computeColdJunction` (Thermocouple.cpp line 45). -/
def computeColdJunction (Tcj T0 V0 p1 p2 p3 p4 q1 q2 : α) : α :=
  (V0 + (coldJunctionNumerator Tcj T0 p1 p2 p3 p4 / coldJunctionDenominator Tcj T0 q1 q2))

/-- Macro `numerator` of `computeTemperatureInternal` (Thermocouple.cpp line 74). -/
def temperatureNumerator (millivolts V0 p1 p2 p3 p4 : α) : α :=
  ((millivolts - V0)*(p1 + (millivolts - V0)*(p2 + (millivolts - V0)*(p3 + p4*(millivolts-V0)))))

/-- Macro `denominator` of `computeTemperatureInternal` (Thermocouple.cpp line 75). -/
def temperatureDenominator (millivolts V0 q1 q2 q3 : α) : α :=
  (1.0 + (millivolts - V0)*(q1 + (millivolts - V0)*(q2 + q3*(millivolts - V0))))

/-- Shared evaluator `AbstractThermocouple::computeTemperatureInternal`
(Thermocouple.cpp line 63). -/
def computeTemperatureInternal (millivolts T0 V0 p1 p2 p3 p4 q1 q2 q3 : α) : α :=
  (T0 + (temperatureNumerator millivolts V0 p1 p2 p3 p4 / temperatureDenominator millivolts V0 q1 q2 q3))

/-- The evaluator `computeTemperatureInternal` applied to one coefficient set. -/
def Coefficients.eval (c : Coefficients α) (millivolts : α) : α :=
  computeTemperatureInternal millivolts c.T0 c.V0 c.p1 c.p2 c.p3 c.p4 c.q1 c.q2 c.q3

/-- The divisor of `computeTemperatureInternal` for one coefficient set. -/
def Coefficients.denominator (c : Coefficients α) (millivolts : α) : α :=
  temperatureDenominator millivolts c.V0 c.q1 c.q2 c.q3

/-! ### Type B -/

/-- Cold-junction voltage of a type B thermocouple: `TypeB::computeColdJunctionVoltage`
(Thermocouple.cpp line 85), the eight local constants passed on in the source order. -/
def TypeB.computeColdJunctionVoltage (Tcj : α) : α :=
  let T0 : α := 4.2000000E+01
  let V0 : α := 3.3933898E-04
  let p1 : α := 2.1196684E-04
  let p2 : α := 3.3801250E-06
  let p3 : α := -1.4793289E-07
  let p4 : α := -3.3571424E-09
  let q1 : α := -1.0920410E-02
  let q2 : α := -4.9782932E-04
  computeColdJunction Tcj T0 V0 p1 p2 p3 p4 q1 q2

/-- Coefficients assigned in the first branch of `TypeB::computeTemperature`
(range test on 0.291 and 2.431). -/
def TypeB.segment1 : Coefficients α where
  T0 := 5.0000000E+02
  V0 := 1.2417900E+00
  p1 := 1.9858097E+02
  p2 := 2.4284248E+01
  p3 := 9.7271640E+01
  p4 := -1.5701178E+01
  q1 := 3.1009445E-01
  q2 := -5.0880251E-01
  q3 := -1.6163342E-01

/-- Coefficients assigned in the second branch of `TypeB::computeTemperature`
(range test on 2.431 and 13.820). -/
def TypeB.segment2 : Coefficients α where
  T0 := 1.2461474E+03
  V0 := 7.2701221E+00
  p1 := 9.4321033E+01
  p2 := 7.3899296E+00
  p3 := -1.5880987E-01
  p4 := 1.2681877E-02
  q1 := 1.0113834E-01
  q2 := -1.6145962E-03
  q3 := -4.1086314E-06

/-- The if / else-if chain of `TypeB::computeTemperature` (Thermocouple.cpp line 103):
the coefficient set the chain assigns, or `none` where it takes the final `else`. -/
def TypeB.selectCoefficients (millivolts : α) : Option (Coefficients α) :=
  if 0.291 ≤ millivolts ∧ millivolts < 2.431 then some TypeB.segment1
  else if 2.431 ≤ millivolts ∧ millivolts < 13.820 then some TypeB.segment2
  else none

/-- Temperature of a type B thermocouple from the total voltage: `TypeB::computeTemperature`. -/
def TypeB.computeTemperature (millivolts : α) : α :=
  match TypeB.selectCoefficients millivolts with
  | none => TCOUPLE_OUT_OF_RANGE
  | some c => computeTemperatureInternal millivolts c.T0 c.V0 c.p1 c.p2 c.p3 c.p4 c.q1 c.q2 c.q3

/-! ### Type E -/

/-- Cold-junction voltage of a type E thermocouple: `TypeE::computeColdJunctionVoltage`
(Thermocouple.cpp line 146), the eight local constants passed on in the source order. -/
def TypeE.computeColdJunctionVoltage (Tcj : α) : α :=
  let T0 : α := 2.5000000E+01
  let V0 : α := 1.4950582E+00
  let p1 : α := 6.0958443E-02
  let p2 : α := -2.7351789E-04
  let p3 : α := -1.9130146E-05
  let p4 : α := -1.3948840E-08
  let q1 : α := -5.2382378E-03
  let q2 : α := -3.0970168E-04
  computeColdJunction Tcj T0 V0 p1 p2 p3 p4 q1 q2

/-- Coefficients assigned in the first branch of `TypeE::computeTemperature`
(range test on -9.835 and -5.237). -/
def TypeE.segment1 : Coefficients α where
  T0 := -1.1721668E+02
  V0 := -5.9901698E+00
  p1 := 2.3647275E+01
  p2 := 1.2807377E+01
  p3 := 2.0665069E+00
  p4 := 8.6513472E-02
  q1 := 5.8995860E-01
  q2 := 1.0960713E-01
  q3 := 6.1769588E-03

/-- Coefficients assigned in the second branch of `TypeE::computeTemperature`
(range test on -5.237 and 0.591). -/
def TypeE.segment2 : Coefficients α where
  T0 := -5.0000000E+01
  V0 := -2.7871777E+00
  p1 := 1.9022736E+01
  p2 := -1.7042725E+00
  p3 := -3.5195189E-01
  p4 := 4.7766102E-03
  q1 := -6.5379760E-02
  q2 := -2.1732833E-02
  q3 := 0.0

/-- Coefficients assigned in the third branch of `TypeE::computeTemperature`
(range test on 0.591 and 24.964). -/
def TypeE.segment3 : Coefficients α where
  T0 := 2.5014600E+02
  V0 := 1.7191713E+01
  p1 := 1.3115522E+01
  p2 := 1.1780364E+00
  p3 := 3.6422433E-02
  p4 := 3.9584261E-04
  q1 := 9.3112756E-02
  q2 := 2.9804232E-03
  q3 := 3.3263032E-05

/-- Coefficients assigned in the fourth branch of `TypeE::computeTemperature`
(range test on 24.964 and 53.112). -/
def TypeE.segment4 : Coefficients α where
  T0 := 6.0139890E+02
  V0 := 4.5206167E+01
  p1 := 1.2399357E+01
  p2 := 4.3399963E-01
  p3 := 9.1967085E-03
  p4 := 1.6901585E-04
  q1 := 3.4424680E-02
  q2 := 6.9741215E-04
  q3 := 1.2946992E-05

/-- Coefficients assigned in the fifth branch of `TypeE::computeTemperature`
(range test on 53.112 and 76.373). -/
def TypeE.segment5 : Coefficients α where
  T0 := 8.0435911E+02
  V0 := 6.1359178E+01
  p1 := 1.2759508E+01
  p2 := -1.1116072E+00
  p3 := 3.5332536E-02
  p4 := 3.3080380E-05
  q1 := -8.8196889E-02
  q2 := 2.8497415E-03
  q3 := 0.0

/-- The if / else-if chain of `TypeE::computeTemperature` (Thermocouple.cpp line 162):
the coefficient set the chain assigns, or `none` where it takes the final `else`. -/
def TypeE.selectCoefficients (millivolts : α) : Option (Coefficients α) :=
  if -9.835 ≤ millivolts ∧ millivolts < -5.237 then some TypeE.segment1
  else if -5.237 ≤ millivolts ∧ millivolts < 0.591 then some TypeE.segment2
  else if 0.591 ≤ millivolts ∧ millivolts < 24.964 then some TypeE.segment3
  else if 24.964 ≤ millivolts ∧ millivolts < 53.112 then some TypeE.segment4
  else if 53.112 ≤ millivolts ∧ millivolts < 76.373 then some TypeE.segment5
  else none

/-- Temperature of a type E thermocouple from the total voltage: `TypeE::computeTemperature`. -/
def TypeE.computeTemperature (millivolts : α) : α :=
  match TypeE.selectCoefficients millivolts with
  | none => TCOUPLE_OUT_OF_RANGE
  | some c => computeTemperatureInternal millivolts c.T0 c.V0 c.p1 c.p2 c.p3 c.p4 c.q1 c.q2 c.q3

/-! ### Type J -/

/-- Cold-junction voltage of a type J thermocouple: `TypeJ::computeColdJunctionVoltage`
(Thermocouple.cpp line 241), the eight local constants passed on in the source order. -/
def TypeJ.computeColdJunctionVoltage (Tcj : α) : α :=
  let T0 : α := 2.5000000E+01
  let V0 : α := 1.2773432E+00
  let p1 : α := 5.1744084E-02
  let p2 : α := -5.4138663E-05
  let p3 : α := -2.2895769E-06
  let p4 : α := -7.7947143E-10
  let q1 : α := -1.5173342E-03
  let q2 : α := -4.2314514E-05
  computeColdJunction Tcj T0 V0 p1 p2 p3 p4 q1 q2

/-- Coefficients assigned in the first branch of `TypeJ::computeTemperature`
(range test on -8.095 and 0). -/
def TypeJ.segment1 : Coefficients α where
  T0 := -6.4936529E+01
  V0 := -3.1169773E+00
  p1 := 2.2133797E+01
  p2 := 2.0476437E+00
  p3 := -4.6867532E-01
  p4 := -3.6673992E-02
  q1 := 1.1746348E-01
  q2 := -2.0903413E-02
  q3 := -2.1823704E-03

/-- Coefficients assigned in the second branch of `TypeJ::computeTemperature`
(range test on 0 and 21.840). -/
def TypeJ.segment2 : Coefficients α where
  T0 := 2.5066947E+02
  V0 := 1.3592329E+01
  p1 := 1.8014787E+01
  p2 := -6.5218881E-02
  p3 := -1.2179108E-02
  p4 := 2.0061707E-04
  q1 := -3.9494552E-03
  q2 := -7.3728206E-04
  q3 := 1.6679731E-05

/-- Coefficients assigned in the third branch of `TypeJ::computeTemperature`
(range test on 21.840 and 45.494). -/
def TypeJ.segment3 : Coefficients α where
  T0 := 6.4950262E+02
  V0 := 3.6040848E+01
  p1 := 1.6593395E+01
  p2 := 7.3009590E-01
  p3 := 2.4157343E-02
  p4 := 1.2787077E-03
  q1 := 4.9172861E-02
  q2 := 1.6813810E-03
  q3 := 7.6067922E-05

/-- Coefficients assigned in the fourth branch of `TypeJ::computeTemperature`
(range test on 45.494 and 57.953). -/
def TypeJ.segment4 : Coefficients α where
  T0 := 9.2510550E+02
  V0 := 5.3433832E+01
  p1 := 1.6243326E+01
  p2 := 9.2793267E-01
  p3 := 6.4644193E-03
  p4 := 2.0464414E-03
  q1 := 5.2541788E-02
  q2 := 1.3682959E-04
  q3 := 1.3454746E-04

/-- Coefficients assigned in the fifth branch of `TypeJ::computeTemperature`
(range test on 57.953 and 69.553). -/
def TypeJ.segment5 : Coefficients α where
  T0 := 1.0511294E+03
  V0 := 6.0956091E+01
  p1 := 1.7156001E+01
  p2 := -2.5931041E+00
  p3 := -5.8339803E-02
  p4 := 1.9954137E-02
  q1 := -1.5305581E-01
  q2 := -2.9523967E-03
  q3 := 1.1340164E-03

/-- The if / else-if chain of `TypeJ::computeTemperature` (Thermocouple.cpp line 258):
the coefficient set the chain assigns, or `none` where it takes the final `else`. -/
def TypeJ.selectCoefficients (millivolts : α) : Option (Coefficients α) :=
  if -8.095 ≤ millivolts ∧ millivolts < 0 then some TypeJ.segment1
  else if 0 ≤ millivolts ∧ millivolts < 21.840 then some TypeJ.segment2
  else if 21.840 ≤ millivolts ∧ millivolts < 45.494 then some TypeJ.segment3
  else if 45.494 ≤ millivolts ∧ millivolts < 57.953 then some TypeJ.segment4
  else if 57.953 ≤ millivolts ∧ millivolts < 69.553 then some TypeJ.segment5
  else none

/-- Temperature of a type J thermocouple from the total voltage: `TypeJ::computeTemperature`. -/
def TypeJ.computeTemperature (millivolts : α) : α :=
  match TypeJ.selectCoefficients millivolts with
  | none => TCOUPLE_OUT_OF_RANGE
  | some c => computeTemperatureInternal millivolts c.T0 c.V0 c.p1 c.p2 c.p3 c.p4 c.q1 c.q2 c.q3

/-! ### Type K -/

/-- Cold-junction voltage of a type K thermocouple: `TypeK::computeColdJunctionVoltage`
(Thermocouple.cpp line 339), the eight local constants passed on in the source order. -/
def TypeK.computeColdJunctionVoltage (Tcj : α) : α :=
  let T0 : α := 25.0
  let V0 : α := 1.0003453
  let p1 : α := 4.0514854E-02
  let p2 : α := -3.8789638E-05
  let p3 : α := -2.8608478E-06
  let p4 : α := -9.5367041E-10
  let q1 : α := -1.3948675E-03
  let q2 : α := -6.7976627E-05
  computeColdJunction Tcj T0 V0 p1 p2 p3 p4 q1 q2

/-- Coefficients assigned in the first branch of `TypeK::computeTemperature`
(range test on -6.404 and -3.554). -/
def TypeK.segment1 : Coefficients α where
  T0 := -1.2147164E+02
  V0 := -4.1790858E+00
  p1 := 3.6069513E+01
  p2 := 3.0722076E+01
  p3 := 7.7913860E+00
  p4 := 5.2593991E-01
  q1 := 9.3939547E-01
  q2 := 2.7791285E-01
  q3 := 2.5163349E-02

/-- Coefficients assigned in the second branch of `TypeK::computeTemperature`
(range test on -3.554 and 4.096). -/
def TypeK.segment2 : Coefficients α where
  T0 := -8.7935962E+00
  V0 := -3.4489914E-01
  p1 := 2.5678719E+01
  p2 := -4.9887904E-01
  p3 := -4.4705222E-01
  p4 := -4.4869203E-02
  q1 := 2.3893439E-04
  q2 := -2.0397750E-02
  q3 := -1.8424107E-03

/-- Coefficients assigned in the third branch of `TypeK::computeTemperature`
(range test on 4.096 and 16.397). -/
def TypeK.segment3 : Coefficients α where
  T0 := 3.1018976E+02
  V0 := 1.2631386E+01
  p1 := 2.4061949E+01
  p2 := 4.0158622E+00
  p3 := 2.6853917E-01
  p4 := -9.7188544E-03
  q1 := 1.6995872E-01
  q2 := 1.1413069E-02
  q3 := -3.9275155E-04

/-- Coefficients assigned in the fourth branch of `TypeK::computeTemperature`
(range test on 16.397 and 33.275). -/
def TypeK.segment4 : Coefficients α where
  T0 := 6.0572562E+02
  V0 := 2.5148718E+01
  p1 := 2.3539401E+01
  p2 := 4.6547228E-02
  p3 := 1.3444400E-02
  p4 := 5.9236853E-04
  q1 := 8.3445513E-04
  q2 := 4.6121445E-04
  q3 := 2.5488122E-05

/-- Coefficients assigned in the fifth branch of `TypeK::computeTemperature`
(range test on 33.275 and 69.553). -/
def TypeK.segment5 : Coefficients α where
  T0 := 1.0184705E+03
  V0 := 4.1993851E+01
  p1 := 2.5783239E+01
  p2 := -1.8363403E+00
  p3 := 5.6176662E-02
  p4 := 1.8532400E-04
  q1 := -7.4803355E-02
  q2 := 2.3841860E-03
  q3 := 0.0000000E+00

/-- The if / else-if chain of `TypeK::computeTemperature` (Thermocouple.cpp line 356):
the coefficient set the chain assigns, or `none` where it takes the final `else`. -/
def TypeK.selectCoefficients (millivolts : α) : Option (Coefficients α) :=
  if -6.404 < millivolts ∧ millivolts ≤ -3.554 then some TypeK.segment1
  else if -3.554 < millivolts ∧ millivolts ≤ 4.096 then some TypeK.segment2
  else if 4.096 < millivolts ∧ millivolts ≤ 16.397 then some TypeK.segment3
  else if 16.397 < millivolts ∧ millivolts ≤ 33.275 then some TypeK.segment4
  else if 33.275 < millivolts ∧ millivolts ≤ 69.553 then some TypeK.segment5
  else none

/-- Temperature of a type K thermocouple from the total voltage: `TypeK::computeTemperature`. -/
def TypeK.computeTemperature (millivolts : α) : α :=
  match TypeK.selectCoefficients millivolts with
  | none => TCOUPLE_OUT_OF_RANGE
  | some c => computeTemperatureInternal millivolts c.T0 c.V0 c.p1 c.p2 c.p3 c.p4 c.q1 c.q2 c.q3

/-! ### Type N -/

/-- Cold-junction voltage of a type N thermocouple: `TypeN::computeColdJunctionVoltage`
(Thermocouple.cpp line 436), the eight local constants passed on in the source order. -/
def TypeN.computeColdJunctionVoltage (Tcj : α) : α :=
  let T0 : α := 7.0000000E+00
  let V0 : α := 1.8210024E-01
  let p1 : α := 2.6228256E-02
  let p2 : α := -1.5485539E-04
  let p3 : α := 2.1366031E-06
  let p4 : α := 9.2047105E-10
  let q1 : α := -6.4070932E-03
  let q2 : α := 8.2161781E-05
  computeColdJunction Tcj T0 V0 p1 p2 p3 p4 q1 q2

/-- Coefficients assigned in the first branch of `TypeN::computeTemperature`
(range test on -4.313 and 0.0). -/
def TypeN.segment1 : Coefficients α where
  T0 := -5.9610511E+01
  V0 := -1.5000000E+00
  p1 := 4.2021322E+01
  p2 := 4.7244037E+00
  p3 := -6.1153213E+00
  p4 := -9.9980337E-01
  q1 := 1.6385664E-01
  q2 := -1.4994026E-01
  q3 := -3.0810372E-02

/-- Coefficients assigned in the second branch of `TypeN::computeTemperature`
(range test on 0.0 and 20.613). -/
def TypeN.segment2 : Coefficients α where
  T0 := 3.1534505E+02
  V0 := 9.8870997E+00
  p1 := 2.7988676E+01
  p2 := 1.5417343E+00
  p3 := -1.4689457E-01
  p4 := -6.8322712E-03
  q1 := 6.2600036E-02
  q2 := -5.1489572E-03
  q3 := -2.8835863E-04

/-- Coefficients assigned in the third branch of `TypeN::computeTemperature`
(range test on 20.613 and 47.513). -/
def TypeN.segment3 : Coefficients α where
  T0 := 1.0340172E+03
  V0 := 3.7565475E+01
  p1 := 2.6029492E+01
  p2 := -6.0783095E-01
  p3 := -9.7742562E-03
  p4 := -3.3148813E-06
  q1 := -2.5351881E-02
  q2 := -3.8746827E-04
  q3 := 1.7088177E-06

/-- The if / else-if chain of `TypeN::computeTemperature` (Thermocouple.cpp line 454):
the coefficient set the chain assigns, or `none` where it takes the final `else`. -/
def TypeN.selectCoefficients (millivolts : α) : Option (Coefficients α) :=
  if -4.313 ≤ millivolts ∧ millivolts < 0.0 then some TypeN.segment1
  else if 0.0 ≤ millivolts ∧ millivolts < 20.613 then some TypeN.segment2
  else if 20.613 ≤ millivolts ∧ millivolts < 47.513 then some TypeN.segment3
  else none

/-- Temperature of a type N thermocouple from the total voltage: `TypeN::computeTemperature`. -/
def TypeN.computeTemperature (millivolts : α) : α :=
  match TypeN.selectCoefficients millivolts with
  | none => TCOUPLE_OUT_OF_RANGE
  | some c => computeTemperatureInternal millivolts c.T0 c.V0 c.p1 c.p2 c.p3 c.p4 c.q1 c.q2 c.q3

/-! ### Type R -/

/-- Cold-junction voltage of a type R thermocouple: `TypeR::computeColdJunctionVoltage`
(Thermocouple.cpp line 509), the eight local constants passed on in the source order. -/
def TypeR.computeColdJunctionVoltage (Tcj : α) : α :=
  let T0 : α := 2.5000000E+01
  let V0 : α := 1.4067016E-01
  let p1 : α := 5.9330356E-03
  let p2 : α := 2.7736904E-05
  let p3 : α := -1.0819644E-06
  let p4 : α := -2.3098349E-09
  let q1 : α := 2.6146871E-03
  let q2 : α := -1.8621487E-04
  computeColdJunction Tcj T0 V0 p1 p2 p3 p4 q1 q2

/-- Coefficients assigned in the first branch of `TypeR::computeTemperature`
(range test on -0.226 and 1.469). -/
def TypeR.segment1 : Coefficients α where
  T0 := 1.3054315E+02
  V0 := 8.8333090E-01
  p1 := 1.2557377E+02
  p2 := 1.3900275E+02
  p3 := 3.3035469E+01
  p4 := -8.5195924E-01
  q1 := 1.2232896E+00
  q2 := 3.5603023E-01
  q3 := 0.0

/-- Coefficients assigned in the second branch of `TypeR::computeTemperature`
(range test on 1.469 and 7.461). -/
def TypeR.segment2 : Coefficients α where
  T0 := 5.4188181E+02
  V0 := 4.9312886E+00
  p1 := 9.0208190E+01
  p2 := 6.1762254E+00
  p3 := -1.2279323E+00
  p4 := 1.4873153E-02
  q1 := 8.7670455E-02
  q2 := -1.2906694E-02
  q3 := 0.0

/-- Coefficients assigned in the third branch of `TypeR::computeTemperature`
(range test on 7.461 and 14.277). -/
def TypeR.segment3 : Coefficients α where
  T0 := 1.0382132E+03
  V0 := 1.1014763E+01
  p1 := 7.4669343E+01
  p2 := 3.4090711E+00
  p3 := -1.4511205E-01
  p4 := 6.3077387E-03
  q1 := 5.6880253E-02
  q2 := -2.0512736E-03
  q3 := 0.0

/-- Coefficients assigned in the fourth branch of `TypeR::computeTemperature`
(range test on 14.277 and 21.101). -/
def TypeR.segment4 : Coefficients α where
  T0 := 1.5676133E+03
  V0 := 1.8397910E+01
  p1 := 7.1646299E+01
  p2 := -1.0866763E+00
  p3 := -2.0968371E+00
  p4 := -7.6741168E-01
  q1 := -1.9712341E-02
  q2 := -2.9903595E-02
  q3 := -1.0766878E-02

/-- The if / else-if chain of `TypeR::computeTemperature` (Thermocouple.cpp line 527):
the coefficient set the chain assigns, or `none` where it takes the final `else`. -/
def TypeR.selectCoefficients (millivolts : α) : Option (Coefficients α) :=
  if -0.226 ≤ millivolts ∧ millivolts < 1.469 then some TypeR.segment1
  else if 1.469 ≤ millivolts ∧ millivolts < 7.461 then some TypeR.segment2
  else if 7.461 ≤ millivolts ∧ millivolts < 14.277 then some TypeR.segment3
  else if 14.277 ≤ millivolts ∧ millivolts < 21.101 then some TypeR.segment4
  else none

/-- Temperature of a type R thermocouple from the total voltage: `TypeR::computeTemperature`. -/
def TypeR.computeTemperature (millivolts : α) : α :=
  match TypeR.selectCoefficients millivolts with
  | none => TCOUPLE_OUT_OF_RANGE
  | some c => computeTemperatureInternal millivolts c.T0 c.V0 c.p1 c.p2 c.p3 c.p4 c.q1 c.q2 c.q3

/-! ### Type S -/

/-- Cold-junction voltage of a type S thermocouple: `TypeS::computeColdJunctionVoltage`
(Thermocouple.cpp line 594), the eight local constants passed on in the source order. -/
def TypeS.computeColdJunctionVoltage (Tcj : α) : α :=
  let T0 : α := 2.5000000E+01
  let V0 : α := 1.4269163E-01
  let p1 : α := 5.9829057E-03
  let p2 : α := 4.5292259E-06
  let p3 : α := -1.3380281E-06
  let p4 : α := -2.3742577E-09
  let q1 : α := -1.0650446E-03
  let q2 : α := -2.2042420E-04
  computeColdJunction Tcj T0 V0 p1 p2 p3 p4 q1 q2

/-- Coefficients assigned in the first branch of `TypeS::computeTemperature`
(range test on -0.236 and 1.441). -/
def TypeS.segment1 : Coefficients α where
  T0 := 1.3792630E+02
  V0 := 9.3395024E-01
  p1 := 1.2761836E+02
  p2 := 1.1089050E+02
  p3 := 1.9898457E+01
  p4 := 9.6152996E-02
  q1 := 9.6545918E-01
  q2 := 2.0813850E-01
  q3 := 0.0

/-- Coefficients assigned in the second branch of `TypeS::computeTemperature`
(range test on 1.441 and 6.913). -/
def TypeS.segment2 : Coefficients α where
  T0 := 4.7673468E+02
  V0 := 4.0037367E+00
  p1 := 1.0174512E+02
  p2 := -8.9306371E+00
  p3 := -4.2942435E+00
  p4 := 2.0453847E-01
  q1 := -7.1227776E-02
  q2 := -4.4618306E-02
  q3 := 1.6822887E-03

/-- Coefficients assigned in the third branch of `TypeS::computeTemperature`
(range test on 6.913 and 12.856). -/
def TypeS.segment3 : Coefficients α where
  T0 := 9.7946589E+02
  V0 := 9.3508283E+00
  p1 := 8.7126730E+01
  p2 := -2.3139202E+00
  p3 := -3.2682118E-02
  p4 := 4.6090022E-03
  q1 := -1.4299790E-02
  q2 := -1.2289882E-03
  q3 := 0.0

/-- Coefficients assigned in the fourth branch of `TypeS::computeTemperature`
(range test on 12.856 and 18.693). -/
def TypeS.segment4 : Coefficients α where
  T0 := 1.6010461E+03
  V0 := 1.6789315E+01
  p1 := 8.4315871E+01
  p2 := -1.0185043E+01
  p3 := -4.6283954E+00
  p4 := -1.0158749E+00
  q1 := -1.2877783E-01
  q2 := -5.5802216E-02
  q3 := -1.2146518E-02

/-- The if / else-if chain of `TypeS::computeTemperature` (Thermocouple.cpp line 611):
the coefficient set the chain assigns, or `none` where it takes the final `else`. -/
def TypeS.selectCoefficients (millivolts : α) : Option (Coefficients α) :=
  if -0.236 ≤ millivolts ∧ millivolts < 1.441 then some TypeS.segment1
  else if 1.441 ≤ millivolts ∧ millivolts < 6.913 then some TypeS.segment2
  else if 6.913 ≤ millivolts ∧ millivolts < 12.856 then some TypeS.segment3
  else if 12.856 ≤ millivolts ∧ millivolts < 18.693 then some TypeS.segment4
  else none

/-- Temperature of a type S thermocouple from the total voltage: `TypeS::computeTemperature`. -/
def TypeS.computeTemperature (millivolts : α) : α :=
  match TypeS.selectCoefficients millivolts with
  | none => TCOUPLE_OUT_OF_RANGE
  | some c => computeTemperatureInternal millivolts c.T0 c.V0 c.p1 c.p2 c.p3 c.p4 c.q1 c.q2 c.q3

/-! ### Type T -/

/-- Cold-junction voltage of a type T thermocouple: `TypeT::computeColdJunctionVoltage`
(Thermocouple.cpp line 678), the eight local constants passed on in the source order. -/
def TypeT.computeColdJunctionVoltage (Tcj : α) : α :=
  let T0 : α := 2.5000000E+01
  let V0 : α := 9.9198279E-01
  let p1 : α := 4.0716564E-02
  let p2 : α := 7.1170297E-04
  let p3 : α := 6.8782631E-07
  let p4 : α := 4.3295061E-11
  let q1 : α := 1.6458102E-02
  let q2 : α := 0.0
  computeColdJunction Tcj T0 V0 p1 p2 p3 p4 q1 q2

/-- Coefficients assigned in the first branch of `TypeT::computeTemperature`
(range test on -6.18 and -4.648). -/
def TypeT.segment1 : Coefficients α where
  T0 := -1.9243000E+02
  V0 := -5.4798963E+00
  p1 := 5.9572141E+01
  p2 := 1.9675733E+00
  p3 := -7.8176011E+01
  p4 := -1.0963280E+01
  q1 := 2.7498092E-01
  q2 := -1.3768944E+00
  q3 := -4.5209805E-01

/-- Coefficients assigned in the second branch of `TypeT::computeTemperature`
(range test on -4.648 and 0.0). -/
def TypeT.segment2 : Coefficients α where
  T0 := -6.0000000E+01
  V0 := -2.1528350E+00
  p1 := 3.0449332E+01
  p2 := -1.2946560E+00
  p3 := -3.0500735E+00
  p4 := -1.9226856E-01
  q1 := 6.9877863E-03
  q2 := -1.0596207E-01
  q3 := -1.0774995E-02

/-- Coefficients assigned in the third branch of `TypeT::computeTemperature`
(range test on 0.0 and 9.288). -/
def TypeT.segment3 : Coefficients α where
  T0 := 1.3500000E+02
  V0 := 5.9588600E+00
  p1 := 2.0325591E+01
  p2 := 3.3013079E+00
  p3 := 1.2638462E-01
  p4 := -8.2883695E-04
  q1 := 1.7595577E-01
  q2 := 7.9740521E-03
  q3 := 0.0

/-- Coefficients assigned in the fourth branch of `TypeT::computeTemperature`
(range test on 9.288 and 20.872). -/
def TypeT.segment4 : Coefficients α where
  T0 := 3.0000000E+02
  V0 := 1.4861780E+01
  p1 := 1.7214707E+01
  p2 := -9.3862713E-01
  p3 := -7.3509066E-02
  p4 := 2.9576140E-04
  q1 := -4.8095795E-02
  q2 := -4.7352054E-03
  q3 := -1.2146518E-02

/-- The if / else-if chain of `TypeT::computeTemperature` (Thermocouple.cpp line 695):
the coefficient set the chain assigns, or `none` where it takes the final `else`. -/
def TypeT.selectCoefficients (millivolts : α) : Option (Coefficients α) :=
  if -6.18 ≤ millivolts ∧ millivolts < -4.648 then some TypeT.segment1
  else if -4.648 ≤ millivolts ∧ millivolts < 0.0 then some TypeT.segment2
  else if 0.0 ≤ millivolts ∧ millivolts < 9.288 then some TypeT.segment3
  else if 9.288 ≤ millivolts ∧ millivolts < 20.872 then some TypeT.segment4
  else none

/-- Temperature of a type T thermocouple from the total voltage: `TypeT::computeTemperature`. -/
def TypeT.computeTemperature (millivolts : α) : α :=
  match TypeT.selectCoefficients millivolts with
  | none => TCOUPLE_OUT_OF_RANGE
  | some c => computeTemperatureInternal millivolts c.T0 c.V0 c.p1 c.p2 c.p3 c.p4 c.q1 c.q2 c.q3
/-! ## Dispatch -/

/-- The eight concrete subclasses of `AbstractThermocouple`. -/
inductive ThermocoupleType where
  | B | E | J | K | N | R | S | T
  deriving DecidableEq

/-- Virtual `computeColdJunctionVoltage`, resolved on the class of the object. -/
def computeColdJunctionVoltage : ThermocoupleType → α → α
  | .B => TypeB.computeColdJunctionVoltage
  | .E => TypeE.computeColdJunctionVoltage
  | .J => TypeJ.computeColdJunctionVoltage
  | .K => TypeK.computeColdJunctionVoltage
  | .N => TypeN.computeColdJunctionVoltage
  | .R => TypeR.computeColdJunctionVoltage
  | .S => TypeS.computeColdJunctionVoltage
  | .T => TypeT.computeColdJunctionVoltage

/-- The if / else-if chain of the `computeTemperature` of each class. -/
def selectCoefficients : ThermocoupleType → α → Option (Coefficients α)
  | .B => TypeB.selectCoefficients
  | .E => TypeE.selectCoefficients
  | .J => TypeJ.selectCoefficients
  | .K => TypeK.selectCoefficients
  | .N => TypeN.selectCoefficients
  | .R => TypeR.selectCoefficients
  | .S => TypeS.selectCoefficients
  | .T => TypeT.selectCoefficients

/-- Virtual `computeTemperature`, resolved on the class of the object. -/
def computeTemperature : ThermocoupleType → α → α
  | .B => TypeB.computeTemperature
  | .E => TypeE.computeTemperature
  | .J => TypeJ.computeTemperature
  | .K => TypeK.computeTemperature
  | .N => TypeN.computeTemperature
  | .R => TypeR.computeTemperature
  | .S => TypeS.computeTemperature
  | .T => TypeT.computeTemperature

/-- The 64-bit entry point `AbstractThermocouple::getTemperature(double, double)`
(Thermocouple.cpp line 38). -/
def getTemperature (ty : ThermocoupleType) (millivolts Tcj : α) : α :=
  let Vcj := computeColdJunctionVoltage ty Tcj
  computeTemperature ty (millivolts + Vcj)

/-! ## The tables behind the code, as data -/

/-- The eight constants of a `computeColdJunctionVoltage`. -/
structure ColdJunctionCoefficients (α : Type) where
  T0 : α
  V0 : α
  p1 : α
  p2 : α
  p3 : α
  p4 : α
  q1 : α
  q2 : α

/-- One range test of a `computeTemperature` with the coefficient set of its branch. -/
structure Segment (α : Type) where
  lo : α
  hi : α
  coef : Coefficients α

/-- Cold-junction coefficient set of each type, as a table. -/
def coldJunctionCoefficients : ThermocoupleType → ColdJunctionCoefficients α
  | .B => ⟨4.2000000E+01, 3.3933898E-04, 2.1196684E-04, 3.3801250E-06, -1.4793289E-07, -3.3571424E-09, -1.0920410E-02, -4.9782932E-04⟩
  | .E => ⟨2.5000000E+01, 1.4950582E+00, 6.0958443E-02, -2.7351789E-04, -1.9130146E-05, -1.3948840E-08, -5.2382378E-03, -3.0970168E-04⟩
  | .J => ⟨2.5000000E+01, 1.2773432E+00, 5.1744084E-02, -5.4138663E-05, -2.2895769E-06, -7.7947143E-10, -1.5173342E-03, -4.2314514E-05⟩
  | .K => ⟨25.0, 1.0003453, 4.0514854E-02, -3.8789638E-05, -2.8608478E-06, -9.5367041E-10, -1.3948675E-03, -6.7976627E-05⟩
  | .N => ⟨7.0000000E+00, 1.8210024E-01, 2.6228256E-02, -1.5485539E-04, 2.1366031E-06, 9.2047105E-10, -6.4070932E-03, 8.2161781E-05⟩
  | .R => ⟨2.5000000E+01, 1.4067016E-01, 5.9330356E-03, 2.7736904E-05, -1.0819644E-06, -2.3098349E-09, 2.6146871E-03, -1.8621487E-04⟩
  | .S => ⟨2.5000000E+01, 1.4269163E-01, 5.9829057E-03, 4.5292259E-06, -1.3380281E-06, -2.3742577E-09, -1.0650446E-03, -2.2042420E-04⟩
  | .T => ⟨2.5000000E+01, 9.9198279E-01, 4.0716564E-02, 7.1170297E-04, 6.8782631E-07, 4.3295061E-11, 1.6458102E-02, 0.0⟩

/-- Range tests of each type, in the order of the if / else-if chain, each with the
coefficient set of its branch. -/
def segments : ThermocoupleType → List (Segment α)
  | .B => [⟨0.291, 2.431, TypeB.segment1⟩, ⟨2.431, 13.820, TypeB.segment2⟩]
  | .E => [⟨-9.835, -5.237, TypeE.segment1⟩, ⟨-5.237, 0.591, TypeE.segment2⟩, ⟨0.591, 24.964, TypeE.segment3⟩, ⟨24.964, 53.112, TypeE.segment4⟩, ⟨53.112, 76.373, TypeE.segment5⟩]
  | .J => [⟨-8.095, 0, TypeJ.segment1⟩, ⟨0, 21.840, TypeJ.segment2⟩, ⟨21.840, 45.494, TypeJ.segment3⟩, ⟨45.494, 57.953, TypeJ.segment4⟩, ⟨57.953, 69.553, TypeJ.segment5⟩]
  | .K => [⟨-6.404, -3.554, TypeK.segment1⟩, ⟨-3.554, 4.096, TypeK.segment2⟩, ⟨4.096, 16.397, TypeK.segment3⟩, ⟨16.397, 33.275, TypeK.segment4⟩, ⟨33.275, 69.553, TypeK.segment5⟩]
  | .N => [⟨-4.313, 0.0, TypeN.segment1⟩, ⟨0.0, 20.613, TypeN.segment2⟩, ⟨20.613, 47.513, TypeN.segment3⟩]
  | .R => [⟨-0.226, 1.469, TypeR.segment1⟩, ⟨1.469, 7.461, TypeR.segment2⟩, ⟨7.461, 14.277, TypeR.segment3⟩, ⟨14.277, 21.101, TypeR.segment4⟩]
  | .S => [⟨-0.236, 1.441, TypeS.segment1⟩, ⟨1.441, 6.913, TypeS.segment2⟩, ⟨6.913, 12.856, TypeS.segment3⟩, ⟨12.856, 18.693, TypeS.segment4⟩]
  | .T => [⟨-6.18, -4.648, TypeT.segment1⟩, ⟨-4.648, 0.0, TypeT.segment2⟩, ⟨0.0, 9.288, TypeT.segment3⟩, ⟨9.288, 20.872, TypeT.segment4⟩]
/-- Lowest low bound of the range tests of each type. -/
def lowBound : ThermocoupleType → α
  | .B => 0.291
  | .E => -9.835
  | .J => -8.095
  | .K => -6.404
  | .N => -4.313
  | .R => -0.226
  | .S => -0.236
  | .T => -6.18

/-- Highest high bound of the range tests of each type. -/
def highBound : ThermocoupleType → α
  | .B => 13.820
  | .E => 76.373
  | .J => 69.553
  | .K => 69.553
  | .N => 47.513
  | .R => 21.101
  | .S => 18.693
  | .T => 20.872

/-- Shape of a range test between `lo` and `hi`: `TypeK` writes `lo < v && v <= hi`,
every other class writes `lo <= v && v < hi`. -/
def inRange (ty : ThermocoupleType) (lo hi v : α) : Prop :=
  match ty with
  | .K => lo < v ∧ v ≤ hi
  | _ => lo ≤ v ∧ v < hi

instance instDecidableInRange (ty : ThermocoupleType) (lo hi v : α) :
    Decidable (inRange ty lo hi v) := by
  cases ty <;> unfold inRange <;> infer_instance

/-- The range test of one segment, in the shape its class uses. -/
def inSegment (ty : ThermocoupleType) (s : Segment α) (v : α) : Prop :=
  inRange ty s.lo s.hi v

instance instDecidableInSegment (ty : ThermocoupleType) (s : Segment α) (v : α) :
    Decidable (inSegment ty s v) :=
  instDecidableInRange ty s.lo s.hi v

/-- Calibrated domain of a type: from the lowest low bound to the highest high bound,
with the inclusivity of the type's own range tests. -/
def inDomain (ty : ThermocoupleType) (v : α) : Prop :=
  inRange ty (lowBound ty) (highBound ty) v

/-- Scan of a segment list in order: the coefficient set of the first segment whose
range test holds. -/
def firstMatch (ty : ThermocoupleType) : List (Segment α) → α → Option (Coefficients α)
  | [], _ => none
  | s :: rest, v => if inSegment ty s v then some s.coef else firstMatch ty rest v

/-- Divisor of the quotient inside `computeColdJunctionVoltage` of each type. -/
def coldJunctionVoltageDenominator (ty : ThermocoupleType) (Tcj : α) : α :=
  coldJunctionDenominator Tcj (coldJunctionCoefficients ty).T0
    (coldJunctionCoefficients ty).q1 (coldJunctionCoefficients ty).q2

/-- Cold-junction form of the specification (section 4.1), written from its text:
`Δ = x - T0`, `numerator = Δ * (p1 + Δ*(p2 + Δ*(p3 + p4*Δ)))`,
`denominator = 1 + Δ*(q1 + q2*Δ)`, `result = V0 + numerator/denominator`. -/
def coldJunctionForm (c : ColdJunctionCoefficients α) (x : α) : α :=
  let Δ := x - c.T0
  let numerator := Δ * (c.p1 + Δ * (c.p2 + Δ * (c.p3 + c.p4 * Δ)))
  let denominator := 1 + Δ * (c.q1 + c.q2 * Δ)
  c.V0 + numerator / denominator

/-- Window of cold-junction temperatures (degrees Celsius, whole numbers) on which the
divisor of `computeColdJunctionVoltage` stays at or above 0.005.  For the types B, E, J, K,
R and S the divisor changes sign one degree outside either end; for type T it does so
below -35 degrees; the other ends are set to -1000 and 1000 degrees. -/
def coldJunctionWindow (ty : ThermocoupleType) (Tcj : α) : Prop :=
  match ty with
  | .B => -15 ≤ Tcj ∧ Tcj ≤ 77
  | .E => -40 ≤ Tcj ∧ Tcj ≤ 73
  | .J => -147 ≤ Tcj ∧ Tcj ≤ 161
  | .K => -106 ≤ Tcj ∧ Tcj ≤ 136
  | .N => -1000 ≤ Tcj ∧ Tcj ≤ 1000
  | .R => -41 ≤ Tcj ∧ Tcj ≤ 105
  | .S => -44 ≤ Tcj ∧ Tcj ≤ 89
  | .T => -35 ≤ Tcj ∧ Tcj ≤ 1000

/-- High bound of the last segment of the non-empty list `s :: l`. -/
def lastHi (s : Segment α) : List (Segment α) → α
  | [] => s.hi
  | t :: l => lastHi t l

/-- Two consecutive range tests are contiguous and ordered: the high bound of the first is
the low bound of the second, and the low bounds increase strictly. -/
def Contiguous (s t : Segment α) : Prop :=
  s.hi = t.lo ∧ s.lo < t.lo

/-- Interior boundaries of a type: each segment of the table paired with the next one. -/
def adjacentSegments (ty : ThermocoupleType) : List (Segment α × Segment α) :=
  (segments ty).zip (segments ty).tail

/-- Inverse-conversion form of the specification (section 4.1), written from its text:
`Δ = x - V0`, `numerator = Δ * (p1 + Δ*(p2 + Δ*(p3 + p4*Δ)))`,
`denominator = 1 + Δ*(q1 + Δ*(q2 + q3*Δ))`, `result = T0 + numerator/denominator`. -/
def inverseConversionForm (c : Coefficients α) (x : α) : α :=
  let Δ := x - c.V0
  let numerator := Δ * (c.p1 + Δ * (c.p2 + Δ * (c.p3 + c.p4 * Δ)))
  let denominator := 1 + Δ * (c.q1 + Δ * (c.q2 + c.q3 * Δ))
  c.T0 + numerator / denominator

/-- The 32-bit entry point `AbstractThermocouple::getTemperature(float, float)`
(Thermocouple.cpp line 33).  The type `F` stands for `float`; the two C casts are the
parameters `toDouble` (the cast `(double)`) and `toFloat` (the cast `(float)`). -/
def getTemperatureFloat {F : Type} (toDouble : F → α) (toFloat : α → F)
    (ty : ThermocoupleType) (millivolts Tcj : F) : F :=
  toFloat (getTemperature ty (toDouble millivolts) (toDouble Tcj))

/-- Reference temperature `T0` of the cold-junction fit of each type, as listed in the
specification's claim on `computeColdJunctionVoltage`. -/
def coldJunctionReferenceTemperature : ThermocoupleType → α
  | .B => 42
  | .E => 25
  | .J => 25
  | .K => 25
  | .N => 7
  | .R => 25
  | .S => 25
  | .T => 25

/-- Reference voltage `V0` of the cold-junction fit of each type, as listed in the
specification's claim on `computeColdJunctionVoltage`. -/
def coldJunctionReferenceVoltage : ThermocoupleType → α
  | .B => 3.3933898E-04
  | .E => 1.4950582
  | .J => 1.2773432
  | .K => 1.0003453
  | .N => 1.8210024E-01
  | .R => 1.4067016E-01
  | .S => 1.4269163E-01
  | .T => 9.9198279E-01

/-- Symmetric form `Σ g_ab u_a w_b` (with `u_0 = w_0 = 1`) of a table of ten coefficients:
at `u = (x, x², x³)`, `w = (y, y², y³)` it is a polynomial of degree three in each of
`x` and `y`. -/
def bicubicForm (g00 g01 g02 g03 g11 g12 g13 g22 g23 g33 u1 u2 u3 w1 w2 w3 : α) : α :=
  g00 + g01 * (u1 + w1) + g02 * (u2 + w2) + g03 * (u3 + w3) + g11 * (u1 * w1)
    + g12 * (u1 * w2 + u2 * w1) + g13 * (u1 * w3 + u3 * w1) + g22 * (u2 * w2)
    + g23 * (u2 * w3 + u3 * w2) + g33 * (u3 * w3)

/-- Bernstein node of `d` on `[A, B]`: the mean of `3 - k` copies of `A` and `k` of `B`. -/
def blossom1 (A B : α) : Nat → α
  | 0 => A
  | 1 => (2 * A + B) / 3
  | 2 => (A + 2 * B) / 3
  | _ => B

/-- Bernstein node of `d²` on `[A, B]`. -/
def blossom2 (A B : α) : Nat → α
  | 0 => A * A
  | 1 => (A * A + 2 * A * B) / 3
  | 2 => (2 * A * B + B * B) / 3
  | _ => B * B

/-- Bernstein node of `d³` on `[A, B]`. -/
def blossom3 (A B : α) : Nat → α
  | 0 => A * A * A
  | 1 => A * A * B
  | 2 => A * B * B
  | _ => B * B * B

/-- Divided difference of the inverse form, less `m` times the product of the two
denominators: with `N` and `D` the numerator and the denominator of
`computeTemperatureInternal` as polynomials in `d = millivolts - V0`,
`N(y) * D(x) - N(x) * D(y) - m * (y - x) * D(x) * D(y) = (y - x) * slopeForm`; written on
the nodes `u`, `w`.  Where it is positive the inverse form rises by more than `m` degrees
per millivolt. -/
def Coefficients.slopeForm (c : Coefficients α) (m u1 u2 u3 w1 w2 w3 : α) : α :=
  bicubicForm (c.p1 - m) (c.p2 - m * c.q1) (c.p3 - m * c.q2) (c.p4 - m * c.q3)
    (c.p3 + c.p2 * c.q1 - c.p1 * c.q2 - m * (c.q1 * c.q1))
    (c.p4 + c.p3 * c.q1 - c.p1 * c.q3 - m * (c.q1 * c.q2))
    (c.p4 * c.q1 - m * (c.q1 * c.q3))
    (c.p4 * c.q1 + c.p3 * c.q2 - c.p2 * c.q3 - m * (c.q2 * c.q2))
    (c.p4 * c.q2 - m * (c.q2 * c.q3)) (c.p4 * c.q3 - m * (c.q3 * c.q3))
    u1 u2 u3 w1 w2 w3

/-- Bernstein coefficient `(k, l)` of `slopeForm` on the square `[A, B]²`. -/
def Coefficients.slopeBernstein (c : Coefficients α) (m A B : α) (k l : Nat) : α :=
  c.slopeForm m (blossom1 A B k) (blossom2 A B k) (blossom3 A B k)
    (blossom1 A B l) (blossom2 A B l) (blossom3 A B l)

/-- Rise, in degrees per millivolt, that the inverse form exceeds inside every range test
but the fourth of type T. -/
def minimumSlope : α := 10

/-! ## Linking the tables to the code -/

theorem computeTemperature_eq_match (ty : ThermocoupleType) (v : α) :
    computeTemperature ty v =
      match selectCoefficients ty v with
      | none => TCOUPLE_OUT_OF_RANGE
      | some c => c.eval v := by
  cases ty <;> rfl

theorem selectCoefficients_eq_firstMatch (ty : ThermocoupleType) (v : α) :
    selectCoefficients ty v = firstMatch ty (segments ty) v := by
  cases ty <;> rfl

theorem computeTemperature_of_select_none {ty : ThermocoupleType} {v : α}
    (h : selectCoefficients ty v = none) : computeTemperature ty v = TCOUPLE_OUT_OF_RANGE := by
  rw [computeTemperature_eq_match, h]

theorem computeTemperature_of_select_some {ty : ThermocoupleType} {v : α} {c : Coefficients α}
    (h : selectCoefficients ty v = some c) : computeTemperature ty v = c.eval v := by
  rw [computeTemperature_eq_match, h]

/-! ## Range tests -/

theorem inRange_bounds {ty : ThermocoupleType} {lo hi v : α} (h : inRange ty lo hi v) :
    lo ≤ v ∧ v ≤ hi := by
  cases ty <;> simp only [inRange] at h <;>
    first
      | exact ⟨h.1, le_of_lt h.2⟩
      | exact ⟨le_of_lt h.1, h.2⟩

theorem inRange_glue {ty : ThermocoupleType} {a b c v : α} (h : inRange ty a c v)
    (hn : ¬ inRange ty a b v) : inRange ty b c v := by
  cases ty <;> simp only [inRange, not_and, not_lt, not_le] at h hn ⊢ <;>
    exact ⟨hn h.1, h.2⟩

theorem inRange_disjoint {ty : ThermocoupleType} {a b a' b' v : α} (h : inRange ty a b v)
    (hb : b ≤ a') : ¬ inRange ty a' b' v := by
  cases ty <;> simp only [inRange] at h ⊢ <;> intro h' <;>
    first
      | exact absurd (lt_of_lt_of_le h.2 (hb.trans h'.1)) (lt_irrefl _)
      | exact absurd (lt_of_le_of_lt (h.2.trans hb) h'.1) (lt_irrefl _)

theorem firstMatch_eq_none (ty : ThermocoupleType) (v : α) :
    ∀ l : List (Segment α), (∀ s ∈ l, ¬ inSegment ty s v) → firstMatch ty l v = none := by
  intro l
  induction l with
  | nil => intro _; rfl
  | cons s l ih =>
    intro h
    have hs : ¬ inSegment ty s v := h s (List.mem_cons_self s l)
    simp only [firstMatch, if_neg hs]
    exact ih fun t ht => h t (List.mem_cons_of_mem s ht)

theorem chain_later_lo {s : Segment α} :
    ∀ {l : List (Segment α)}, List.Chain Contiguous s l → ∀ u ∈ l, s.hi ≤ u.lo ∧ s.lo < u.lo := by
  intro l
  induction l generalizing s with
  | nil => intro _ u hu; cases hu
  | cons t l ih =>
    intro hc u hu
    rw [List.chain_cons] at hc
    obtain ⟨⟨hst, hlo⟩, hrest⟩ := hc
    rcases List.mem_cons.1 hu with rfl | hmem
    · exact ⟨le_of_eq hst, hlo⟩
    · have := ih hrest u hmem
      exact ⟨le_of_lt (hst ▸ this.2), hlo.trans this.2⟩

theorem firstMatch_unique (ty : ThermocoupleType) (v : α) :
    ∀ (l : List (Segment α)) (s : Segment α), List.Chain Contiguous s l →
      inRange ty s.lo (lastHi s l) v →
      ∃ u ∈ s :: l, inSegment ty u v ∧ firstMatch ty (s :: l) v = some u.coef ∧
        ∀ t ∈ s :: l, inSegment ty t v → t = u := by
  intro l
  induction l with
  | nil =>
    intro s _ hv
    refine ⟨s, List.mem_cons_self s [], hv, ?_, ?_⟩
    · simp only [firstMatch]
      exact if_pos hv
    · intro t ht _
      exact List.mem_singleton.1 ht
  | cons t l ih =>
    intro s hc hv
    have hlater := chain_later_lo hc
    rw [List.chain_cons] at hc
    obtain ⟨⟨hst, _⟩, hrest⟩ := hc
    by_cases hs : inSegment ty s v
    · refine ⟨s, List.mem_cons_self s _, hs, ?_, ?_⟩
      · simp only [firstMatch]
        exact if_pos hs
      · intro u hu huv
        rcases List.mem_cons.1 hu with rfl | hmem
        · rfl
        · exact absurd huv (inRange_disjoint hs (hlater u hmem).1)
    · have hv' : inRange ty t.lo (lastHi t l) v := by
        have := inRange_glue (b := s.hi) hv hs
        rwa [hst] at this
      obtain ⟨u, hu, huv, hfm, huniq⟩ := ih t hrest hv'
      refine ⟨u, List.mem_cons_of_mem s hu, huv, ?_, ?_⟩
      · rw [firstMatch, if_neg hs]
        exact hfm
      · intro w hw hwv
        rcases List.mem_cons.1 hw with rfl | hmem
        · exact absurd hwv hs
        · exact huniq w hmem hwv

/-! ## Facts of the tables -/

theorem segments_within_bounds (ty : ThermocoupleType) :
    ∀ s ∈ (segments ty : List (Segment α)), lowBound ty ≤ s.lo ∧ s.hi ≤ highBound ty := by
  cases ty <;> simp only [segments, List.forall_mem_cons, List.mem_singleton,
    List.not_mem_nil, forall_eq, lowBound, highBound] <;> norm_num

theorem segments_chain (ty : ThermocoupleType) :
    List.Chain' Contiguous (segments ty : List (Segment α)) := by
  cases ty <;> simp only [segments, List.chain'_cons, List.chain'_singleton, Contiguous] <;>
    norm_num

theorem select_of_inDomain (ty : ThermocoupleType) (v : α) (hv : inDomain ty v) :
    ∃ s ∈ segments ty, inSegment ty s v ∧ selectCoefficients ty v = some s.coef ∧
      ∀ t ∈ segments ty, inSegment ty t v → t = s := by
  rw [selectCoefficients_eq_firstMatch]
  have hc : List.Chain' Contiguous (segments ty : List (Segment α)) := segments_chain ty
  cases ty <;> exact firstMatch_unique _ v _ _ hc hv

theorem select_of_outside (ty : ThermocoupleType) (v : α)
    (h : v < lowBound ty ∨ highBound ty < v) : selectCoefficients ty v = none := by
  rw [selectCoefficients_eq_firstMatch]
  apply firstMatch_eq_none
  intro s hs hin
  have hb := segments_within_bounds ty s hs
  have hr := inRange_bounds hin
  rcases h with h | h
  · exact absurd (lt_of_lt_of_le h (hb.1.trans hr.1)) (lt_irrefl _)
  · exact absurd (lt_of_le_of_lt (hr.2.trans hb.2) h) (lt_irrefl _)

/-! ## Sign of the divisor on the range tests -/

theorem cubic_pos_of_bernstein (q1 q2 q3 A B d : α) (hA : A ≤ d) (hB : d ≤ B) (hAB : A < B)
    (h0 : 0 < 1 + A * (q1 + A * (q2 + q3 * A)))
    (h1 : 0 < 1 + q1 * (2 * A + B) / 3 + q2 * (A * A + 2 * A * B) / 3 + q3 * (A * A * B))
    (h2 : 0 < 1 + q1 * (A + 2 * B) / 3 + q2 * (2 * A * B + B * B) / 3 + q3 * (A * B * B))
    (h3 : 0 < 1 + B * (q1 + B * (q2 + q3 * B))) :
    0 < 1 + d * (q1 + d * (q2 + q3 * d)) := by
  have hx : 0 ≤ d - A := sub_nonneg.2 hA
  have hy : 0 ≤ B - d := sub_nonneg.2 hB
  have hL : 0 < B - A := sub_pos.2 hAB
  have key : (B - A) ^ 3 * (1 + d * (q1 + d * (q2 + q3 * d)))
      = (1 + A * (q1 + A * (q2 + q3 * A))) * (B - d) ^ 3
        + 3 * (1 + q1 * (2 * A + B) / 3 + q2 * (A * A + 2 * A * B) / 3 + q3 * (A * A * B))
            * ((d - A) * (B - d) ^ 2)
        + 3 * (1 + q1 * (A + 2 * B) / 3 + q2 * (2 * A * B + B * B) / 3 + q3 * (A * B * B))
            * ((d - A) ^ 2 * (B - d))
        + (1 + B * (q1 + B * (q2 + q3 * B))) * (d - A) ^ 3 := by
    ring
  have t0 : 0 ≤ (1 + A * (q1 + A * (q2 + q3 * A))) * (B - d) ^ 3 :=
    mul_nonneg (le_of_lt h0) (pow_nonneg hy 3)
  have t1 : 0 ≤ 3 * (1 + q1 * (2 * A + B) / 3 + q2 * (A * A + 2 * A * B) / 3
      + q3 * (A * A * B)) * ((d - A) * (B - d) ^ 2) :=
    mul_nonneg (mul_nonneg (by norm_num) (le_of_lt h1)) (mul_nonneg hx (pow_nonneg hy 2))
  have t2 : 0 ≤ 3 * (1 + q1 * (A + 2 * B) / 3 + q2 * (2 * A * B + B * B) / 3
      + q3 * (A * B * B)) * ((d - A) ^ 2 * (B - d)) :=
    mul_nonneg (mul_nonneg (by norm_num) (le_of_lt h2)) (mul_nonneg (pow_nonneg hx 2) hy)
  have t3 : 0 ≤ (1 + B * (q1 + B * (q2 + q3 * B))) * (d - A) ^ 3 :=
    mul_nonneg (le_of_lt h3) (pow_nonneg hx 3)
  have hpos : 0 < (B - A) ^ 3 * (1 + d * (q1 + d * (q2 + q3 * d))) := by
    rw [key]
    rcases lt_or_eq_of_le hB with hlt | heq
    · have : 0 < (1 + A * (q1 + A * (q2 + q3 * A))) * (B - d) ^ 3 :=
        mul_pos h0 (pow_pos (sub_pos.2 hlt) 3)
      linarith
    · have hd : 0 < d - A := by rw [heq]; exact hL
      have : 0 < (1 + B * (q1 + B * (q2 + q3 * B))) * (d - A) ^ 3 :=
        mul_pos h3 (pow_pos hd 3)
      linarith
  exact pos_of_mul_pos_right hpos (le_of_lt (pow_pos hL 3))

theorem denominator_pos_TypeB_segment1 (v : α) (h1 : 0.291 ≤ v) (h2 : v ≤ 2.431) :
    0 < (TypeB.segment1 : Coefficients α).denominator v := by
  have hone : (1.0 : α) = 1 := by norm_num1
  have hA : (-0.95079 : α) ≤ v - 1.2417900E+00 := by linarith only [h1]
  have hB : v - 1.2417900E+00 ≤ (1.18921 : α) := by linarith only [h2]
  simp only [Coefficients.denominator, temperatureDenominator, TypeB.segment1, hone]
  exact cubic_pos_of_bernstein _ _ _ _ _ _ hA hB
    (by norm_num1) (by norm_num1) (by norm_num1) (by norm_num1) (by norm_num1)

theorem denominator_pos_TypeB_segment2 (v : α) (h1 : 2.431 ≤ v) (h2 : v ≤ 13.820) :
    0 < (TypeB.segment2 : Coefficients α).denominator v := by
  have hone : (1.0 : α) = 1 := by norm_num1
  have hA : (-4.8391221 : α) ≤ v - 7.2701221E+00 := by linarith only [h1]
  have hB : v - 7.2701221E+00 ≤ (6.5498779 : α) := by linarith only [h2]
  simp only [Coefficients.denominator, temperatureDenominator, TypeB.segment2, hone]
  exact cubic_pos_of_bernstein _ _ _ _ _ _ hA hB
    (by norm_num1) (by norm_num1) (by norm_num1) (by norm_num1) (by norm_num1)

theorem denominator_pos_TypeE_segment1 (v : α) (h1 : -9.835 ≤ v) (h2 : v ≤ -5.237) :
    0 < (TypeE.segment1 : Coefficients α).denominator v := by
  have hone : (1.0 : α) = 1 := by norm_num1
  have hA : (-3.8448302 : α) ≤ v - -5.9901698E+00 := by linarith only [h1]
  have hB : v - -5.9901698E+00 ≤ (0.7531698 : α) := by linarith only [h2]
  simp only [Coefficients.denominator, temperatureDenominator, TypeE.segment1, hone]
  exact cubic_pos_of_bernstein _ _ _ _ _ _ hA hB
    (by norm_num1) (by norm_num1) (by norm_num1) (by norm_num1) (by norm_num1)

theorem denominator_pos_TypeE_segment2 (v : α) (h1 : -5.237 ≤ v) (h2 : v ≤ 0.591) :
    0 < (TypeE.segment2 : Coefficients α).denominator v := by
  have hone : (1.0 : α) = 1 := by norm_num1
  have hA : (-2.4498223 : α) ≤ v - -2.7871777E+00 := by linarith only [h1]
  have hB : v - -2.7871777E+00 ≤ (3.3781777 : α) := by linarith only [h2]
  simp only [Coefficients.denominator, temperatureDenominator, TypeE.segment2, hone]
  exact cubic_pos_of_bernstein _ _ _ _ _ _ hA hB
    (by norm_num1) (by norm_num1) (by norm_num1) (by norm_num1) (by norm_num1)

theorem denominator_pos_TypeE_segment3 (v : α) (h1 : 0.591 ≤ v) (h2 : v ≤ 24.964) :
    0 < (TypeE.segment3 : Coefficients α).denominator v := by
  have hone : (1.0 : α) = 1 := by norm_num1
  have hA : (-16.600713 : α) ≤ v - 1.7191713E+01 := by linarith only [h1]
  have hB : v - 1.7191713E+01 ≤ (7.772287 : α) := by linarith only [h2]
  simp only [Coefficients.denominator, temperatureDenominator, TypeE.segment3, hone]
  exact cubic_pos_of_bernstein _ _ _ _ _ _ hA hB
    (by norm_num1) (by norm_num1) (by norm_num1) (by norm_num1) (by norm_num1)

theorem denominator_pos_TypeE_segment4 (v : α) (h1 : 24.964 ≤ v) (h2 : v ≤ 53.112) :
    0 < (TypeE.segment4 : Coefficients α).denominator v := by
  have hone : (1.0 : α) = 1 := by norm_num1
  have hA : (-20.242167 : α) ≤ v - 4.5206167E+01 := by linarith only [h1]
  have hB : v - 4.5206167E+01 ≤ (7.905833 : α) := by linarith only [h2]
  simp only [Coefficients.denominator, temperatureDenominator, TypeE.segment4, hone]
  exact cubic_pos_of_bernstein _ _ _ _ _ _ hA hB
    (by norm_num1) (by norm_num1) (by norm_num1) (by norm_num1) (by norm_num1)

theorem denominator_pos_TypeE_segment5 (v : α) (h1 : 53.112 ≤ v) (h2 : v ≤ 76.373) :
    0 < (TypeE.segment5 : Coefficients α).denominator v := by
  have hone : (1.0 : α) = 1 := by norm_num1
  have hA : (-8.247178 : α) ≤ v - 6.1359178E+01 := by linarith only [h1]
  have hB : v - 6.1359178E+01 ≤ (15.013822 : α) := by linarith only [h2]
  simp only [Coefficients.denominator, temperatureDenominator, TypeE.segment5, hone]
  exact cubic_pos_of_bernstein _ _ _ _ _ _ hA hB
    (by norm_num1) (by norm_num1) (by norm_num1) (by norm_num1) (by norm_num1)

theorem denominator_pos_TypeJ_segment1 (v : α) (h1 : -8.095 ≤ v) (h2 : v ≤ 0) :
    0 < (TypeJ.segment1 : Coefficients α).denominator v := by
  have hone : (1.0 : α) = 1 := by norm_num1
  have hA : (-4.9780227 : α) ≤ v - -3.1169773E+00 := by linarith only [h1]
  have hB : v - -3.1169773E+00 ≤ (3.1169773 : α) := by linarith only [h2]
  simp only [Coefficients.denominator, temperatureDenominator, TypeJ.segment1, hone]
  exact cubic_pos_of_bernstein _ _ _ _ _ _ hA hB
    (by norm_num1) (by norm_num1) (by norm_num1) (by norm_num1) (by norm_num1)

theorem denominator_pos_TypeJ_segment2 (v : α) (h1 : 0 ≤ v) (h2 : v ≤ 21.840) :
    0 < (TypeJ.segment2 : Coefficients α).denominator v := by
  have hone : (1.0 : α) = 1 := by norm_num1
  have hA : (-13.592329 : α) ≤ v - 1.3592329E+01 := by linarith only [h1]
  have hB : v - 1.3592329E+01 ≤ (8.247671 : α) := by linarith only [h2]
  simp only [Coefficients.denominator, temperatureDenominator, TypeJ.segment2, hone]
  exact cubic_pos_of_bernstein _ _ _ _ _ _ hA hB
    (by norm_num1) (by norm_num1) (by norm_num1) (by norm_num1) (by norm_num1)

theorem denominator_pos_TypeJ_segment3 (v : α) (h1 : 21.840 ≤ v) (h2 : v ≤ 45.494) :
    0 < (TypeJ.segment3 : Coefficients α).denominator v := by
  have hone : (1.0 : α) = 1 := by norm_num1
  have hA : (-14.200848 : α) ≤ v - 3.6040848E+01 := by linarith only [h1]
  have hB : v - 3.6040848E+01 ≤ (9.453152 : α) := by linarith only [h2]
  simp only [Coefficients.denominator, temperatureDenominator, TypeJ.segment3, hone]
  exact cubic_pos_of_bernstein _ _ _ _ _ _ hA hB
    (by norm_num1) (by norm_num1) (by norm_num1) (by norm_num1) (by norm_num1)

theorem denominator_pos_TypeJ_segment4 (v : α) (h1 : 45.494 ≤ v) (h2 : v ≤ 57.953) :
    0 < (TypeJ.segment4 : Coefficients α).denominator v := by
  have hone : (1.0 : α) = 1 := by norm_num1
  have hA : (-7.939832 : α) ≤ v - 5.3433832E+01 := by linarith only [h1]
  have hB : v - 5.3433832E+01 ≤ (4.519168 : α) := by linarith only [h2]
  simp only [Coefficients.denominator, temperatureDenominator, TypeJ.segment4, hone]
  exact cubic_pos_of_bernstein _ _ _ _ _ _ hA hB
    (by norm_num1) (by norm_num1) (by norm_num1) (by norm_num1) (by norm_num1)

theorem denominator_pos_TypeJ_segment5 (v : α) (h1 : 57.953 ≤ v) (h2 : v ≤ 69.553) :
    0 < (TypeJ.segment5 : Coefficients α).denominator v := by
  have hone : (1.0 : α) = 1 := by norm_num1
  have hA : (-3.003091 : α) ≤ v - 6.0956091E+01 := by linarith only [h1]
  have hB : v - 6.0956091E+01 ≤ (8.596909 : α) := by linarith only [h2]
  simp only [Coefficients.denominator, temperatureDenominator, TypeJ.segment5, hone]
  exact cubic_pos_of_bernstein _ _ _ _ _ _ hA hB
    (by norm_num1) (by norm_num1) (by norm_num1) (by norm_num1) (by norm_num1)

theorem denominator_pos_TypeK_segment1 (v : α) (h1 : -6.404 ≤ v) (h2 : v ≤ -3.554) :
    0 < (TypeK.segment1 : Coefficients α).denominator v := by
  have hone : (1.0 : α) = 1 := by norm_num1
  have hA : (-2.2249142 : α) ≤ v - -4.1790858E+00 := by linarith only [h1]
  have hB : v - -4.1790858E+00 ≤ (0.6250858 : α) := by linarith only [h2]
  simp only [Coefficients.denominator, temperatureDenominator, TypeK.segment1, hone]
  exact cubic_pos_of_bernstein _ _ _ _ _ _ hA hB
    (by norm_num1) (by norm_num1) (by norm_num1) (by norm_num1) (by norm_num1)

theorem denominator_pos_TypeK_segment2 (v : α) (h1 : -3.554 ≤ v) (h2 : v ≤ 4.096) :
    0 < (TypeK.segment2 : Coefficients α).denominator v := by
  have hone : (1.0 : α) = 1 := by norm_num1
  have hA : (-3.20910086 : α) ≤ v - -3.4489914E-01 := by linarith only [h1]
  have hB : v - -3.4489914E-01 ≤ (4.44089914 : α) := by linarith only [h2]
  simp only [Coefficients.denominator, temperatureDenominator, TypeK.segment2, hone]
  exact cubic_pos_of_bernstein _ _ _ _ _ _ hA hB
    (by norm_num1) (by norm_num1) (by norm_num1) (by norm_num1) (by norm_num1)

theorem denominator_pos_TypeK_segment3 (v : α) (h1 : 4.096 ≤ v) (h2 : v ≤ 16.397) :
    0 < (TypeK.segment3 : Coefficients α).denominator v := by
  have hone : (1.0 : α) = 1 := by norm_num1
  have hA : (-8.535386 : α) ≤ v - 1.2631386E+01 := by linarith only [h1]
  have hB : v - 1.2631386E+01 ≤ (3.765614 : α) := by linarith only [h2]
  simp only [Coefficients.denominator, temperatureDenominator, TypeK.segment3, hone]
  exact cubic_pos_of_bernstein _ _ _ _ _ _ hA hB
    (by norm_num1) (by norm_num1) (by norm_num1) (by norm_num1) (by norm_num1)

theorem denominator_pos_TypeK_segment4 (v : α) (h1 : 16.397 ≤ v) (h2 : v ≤ 33.275) :
    0 < (TypeK.segment4 : Coefficients α).denominator v := by
  have hone : (1.0 : α) = 1 := by norm_num1
  have hA : (-8.751718 : α) ≤ v - 2.5148718E+01 := by linarith only [h1]
  have hB : v - 2.5148718E+01 ≤ (8.126282 : α) := by linarith only [h2]
  simp only [Coefficients.denominator, temperatureDenominator, TypeK.segment4, hone]
  exact cubic_pos_of_bernstein _ _ _ _ _ _ hA hB
    (by norm_num1) (by norm_num1) (by norm_num1) (by norm_num1) (by norm_num1)

theorem denominator_pos_TypeK_segment5 (v : α) (h1 : 33.275 ≤ v) (h2 : v ≤ 69.553) :
    0 < (TypeK.segment5 : Coefficients α).denominator v := by
  have hone : (1.0 : α) = 1 := by norm_num1
  have hA : (-8.718851 : α) ≤ v - 4.1993851E+01 := by linarith only [h1]
  have hB : v - 4.1993851E+01 ≤ (27.559149 : α) := by linarith only [h2]
  simp only [Coefficients.denominator, temperatureDenominator, TypeK.segment5, hone]
  exact cubic_pos_of_bernstein _ _ _ _ _ _ hA hB
    (by norm_num1) (by norm_num1) (by norm_num1) (by norm_num1) (by norm_num1)

theorem denominator_pos_TypeN_segment1 (v : α) (h1 : -4.313 ≤ v) (h2 : v ≤ 0.0) :
    0 < (TypeN.segment1 : Coefficients α).denominator v := by
  have hone : (1.0 : α) = 1 := by norm_num1
  have hA : (-2.813 : α) ≤ v - -1.5000000E+00 := by linarith only [h1]
  have hB : v - -1.5000000E+00 ≤ (1.5 : α) := by linarith only [h2]
  simp only [Coefficients.denominator, temperatureDenominator, TypeN.segment1, hone]
  exact cubic_pos_of_bernstein _ _ _ _ _ _ hA hB
    (by norm_num1) (by norm_num1) (by norm_num1) (by norm_num1) (by norm_num1)

theorem denominator_pos_TypeN_segment2 (v : α) (h1 : 0.0 ≤ v) (h2 : v ≤ 20.613) :
    0 < (TypeN.segment2 : Coefficients α).denominator v := by
  have hone : (1.0 : α) = 1 := by norm_num1
  have hA : (-9.8870997 : α) ≤ v - 9.8870997E+00 := by linarith only [h1]
  have hB : v - 9.8870997E+00 ≤ (10.7259003 : α) := by linarith only [h2]
  simp only [Coefficients.denominator, temperatureDenominator, TypeN.segment2, hone]
  exact cubic_pos_of_bernstein _ _ _ _ _ _ hA hB
    (by norm_num1) (by norm_num1) (by norm_num1) (by norm_num1) (by norm_num1)

theorem denominator_pos_TypeN_segment3 (v : α) (h1 : 20.613 ≤ v) (h2 : v ≤ 47.513) :
    0 < (TypeN.segment3 : Coefficients α).denominator v := by
  have hone : (1.0 : α) = 1 := by norm_num1
  have hA : (-16.952475 : α) ≤ v - 3.7565475E+01 := by linarith only [h1]
  have hB : v - 3.7565475E+01 ≤ (9.947525 : α) := by linarith only [h2]
  simp only [Coefficients.denominator, temperatureDenominator, TypeN.segment3, hone]
  exact cubic_pos_of_bernstein _ _ _ _ _ _ hA hB
    (by norm_num1) (by norm_num1) (by norm_num1) (by norm_num1) (by norm_num1)

theorem denominator_pos_TypeR_segment1 (v : α) (h1 : -0.226 ≤ v) (h2 : v ≤ 1.469) :
    0 < (TypeR.segment1 : Coefficients α).denominator v := by
  have hone : (1.0 : α) = 1 := by norm_num1
  have hA : (-1.1093309 : α) ≤ v - 8.8333090E-01 := by linarith only [h1]
  have hB : v - 8.8333090E-01 ≤ (0.5856691 : α) := by linarith only [h2]
  simp only [Coefficients.denominator, temperatureDenominator, TypeR.segment1, hone]
  exact cubic_pos_of_bernstein _ _ _ _ _ _ hA hB
    (by norm_num1) (by norm_num1) (by norm_num1) (by norm_num1) (by norm_num1)

theorem denominator_pos_TypeR_segment2 (v : α) (h1 : 1.469 ≤ v) (h2 : v ≤ 7.461) :
    0 < (TypeR.segment2 : Coefficients α).denominator v := by
  have hone : (1.0 : α) = 1 := by norm_num1
  have hA : (-3.4622886 : α) ≤ v - 4.9312886E+00 := by linarith only [h1]
  have hB : v - 4.9312886E+00 ≤ (2.5297114 : α) := by linarith only [h2]
  simp only [Coefficients.denominator, temperatureDenominator, TypeR.segment2, hone]
  exact cubic_pos_of_bernstein _ _ _ _ _ _ hA hB
    (by norm_num1) (by norm_num1) (by norm_num1) (by norm_num1) (by norm_num1)

theorem denominator_pos_TypeR_segment3 (v : α) (h1 : 7.461 ≤ v) (h2 : v ≤ 14.277) :
    0 < (TypeR.segment3 : Coefficients α).denominator v := by
  have hone : (1.0 : α) = 1 := by norm_num1
  have hA : (-3.553763 : α) ≤ v - 1.1014763E+01 := by linarith only [h1]
  have hB : v - 1.1014763E+01 ≤ (3.262237 : α) := by linarith only [h2]
  simp only [Coefficients.denominator, temperatureDenominator, TypeR.segment3, hone]
  exact cubic_pos_of_bernstein _ _ _ _ _ _ hA hB
    (by norm_num1) (by norm_num1) (by norm_num1) (by norm_num1) (by norm_num1)

theorem denominator_pos_TypeR_segment4 (v : α) (h1 : 14.277 ≤ v) (h2 : v ≤ 21.101) :
    0 < (TypeR.segment4 : Coefficients α).denominator v := by
  have hone : (1.0 : α) = 1 := by norm_num1
  have hA : (-4.12091 : α) ≤ v - 1.8397910E+01 := by linarith only [h1]
  have hB : v - 1.8397910E+01 ≤ (2.70309 : α) := by linarith only [h2]
  simp only [Coefficients.denominator, temperatureDenominator, TypeR.segment4, hone]
  exact cubic_pos_of_bernstein _ _ _ _ _ _ hA hB
    (by norm_num1) (by norm_num1) (by norm_num1) (by norm_num1) (by norm_num1)

theorem denominator_pos_TypeS_segment1 (v : α) (h1 : -0.236 ≤ v) (h2 : v ≤ 1.441) :
    0 < (TypeS.segment1 : Coefficients α).denominator v := by
  have hone : (1.0 : α) = 1 := by norm_num1
  have hA : (-1.16995024 : α) ≤ v - 9.3395024E-01 := by linarith only [h1]
  have hB : v - 9.3395024E-01 ≤ (0.50704976 : α) := by linarith only [h2]
  simp only [Coefficients.denominator, temperatureDenominator, TypeS.segment1, hone]
  exact cubic_pos_of_bernstein _ _ _ _ _ _ hA hB
    (by norm_num1) (by norm_num1) (by norm_num1) (by norm_num1) (by norm_num1)

theorem denominator_pos_TypeS_segment2 (v : α) (h1 : 1.441 ≤ v) (h2 : v ≤ 6.913) :
    0 < (TypeS.segment2 : Coefficients α).denominator v := by
  have hone : (1.0 : α) = 1 := by norm_num1
  have hA : (-2.5627367 : α) ≤ v - 4.0037367E+00 := by linarith only [h1]
  have hB : v - 4.0037367E+00 ≤ (2.9092633 : α) := by linarith only [h2]
  simp only [Coefficients.denominator, temperatureDenominator, TypeS.segment2, hone]
  exact cubic_pos_of_bernstein _ _ _ _ _ _ hA hB
    (by norm_num1) (by norm_num1) (by norm_num1) (by norm_num1) (by norm_num1)

theorem denominator_pos_TypeS_segment3 (v : α) (h1 : 6.913 ≤ v) (h2 : v ≤ 12.856) :
    0 < (TypeS.segment3 : Coefficients α).denominator v := by
  have hone : (1.0 : α) = 1 := by norm_num1
  have hA : (-2.4378283 : α) ≤ v - 9.3508283E+00 := by linarith only [h1]
  have hB : v - 9.3508283E+00 ≤ (3.5051717 : α) := by linarith only [h2]
  simp only [Coefficients.denominator, temperatureDenominator, TypeS.segment3, hone]
  exact cubic_pos_of_bernstein _ _ _ _ _ _ hA hB
    (by norm_num1) (by norm_num1) (by norm_num1) (by norm_num1) (by norm_num1)

theorem denominator_pos_TypeS_segment4 (v : α) (h1 : 12.856 ≤ v) (h2 : v ≤ 18.693) :
    0 < (TypeS.segment4 : Coefficients α).denominator v := by
  have hone : (1.0 : α) = 1 := by norm_num1
  have hA : (-3.933315 : α) ≤ v - 1.6789315E+01 := by linarith only [h1]
  have hB : v - 1.6789315E+01 ≤ (1.903685 : α) := by linarith only [h2]
  simp only [Coefficients.denominator, temperatureDenominator, TypeS.segment4, hone]
  exact cubic_pos_of_bernstein _ _ _ _ _ _ hA hB
    (by norm_num1) (by norm_num1) (by norm_num1) (by norm_num1) (by norm_num1)

theorem denominator_pos_TypeT_segment1 (v : α) (h1 : -6.18 ≤ v) (h2 : v ≤ -4.648) :
    0 < (TypeT.segment1 : Coefficients α).denominator v := by
  have hone : (1.0 : α) = 1 := by norm_num1
  have hA : (-0.7001037 : α) ≤ v - -5.4798963E+00 := by linarith only [h1]
  have hB : v - -5.4798963E+00 ≤ (0.8318963 : α) := by linarith only [h2]
  simp only [Coefficients.denominator, temperatureDenominator, TypeT.segment1, hone]
  exact cubic_pos_of_bernstein _ _ _ _ _ _ hA hB
    (by norm_num1) (by norm_num1) (by norm_num1) (by norm_num1) (by norm_num1)

theorem denominator_pos_TypeT_segment2 (v : α) (h1 : -4.648 ≤ v) (h2 : v ≤ 0.0) :
    0 < (TypeT.segment2 : Coefficients α).denominator v := by
  have hone : (1.0 : α) = 1 := by norm_num1
  have hA : (-2.495165 : α) ≤ v - -2.1528350E+00 := by linarith only [h1]
  have hB : v - -2.1528350E+00 ≤ (2.152835 : α) := by linarith only [h2]
  simp only [Coefficients.denominator, temperatureDenominator, TypeT.segment2, hone]
  exact cubic_pos_of_bernstein _ _ _ _ _ _ hA hB
    (by norm_num1) (by norm_num1) (by norm_num1) (by norm_num1) (by norm_num1)

theorem denominator_pos_TypeT_segment3 (v : α) (h1 : 0.0 ≤ v) (h2 : v ≤ 9.288) :
    0 < (TypeT.segment3 : Coefficients α).denominator v := by
  have hone : (1.0 : α) = 1 := by norm_num1
  have hA : (-5.95886 : α) ≤ v - 5.9588600E+00 := by linarith only [h1]
  have hB : v - 5.9588600E+00 ≤ (3.32914 : α) := by linarith only [h2]
  simp only [Coefficients.denominator, temperatureDenominator, TypeT.segment3, hone]
  exact cubic_pos_of_bernstein _ _ _ _ _ _ hA hB
    (by norm_num1) (by norm_num1) (by norm_num1) (by norm_num1) (by norm_num1)

/-- On every range test except the fourth of type T, the divisor of
`computeTemperatureInternal` is strictly positive between the two bounds, both included. -/
theorem denominator_pos_on_segment (ty : ThermocoupleType) :
    ∀ s ∈ (segments ty : List (Segment α)), ¬ (ty = .T ∧ s.lo = 9.288) →
      ∀ v : α, s.lo ≤ v → v ≤ s.hi → 0 < s.coef.denominator v := by
  cases ty <;>
    simp only [segments, List.forall_mem_cons, List.not_mem_nil, false_imp_iff,
      implies_true, and_true]
  · exact ⟨fun _ => denominator_pos_TypeB_segment1,
      fun _ => denominator_pos_TypeB_segment2⟩
  · exact ⟨fun _ => denominator_pos_TypeE_segment1,
      fun _ => denominator_pos_TypeE_segment2,
      fun _ => denominator_pos_TypeE_segment3,
      fun _ => denominator_pos_TypeE_segment4,
      fun _ => denominator_pos_TypeE_segment5⟩
  · exact ⟨fun _ => denominator_pos_TypeJ_segment1,
      fun _ => denominator_pos_TypeJ_segment2,
      fun _ => denominator_pos_TypeJ_segment3,
      fun _ => denominator_pos_TypeJ_segment4,
      fun _ => denominator_pos_TypeJ_segment5⟩
  · exact ⟨fun _ => denominator_pos_TypeK_segment1,
      fun _ => denominator_pos_TypeK_segment2,
      fun _ => denominator_pos_TypeK_segment3,
      fun _ => denominator_pos_TypeK_segment4,
      fun _ => denominator_pos_TypeK_segment5⟩
  · exact ⟨fun _ => denominator_pos_TypeN_segment1,
      fun _ => denominator_pos_TypeN_segment2,
      fun _ => denominator_pos_TypeN_segment3⟩
  · exact ⟨fun _ => denominator_pos_TypeR_segment1,
      fun _ => denominator_pos_TypeR_segment2,
      fun _ => denominator_pos_TypeR_segment3,
      fun _ => denominator_pos_TypeR_segment4⟩
  · exact ⟨fun _ => denominator_pos_TypeS_segment1,
      fun _ => denominator_pos_TypeS_segment2,
      fun _ => denominator_pos_TypeS_segment3,
      fun _ => denominator_pos_TypeS_segment4⟩
  · exact ⟨fun _ => denominator_pos_TypeT_segment1,
      fun _ => denominator_pos_TypeT_segment2,
      fun _ => denominator_pos_TypeT_segment3,
      fun h => absurd trivial h⟩
/-! ## Claims -/

/-- C1: for every thermocouple type and every pair of inputs, the 64-bit `getTemperature`
is the type's `computeTemperature` of the measured voltage plus the type's
`computeColdJunctionVoltage` of the cold-junction temperature; in particular it returns the
sentinel exactly when `computeTemperature` does on that sum. -/
theorem getTemperature_eq_computeTemperature_add (ty : ThermocoupleType) (millivolts Tcj : α) :
    getTemperature ty millivolts Tcj
        = computeTemperature ty (millivolts + computeColdJunctionVoltage ty Tcj)
      ∧ (getTemperature ty millivolts Tcj = TCOUPLE_OUT_OF_RANGE ↔
          computeTemperature ty (millivolts + computeColdJunctionVoltage ty Tcj)
            = TCOUPLE_OUT_OF_RANGE) :=
  ⟨rfl, Iff.rfl⟩

/-- C2: for each of the eight types, `computeTemperature` returns exactly the sentinel
-1000.0 for every voltage strictly below the lowest low bound and for every voltage
strictly above the highest high bound of the type. -/
theorem computeTemperature_outside (ty : ThermocoupleType) (v : α)
    (h : v < lowBound ty ∨ highBound ty < v) :
    computeTemperature ty v = TCOUPLE_OUT_OF_RANGE ∧ (TCOUPLE_OUT_OF_RANGE : α) = -1000.0 :=
  ⟨computeTemperature_of_select_none (select_of_outside ty v h), rfl⟩

/-- Witness of C2: type E at 80 mV, above its highest bound 76.373. -/
theorem computeTemperature_outside_witness :
    ((80 : ℚ) < lowBound .E ∨ highBound .E < (80 : ℚ)) ∧
      (computeTemperature .E (80 : ℚ) = TCOUPLE_OUT_OF_RANGE ∧
        (TCOUPLE_OUT_OF_RANGE : ℚ) = -1000.0) :=
  ⟨Or.inr (by norm_num [highBound]),
    computeTemperature_outside .E 80 (Or.inr (by norm_num [highBound]))⟩

/-- C3: for each type the range tests are contiguous and non-overlapping: every high bound
is the next low bound, the low bounds increase strictly, and every voltage of the domain
(with the type's own inclusivity) passes the test of exactly one segment, is not sent to
the out-of-range branch and is evaluated with that segment's coefficient set. -/
theorem segments_contiguous_and_cover (ty : ThermocoupleType) :
    List.Chain' (fun s t : Segment α => s.hi = t.lo ∧ s.lo < t.lo) (segments ty)
      ∧ ∀ v : α, inDomain ty v →
          ∃ s ∈ segments ty, inSegment ty s v
            ∧ (∀ t ∈ segments ty, inSegment ty t v → t = s)
            ∧ selectCoefficients ty v = some s.coef
            ∧ computeTemperature ty v
                = computeTemperatureInternal v s.coef.T0 s.coef.V0 s.coef.p1 s.coef.p2
                    s.coef.p3 s.coef.p4 s.coef.q1 s.coef.q2 s.coef.q3 := by
  refine ⟨segments_chain ty, fun v hv => ?_⟩
  obtain ⟨s, hs, hin, hsel, huniq⟩ := select_of_inDomain ty v hv
  exact ⟨s, hs, hin, huniq, hsel, computeTemperature_of_select_some hsel⟩

/-- Witness of C3: type J at 30 mV, inside its third range test. -/
theorem segments_contiguous_and_cover_witness :
    inDomain .J (30 : ℚ) ∧
      ∃ s ∈ segments .J, inSegment .J s (30 : ℚ)
        ∧ (∀ t ∈ segments .J, inSegment .J t (30 : ℚ) → t = s)
        ∧ selectCoefficients .J (30 : ℚ) = some s.coef
        ∧ computeTemperature .J (30 : ℚ)
            = computeTemperatureInternal 30 s.coef.T0 s.coef.V0 s.coef.p1 s.coef.p2
                s.coef.p3 s.coef.p4 s.coef.q1 s.coef.q2 s.coef.q3 :=
  ⟨by norm_num [inDomain, inRange, lowBound, highBound],
    (segments_contiguous_and_cover .J).2 30
      (by norm_num [inDomain, inRange, lowBound, highBound])⟩

theorem inSegment_hi_of_K {s : Segment α} (h : s.lo < s.hi) : inSegment .K s s.hi :=
  ⟨h, le_refl _⟩

theorem inSegment_lo_of_ne_K {ty : ThermocoupleType} (hty : ty ≠ .K) {s : Segment α}
    (h : s.lo < s.hi) : inSegment ty s s.lo := by
  cases ty <;> first
    | exact absurd rfl hty
    | exact ⟨le_refl _, h⟩

theorem segments_lo_lt_hi (ty : ThermocoupleType) :
    ∀ s ∈ (segments ty : List (Segment α)), s.lo < s.hi := by
  cases ty <;> simp only [segments, List.forall_mem_cons, List.mem_singleton,
    List.not_mem_nil, forall_eq] <;> norm_num

theorem lowBound_lt_highBound (ty : ThermocoupleType) :
    (lowBound ty : α) < highBound ty := by
  cases ty <;> norm_num [lowBound, highBound]

theorem TCOUPLE_OUT_OF_RANGE_eq : (TCOUPLE_OUT_OF_RANGE : α) = -1000 := by
  norm_num [TCOUPLE_OUT_OF_RANGE]

/-- C4: the range tests of type K are open-low / closed-high at every boundary:
`computeTemperature` returns the sentinel at -6.404, returns the fifth segment's value at
69.553, and at each interior boundary -3.554, 4.096, 16.397, 33.275 uses the coefficient
set of the segment whose high bound it is; at 4.096 this is the second segment
(T0 = -8.7935962, V0 = -0.34489914), not the third (T0 = 310.18976). -/
theorem typeK_open_low_closed_high :
    computeTemperature .K (-6.404 : α) = -1000.0
      ∧ (selectCoefficients .K (-6.404 : α) = none)
      ∧ (selectCoefficients .K (69.553 : α) = some TypeK.segment5
          ∧ computeTemperature .K (69.553 : α) = TypeK.segment5.eval 69.553)
      ∧ (selectCoefficients .K (-3.554 : α) = some TypeK.segment1
          ∧ computeTemperature .K (-3.554 : α) = TypeK.segment1.eval (-3.554))
      ∧ (selectCoefficients .K (4.096 : α) = some TypeK.segment2
          ∧ computeTemperature .K (4.096 : α) = TypeK.segment2.eval 4.096)
      ∧ (selectCoefficients .K (16.397 : α) = some TypeK.segment3
          ∧ computeTemperature .K (16.397 : α) = TypeK.segment3.eval 16.397)
      ∧ (selectCoefficients .K (33.275 : α) = some TypeK.segment4
          ∧ computeTemperature .K (33.275 : α) = TypeK.segment4.eval 33.275)
      ∧ ((TypeK.segment2 : Coefficients α).T0 = -8.7935962E+00
          ∧ (TypeK.segment2 : Coefficients α).V0 = -3.4489914E-01
          ∧ (TypeK.segment3 : Coefficients α).T0 = 3.1018976E+02
          ∧ computeTemperature .K (4.096 : α) ≠ TypeK.segment3.eval 4.096) := by
  have h0 : selectCoefficients .K (-6.404 : α) = none := by
    norm_num [selectCoefficients, TypeK.selectCoefficients]
  have h5 : selectCoefficients .K (69.553 : α) = some TypeK.segment5 := by
    norm_num [selectCoefficients, TypeK.selectCoefficients]
  have h1 : selectCoefficients .K (-3.554 : α) = some TypeK.segment1 := by
    norm_num [selectCoefficients, TypeK.selectCoefficients]
  have h2 : selectCoefficients .K (4.096 : α) = some TypeK.segment2 := by
    norm_num [selectCoefficients, TypeK.selectCoefficients]
  have h3 : selectCoefficients .K (16.397 : α) = some TypeK.segment3 := by
    norm_num [selectCoefficients, TypeK.selectCoefficients]
  have h4 : selectCoefficients .K (33.275 : α) = some TypeK.segment4 := by
    norm_num [selectCoefficients, TypeK.selectCoefficients]
  refine ⟨?_, h0, ⟨h5, computeTemperature_of_select_some h5⟩,
    ⟨h1, computeTemperature_of_select_some h1⟩, ⟨h2, computeTemperature_of_select_some h2⟩,
    ⟨h3, computeTemperature_of_select_some h3⟩, ⟨h4, computeTemperature_of_select_some h4⟩,
    rfl, rfl, rfl, ?_⟩
  · rw [computeTemperature_of_select_none h0, TCOUPLE_OUT_OF_RANGE_eq]
    norm_num
  · rw [computeTemperature_of_select_some h2]
    norm_num [Coefficients.eval, computeTemperatureInternal, temperatureNumerator,
      temperatureDenominator, TypeK.segment2, TypeK.segment3]

/-- C5: for each type other than K the range tests are closed-low / open-high at every
boundary: at the low bound of any segment (the lowest low bound and every interior
boundary) `computeTemperature` uses the coefficient set of the segment that starts there,
the lowest low bound selecting the first segment, and at the highest high bound it returns
the sentinel -1000.0. -/
theorem closed_low_open_high (ty : ThermocoupleType) (hty : ty ≠ .K) :
    (∀ s ∈ (segments ty : List (Segment α)),
        selectCoefficients ty s.lo = some s.coef
          ∧ computeTemperature ty s.lo = s.coef.eval s.lo)
      ∧ (((segments ty : List (Segment α)).head?).map (fun s => s.lo) = some (lowBound ty))
      ∧ selectCoefficients ty (highBound ty : α) = none
      ∧ computeTemperature ty (highBound ty : α) = -1000.0 := by
  refine ⟨?_, ?_, ?_, ?_⟩
  · intro s hs
    have hlt := segments_lo_lt_hi ty s hs
    have hb := segments_within_bounds ty s hs
    have hin : inSegment ty s s.lo := inSegment_lo_of_ne_K hty hlt
    have hdom : inDomain ty s.lo := by
      have hlo : lowBound ty ≤ s.lo := hb.1
      have hhi : s.lo < highBound ty := lt_of_lt_of_le hlt hb.2
      cases ty <;> first
        | exact absurd rfl hty
        | exact ⟨hlo, hhi⟩
    obtain ⟨u, _, _, hsel, huniq⟩ := select_of_inDomain ty s.lo hdom
    have hsu : s = u := huniq s hs hin
    subst hsu
    exact ⟨hsel, computeTemperature_of_select_some hsel⟩
  · cases ty <;> rfl
  · have hnone : ∀ s ∈ (segments ty : List (Segment α)), ¬ inSegment ty s (highBound ty) := by
      intro s hs hin
      have hb := segments_within_bounds ty s hs
      have hlt : (highBound ty : α) < s.hi := by
        cases ty <;> first
          | exact absurd rfl hty
          | exact hin.2
      exact absurd (lt_of_lt_of_le hlt hb.2) (lt_irrefl _)
    rw [selectCoefficients_eq_firstMatch]
    exact firstMatch_eq_none ty _ _ hnone
  · have hnone : ∀ s ∈ (segments ty : List (Segment α)), ¬ inSegment ty s (highBound ty) := by
      intro s hs hin
      have hb := segments_within_bounds ty s hs
      have hlt : (highBound ty : α) < s.hi := by
        cases ty <;> first
          | exact absurd rfl hty
          | exact hin.2
      exact absurd (lt_of_lt_of_le hlt hb.2) (lt_irrefl _)
    have hsel : selectCoefficients ty (highBound ty : α) = none := by
      rw [selectCoefficients_eq_firstMatch]
      exact firstMatch_eq_none ty _ _ hnone
    rw [computeTemperature_of_select_none hsel, TCOUPLE_OUT_OF_RANGE_eq]
    norm_num

/-- Witness of C5: type T, whose third range test starts at 0.0. -/
theorem closed_low_open_high_witness :
    ThermocoupleType.T ≠ .K ∧
      (selectCoefficients .T (0.0 : ℚ) = some TypeT.segment3
        ∧ computeTemperature .T (0.0 : ℚ) = TypeT.segment3.eval 0.0)
      ∧ computeTemperature .T (20.872 : ℚ) = -1000.0 :=
  ⟨by decide,
    (closed_low_open_high .T (by decide)).1 ⟨0.0, 9.288, TypeT.segment3⟩
      (by simp [segments]),
    (closed_low_open_high .T (by decide)).2.2.2⟩

/-- C6: type K regression scenario, measured 10.0 mV and cold junction 25.0 degrees:
`computeColdJunctionVoltage(25.0)` is 1.0003453 mV, the total 11.0003453 mV satisfies
4.096 < total <= 16.397 and is evaluated with the third segment's coefficients
(T0 = 310.18976), and `getTemperature(10.0, 25.0)` lies between 260 and 280. -/
theorem typeK_regression_scenario :
    computeColdJunctionVoltage .K (25.0 : α) = 1.0003453
      ∧ (10.0 : α) + computeColdJunctionVoltage .K (25.0 : α) = 11.0003453
      ∧ ((4.096 : α) < 11.0003453 ∧ (11.0003453 : α) ≤ 16.397)
      ∧ selectCoefficients .K ((10.0 : α) + computeColdJunctionVoltage .K (25.0 : α))
          = some TypeK.segment3
      ∧ (TypeK.segment3 : Coefficients α).T0 = 3.1018976E+02
      ∧ getTemperature .K (10.0 : α) 25.0 = TypeK.segment3.eval 11.0003453
      ∧ (260 ≤ getTemperature .K (10.0 : α) 25.0 ∧ getTemperature .K (10.0 : α) 25.0 ≤ 280) := by
  have hcj : computeColdJunctionVoltage .K (25.0 : α) = 1.0003453 := by
    norm_num [computeColdJunctionVoltage, TypeK.computeColdJunctionVoltage,
      computeColdJunction, coldJunctionNumerator, coldJunctionDenominator]
  have hsum : (10.0 : α) + computeColdJunctionVoltage .K (25.0 : α) = 11.0003453 := by
    rw [hcj]; norm_num
  have hsel : selectCoefficients .K (11.0003453 : α) = some TypeK.segment3 := by
    norm_num [selectCoefficients, TypeK.selectCoefficients]
  have hget : getTemperature .K (10.0 : α) 25.0 = TypeK.segment3.eval 11.0003453 := by
    unfold getTemperature
    simp only [hsum]
    exact computeTemperature_of_select_some hsel
  refine ⟨hcj, hsum, ⟨by norm_num, by norm_num⟩, by rw [hsum]; exact hsel, rfl, hget, ?_⟩
  rw [hget]
  constructor <;>
    norm_num [Coefficients.eval, computeTemperatureInternal, temperatureNumerator,
      temperatureDenominator, TypeK.segment3]

set_option maxHeartbeats 1600000 in
theorem adjacent_agree_E :
    ∀ p ∈ (adjacentSegments .E : List (Segment α × Segment α)),
      |p.1.coef.eval p.1.hi - p.2.coef.eval p.1.hi| ≤ 0.03 := by
  simp only [adjacentSegments, segments, List.tail_cons, List.zip_cons_cons,
    List.zip_nil_right, List.forall_mem_cons, List.not_mem_nil, false_imp_iff,
    implies_true, and_true, abs_le, Coefficients.eval, computeTemperatureInternal,
    temperatureNumerator, temperatureDenominator,
    TypeE.segment1, TypeE.segment2, TypeE.segment3, TypeE.segment4, TypeE.segment5]
  refine ⟨⟨?_, ?_⟩, ⟨?_, ?_⟩, ⟨?_, ?_⟩, ⟨?_, ?_⟩⟩
  all_goals norm_num1

set_option maxHeartbeats 1600000 in
theorem adjacent_agree_J :
    ∀ p ∈ (adjacentSegments .J : List (Segment α × Segment α)),
      |p.1.coef.eval p.1.hi - p.2.coef.eval p.1.hi| ≤ 0.03 := by
  simp only [adjacentSegments, segments, List.tail_cons, List.zip_cons_cons,
    List.zip_nil_right, List.forall_mem_cons, List.not_mem_nil, false_imp_iff,
    implies_true, and_true, abs_le, Coefficients.eval, computeTemperatureInternal,
    temperatureNumerator, temperatureDenominator,
    TypeJ.segment1, TypeJ.segment2, TypeJ.segment3, TypeJ.segment4, TypeJ.segment5]
  refine ⟨⟨?_, ?_⟩, ⟨?_, ?_⟩, ⟨?_, ?_⟩, ⟨?_, ?_⟩⟩
  all_goals norm_num1

set_option maxHeartbeats 1600000 in
theorem adjacent_agree_K :
    ∀ p ∈ (adjacentSegments .K : List (Segment α × Segment α)),
      |p.1.coef.eval p.1.hi - p.2.coef.eval p.1.hi| ≤ 0.03 := by
  simp only [adjacentSegments, segments, List.tail_cons, List.zip_cons_cons,
    List.zip_nil_right, List.forall_mem_cons, List.not_mem_nil, false_imp_iff,
    implies_true, and_true, abs_le, Coefficients.eval, computeTemperatureInternal,
    temperatureNumerator, temperatureDenominator,
    TypeK.segment1, TypeK.segment2, TypeK.segment3, TypeK.segment4, TypeK.segment5]
  refine ⟨⟨?_, ?_⟩, ⟨?_, ?_⟩, ⟨?_, ?_⟩, ⟨?_, ?_⟩⟩
  all_goals norm_num1

set_option maxHeartbeats 1600000 in
theorem adjacent_agree_N :
    ∀ p ∈ (adjacentSegments .N : List (Segment α × Segment α)),
      |p.1.coef.eval p.1.hi - p.2.coef.eval p.1.hi| ≤ 0.03 := by
  simp only [adjacentSegments, segments, List.tail_cons, List.zip_cons_cons,
    List.zip_nil_right, List.forall_mem_cons, List.not_mem_nil, false_imp_iff,
    implies_true, and_true, abs_le, Coefficients.eval, computeTemperatureInternal,
    temperatureNumerator, temperatureDenominator,
    TypeN.segment1, TypeN.segment2, TypeN.segment3]
  refine ⟨⟨?_, ?_⟩, ⟨?_, ?_⟩⟩
  all_goals norm_num1

set_option maxHeartbeats 1600000 in
theorem adjacent_agree_R :
    ∀ p ∈ (adjacentSegments .R : List (Segment α × Segment α)),
      |p.1.coef.eval p.1.hi - p.2.coef.eval p.1.hi| ≤ 0.03 := by
  simp only [adjacentSegments, segments, List.tail_cons, List.zip_cons_cons,
    List.zip_nil_right, List.forall_mem_cons, List.not_mem_nil, false_imp_iff,
    implies_true, and_true, abs_le, Coefficients.eval, computeTemperatureInternal,
    temperatureNumerator, temperatureDenominator,
    TypeR.segment1, TypeR.segment2, TypeR.segment3, TypeR.segment4]
  refine ⟨⟨?_, ?_⟩, ⟨?_, ?_⟩, ⟨?_, ?_⟩⟩
  all_goals norm_num1

set_option maxHeartbeats 1600000 in
theorem adjacent_agree_S :
    ∀ p ∈ (adjacentSegments .S : List (Segment α × Segment α)),
      |p.1.coef.eval p.1.hi - p.2.coef.eval p.1.hi| ≤ 0.03 := by
  simp only [adjacentSegments, segments, List.tail_cons, List.zip_cons_cons,
    List.zip_nil_right, List.forall_mem_cons, List.not_mem_nil, false_imp_iff,
    implies_true, and_true, abs_le, Coefficients.eval, computeTemperatureInternal,
    temperatureNumerator, temperatureDenominator,
    TypeS.segment1, TypeS.segment2, TypeS.segment3, TypeS.segment4]
  refine ⟨⟨?_, ?_⟩, ⟨?_, ?_⟩, ⟨?_, ?_⟩⟩
  all_goals norm_num1

set_option maxHeartbeats 1600000 in
theorem adjacent_agree_T :
    ∀ p ∈ (adjacentSegments .T : List (Segment α × Segment α)), p.1.hi ≠ 9.288 →
      |p.1.coef.eval p.1.hi - p.2.coef.eval p.1.hi| ≤ 0.03 := by
  simp only [adjacentSegments, segments, List.tail_cons, List.zip_cons_cons,
    List.zip_nil_right, List.forall_mem_cons, List.not_mem_nil, false_imp_iff,
    implies_true, and_true, abs_le, Coefficients.eval, computeTemperatureInternal,
    temperatureNumerator, temperatureDenominator,
    TypeT.segment1, TypeT.segment2, TypeT.segment3, TypeT.segment4]
  refine ⟨fun _ => ⟨?_, ?_⟩, fun _ => ⟨?_, ?_⟩, fun h => absurd rfl h⟩
  all_goals norm_num1
/-- C7 as stated fails: at the type K boundary 4.096 the second and the third coefficient
sets give temperatures more than 1e-6 apart (100.0091 against 99.9946), so the two sides
of an interior boundary do not always agree within 1e-6. -/
theorem boundary_agreement_within_1e6_fails :
    ¬ ∀ (ty : ThermocoupleType), ∀ p ∈ (adjacentSegments ty : List (Segment ℚ × Segment ℚ)),
        |p.1.coef.eval p.1.hi - p.2.coef.eval p.1.hi| ≤ 1e-6 := by
  intro h
  have hmem : ((⟨-3.554, 4.096, TypeK.segment2⟩, ⟨4.096, 16.397, TypeK.segment3⟩) :
      Segment ℚ × Segment ℚ) ∈ adjacentSegments .K := by
    simp [adjacentSegments, segments]
  have h2 := (abs_le.1 (h .K _ hmem)).2
  norm_num [Coefficients.eval, computeTemperatureInternal, temperatureNumerator,
    temperatureDenominator, TypeK.segment2, TypeK.segment3] at h2

/-- C7, amended: for every type and every interior boundary other than the single boundary
2.431 of type B and the boundary 9.288 of type T, the coefficient set of the segment ending
at the boundary and that of the segment starting there give temperatures that differ by at
most 0.03 degrees. -/
theorem boundary_agreement_within_3e2 (ty : ThermocoupleType) (p : Segment α × Segment α)
    (hp : p ∈ adjacentSegments ty) (hB : ty ≠ .B) (hT : ¬ (ty = .T ∧ p.1.hi = 9.288)) :
    p.1.hi = p.2.lo ∧ |p.1.coef.eval p.1.hi - p.2.coef.eval p.1.hi| ≤ 0.03 := by
  refine ⟨?_, ?_⟩
  · have hc : List.Chain' Contiguous (segments ty : List (Segment α)) := segments_chain ty
    have hall : ∀ q ∈ (adjacentSegments ty : List (Segment α × Segment α)), q.1.hi = q.2.lo := by
      cases ty <;>
        simp only [adjacentSegments, segments, List.tail_cons, List.zip_cons_cons,
          List.zip_nil_right, List.forall_mem_cons, List.not_mem_nil, false_imp_iff,
          implies_true, and_true]
    exact hall p hp
  · cases ty with
    | B => exact absurd rfl hB
    | E => exact adjacent_agree_E p hp
    | J => exact adjacent_agree_J p hp
    | K => exact adjacent_agree_K p hp
    | N => exact adjacent_agree_N p hp
    | R => exact adjacent_agree_R p hp
    | S => exact adjacent_agree_S p hp
    | T => exact adjacent_agree_T p hp fun h => hT ⟨rfl, h⟩

/-- Witness of the amended C7: the type K boundary 4.096 between its second and third
range tests. -/
theorem boundary_agreement_within_3e2_witness :
    ((⟨-3.554, 4.096, TypeK.segment2⟩, ⟨4.096, 16.397, TypeK.segment3⟩) :
        Segment ℚ × Segment ℚ) ∈ adjacentSegments .K
      ∧ ThermocoupleType.K ≠ .B
      ∧ |(TypeK.segment2 : Coefficients ℚ).eval 4.096 - TypeK.segment3.eval 4.096| ≤ 0.03 :=
  ⟨by simp [adjacentSegments, segments], by decide,
    (boundary_agreement_within_3e2 .K
      (⟨-3.554, 4.096, TypeK.segment2⟩, ⟨4.096, 16.397, TypeK.segment3⟩)
      (by simp [adjacentSegments, segments]) (by decide) (by simp)).2⟩

theorem typeT_segment4_denominator_continuous :
    Continuous fun v : ℝ => (TypeT.segment4 : Coefficients ℝ).denominator v := by
  simp only [Coefficients.denominator, temperatureDenominator]
  fun_prop

/-- The fourth range test of type T, whose `q3` is the one of type S, in real arithmetic:
inside its range, at 18.79 mV the divisor of `computeTemperatureInternal` is positive and
the result is above 28000 degrees, at 18.8 mV the divisor is negative and the result is
below -9000 degrees, and at a real voltage in between the divisor is zero.  That voltage is
not rational (`typeT_segment4_denominator_ne_zero_rat`). -/
theorem typeT_segment4_denominator_vanishes :
    (selectCoefficients .T (18.79 : ℚ) = some TypeT.segment4
        ∧ 0 < (TypeT.segment4 : Coefficients ℚ).denominator 18.79
        ∧ 28000 < computeTemperature .T (18.79 : ℚ))
      ∧ (selectCoefficients .T (18.8 : ℚ) = some TypeT.segment4
        ∧ (TypeT.segment4 : Coefficients ℚ).denominator 18.8 < 0
        ∧ computeTemperature .T (18.8 : ℚ) < -9000)
      ∧ ∃ v : ℝ, 18.79 < v ∧ v < 18.8
          ∧ selectCoefficients .T v = some TypeT.segment4
          ∧ (TypeT.segment4 : Coefficients ℝ).denominator v = 0 := by
  have ha : selectCoefficients .T (18.79 : ℚ) = some TypeT.segment4 := by
    norm_num [selectCoefficients, TypeT.selectCoefficients]
  have hb : selectCoefficients .T (18.8 : ℚ) = some TypeT.segment4 := by
    norm_num [selectCoefficients, TypeT.selectCoefficients]
  refine ⟨⟨ha, ?_, ?_⟩, ⟨hb, ?_, ?_⟩, ?_⟩
  · simp only [Coefficients.denominator, temperatureDenominator, TypeT.segment4]
    norm_num1
  · rw [computeTemperature_of_select_some ha]
    simp only [Coefficients.eval, computeTemperatureInternal, temperatureNumerator,
      temperatureDenominator, TypeT.segment4]
    norm_num1
  · simp only [Coefficients.denominator, temperatureDenominator, TypeT.segment4]
    norm_num1
  · rw [computeTemperature_of_select_some hb]
    simp only [Coefficients.eval, computeTemperatureInternal, temperatureNumerator,
      temperatureDenominator, TypeT.segment4]
    norm_num1
  · have hpos : 0 < (TypeT.segment4 : Coefficients ℝ).denominator 18.79 := by
      simp only [Coefficients.denominator, temperatureDenominator, TypeT.segment4]
      norm_num1
    have hneg : (TypeT.segment4 : Coefficients ℝ).denominator 18.8 < 0 := by
      simp only [Coefficients.denominator, temperatureDenominator, TypeT.segment4]
      norm_num1
    have hle : (18.79 : ℝ) ≤ 18.8 := by norm_num
    have hivt := intermediate_value_Icc' hle
      typeT_segment4_denominator_continuous.continuousOn
    obtain ⟨v, ⟨hv1, hv2⟩, hv0⟩ := hivt ⟨le_of_lt hneg, le_of_lt hpos⟩
    have hv0' : (TypeT.segment4 : Coefficients ℝ).denominator v = 0 := hv0
    have h1 : (18.79 : ℝ) < v := by
      rcases lt_or_eq_of_le hv1 with h | h
      · exact h
      · rw [← h] at hv0'
        exact absurd hv0' (ne_of_gt hpos)
    have h2 : v < (18.8 : ℝ) := by
      rcases lt_or_eq_of_le hv2 with h | h
      · exact h
      · rw [h] at hv0'
        exact absurd hv0' (ne_of_lt hneg)
    refine ⟨v, h1, h2, ?_, hv0'⟩
    have hn1 : ¬ ((-6.18 : ℝ) ≤ v ∧ v < -4.648) := fun hc => by linarith only [h1, hc.2]
    have hn2 : ¬ ((-4.648 : ℝ) ≤ v ∧ v < 0.0) := fun hc => by linarith only [h1, hc.2]
    have hn3 : ¬ ((0.0 : ℝ) ≤ v ∧ v < 9.288) := fun hc => by linarith only [h1, hc.2]
    have hp4 : (9.288 : ℝ) ≤ v ∧ v < 20.872 :=
      ⟨by linarith only [h1], by linarith only [h2]⟩
    simp only [selectCoefficients, TypeT.selectCoefficients, if_neg hn1, if_neg hn2,
      if_neg hn3, if_pos hp4]

theorem computeColdJunctionVoltage_eq_quotient (ty : ThermocoupleType) (Tcj : α) :
    computeColdJunctionVoltage ty Tcj
      = (coldJunctionCoefficients ty).V0
        + coldJunctionNumerator Tcj (coldJunctionCoefficients ty).T0
            (coldJunctionCoefficients ty).p1 (coldJunctionCoefficients ty).p2
            (coldJunctionCoefficients ty).p3 (coldJunctionCoefficients ty).p4
          / coldJunctionVoltageDenominator ty Tcj := by
  cases ty <;> rfl

theorem coldJunctionVoltageDenominator_ge (ty : ThermocoupleType) (Tcj : α)
    (h : coldJunctionWindow ty Tcj) : 0.005 ≤ coldJunctionVoltageDenominator ty Tcj := by
  cases ty <;>
    simp only [coldJunctionWindow, coldJunctionVoltageDenominator, coldJunctionDenominator,
      coldJunctionCoefficients] at h ⊢
  · nlinarith [mul_nonneg (sub_nonneg.2 h.1) (sub_nonneg.2 h.2)]
  · nlinarith [mul_nonneg (sub_nonneg.2 h.1) (sub_nonneg.2 h.2)]
  · nlinarith [mul_nonneg (sub_nonneg.2 h.1) (sub_nonneg.2 h.2)]
  · nlinarith [mul_nonneg (sub_nonneg.2 h.1) (sub_nonneg.2 h.2)]
  · nlinarith [sq_nonneg (Tcj - 7 - 3203546600 / 82161781)]
  · nlinarith [mul_nonneg (sub_nonneg.2 h.1) (sub_nonneg.2 h.2)]
  · nlinarith [mul_nonneg (sub_nonneg.2 h.1) (sub_nonneg.2 h.2)]
  · linarith [h.1]

theorem quartic_pos_of_bernstein (c0 c1 c2 c3 c4 A B d : α) (hA : A ≤ d) (hB : d ≤ B)
    (hAB : A < B)
    (h0 : 0 < c0 + c1 * A + c2 * (A * A) + c3 * (A * A * A) + c4 * (A * A * A * A))
    (h1 : 0 < c0 + c1 * ((3 * A + B) / 4) + c2 * ((A * A + A * B) / 2)
      + c3 * ((A * A * A + 3 * (A * A * B)) / 4) + c4 * (A * A * A * B))
    (h2 : 0 < c0 + c1 * ((A + B) / 2) + c2 * ((A * A + 4 * (A * B) + B * B) / 6)
      + c3 * ((A * A * B + A * B * B) / 2) + c4 * (A * A * B * B))
    (h3 : 0 < c0 + c1 * ((A + 3 * B) / 4) + c2 * ((A * B + B * B) / 2)
      + c3 * ((3 * (A * B * B) + B * B * B) / 4) + c4 * (A * B * B * B))
    (h4 : 0 < c0 + c1 * B + c2 * (B * B) + c3 * (B * B * B) + c4 * (B * B * B * B)) :
    0 < c0 + d * (c1 + d * (c2 + d * (c3 + c4 * d))) := by
  have hx : 0 ≤ d - A := sub_nonneg.2 hA
  have hy : 0 ≤ B - d := sub_nonneg.2 hB
  have hL : 0 < B - A := sub_pos.2 hAB
  have key : (B - A) ^ 4 * (c0 + d * (c1 + d * (c2 + d * (c3 + c4 * d))))
      = (c0 + c1 * A + c2 * (A * A) + c3 * (A * A * A) + c4 * (A * A * A * A)) * (B - d) ^ 4
        + 4 * (c0 + c1 * ((3 * A + B) / 4) + c2 * ((A * A + A * B) / 2)
            + c3 * ((A * A * A + 3 * (A * A * B)) / 4) + c4 * (A * A * A * B))
            * ((d - A) * (B - d) ^ 3)
        + 6 * (c0 + c1 * ((A + B) / 2) + c2 * ((A * A + 4 * (A * B) + B * B) / 6)
            + c3 * ((A * A * B + A * B * B) / 2) + c4 * (A * A * B * B))
            * ((d - A) ^ 2 * (B - d) ^ 2)
        + 4 * (c0 + c1 * ((A + 3 * B) / 4) + c2 * ((A * B + B * B) / 2)
            + c3 * ((3 * (A * B * B) + B * B * B) / 4) + c4 * (A * B * B * B))
            * ((d - A) ^ 3 * (B - d))
        + (c0 + c1 * B + c2 * (B * B) + c3 * (B * B * B) + c4 * (B * B * B * B))
            * (d - A) ^ 4 := by
    ring
  have t0 := mul_nonneg (le_of_lt h0) (pow_nonneg hy 4)
  have t1 := mul_nonneg (mul_nonneg (by norm_num : (0 : α) ≤ 4) (le_of_lt h1))
    (mul_nonneg hx (pow_nonneg hy 3))
  have t2 := mul_nonneg (mul_nonneg (by norm_num : (0 : α) ≤ 6) (le_of_lt h2))
    (mul_nonneg (pow_nonneg hx 2) (pow_nonneg hy 2))
  have t3 := mul_nonneg (mul_nonneg (by norm_num : (0 : α) ≤ 4) (le_of_lt h3))
    (mul_nonneg (pow_nonneg hx 3) hy)
  have t4 := mul_nonneg (le_of_lt h4) (pow_nonneg hx 4)
  have hpos : 0 < (B - A) ^ 4 * (c0 + d * (c1 + d * (c2 + d * (c3 + c4 * d)))) := by
    rw [key]
    rcases lt_or_eq_of_le hB with hlt | heq
    · have := mul_pos h0 (pow_pos (sub_pos.2 hlt) 4)
      linarith
    · have hd : 0 < d - A := by rw [heq]; exact hL
      have := mul_pos h4 (pow_pos hd 4)
      linarith
  exact pos_of_mul_pos_right hpos (le_of_lt (pow_pos hL 4))

/-- Bound on the quotient form of `computeColdJunction` from two quartic certificates: if
`M * denominator - (V0 * denominator + numerator)` and
`M * denominator + (V0 * denominator + numerator)` have positive Bernstein coefficients on
`A ≤ Tcj - T0 ≤ B` and the divisor is positive, the result is strictly between `-M` and
`M`. -/
theorem coldJunction_abs_lt_of_bernstein (c : ColdJunctionCoefficients α) (M A B Tcj : α)
    (hA : A ≤ Tcj - c.T0) (hB : Tcj - c.T0 ≤ B)
    (hD : 0 < coldJunctionDenominator Tcj c.T0 c.q1 c.q2)
    (hu : ∀ d : α, A ≤ d → d ≤ B →
      0 < (M - c.V0) + d * (((M - c.V0) * c.q1 - c.p1) + d * (((M - c.V0) * c.q2 - c.p2)
        + d * (-c.p3 + -c.p4 * d))))
    (hl : ∀ d : α, A ≤ d → d ≤ B →
      0 < (M + c.V0) + d * (((M + c.V0) * c.q1 + c.p1) + d * (((M + c.V0) * c.q2 + c.p2)
        + d * (c.p3 + c.p4 * d)))) :
    |c.V0 + coldJunctionNumerator Tcj c.T0 c.p1 c.p2 c.p3 c.p4
        / coldJunctionDenominator Tcj c.T0 c.q1 c.q2| < M := by
  have h1 : (1.0 : α) = 1 := by norm_num
  have hu1 := hu _ hA hB
  have hl1 := hl _ hA hB
  rw [abs_lt]
  constructor
  · have : -(M + c.V0) < coldJunctionNumerator Tcj c.T0 c.p1 c.p2 c.p3 c.p4
        / coldJunctionDenominator Tcj c.T0 c.q1 c.q2 := by
      rw [lt_div_iff₀ hD]
      simp only [coldJunctionNumerator, coldJunctionDenominator, h1]
      linarith only [hl1]
    linarith only [this]
  · have : coldJunctionNumerator Tcj c.T0 c.p1 c.p2 c.p3 c.p4
        / coldJunctionDenominator Tcj c.T0 c.q1 c.q2 < M - c.V0 := by
      rw [div_lt_iff₀ hD]
      simp only [coldJunctionNumerator, coldJunctionDenominator, h1]
      linarith only [hu1]
    linarith only [this]

theorem computeColdJunctionVoltage_abs_lt_B (Tcj : α) (h1 : -15 ≤ Tcj) (h2 : Tcj ≤ 77)
    (hD : 0 < coldJunctionVoltageDenominator .B Tcj) :
    |computeColdJunctionVoltage .B Tcj| < 100 := by
  rw [computeColdJunctionVoltage_eq_quotient]
  refine coldJunction_abs_lt_of_bernstein (coldJunctionCoefficients .B) 100 (-57) (35) Tcj
    ?_ ?_ hD ?_ ?_
  · simp only [coldJunctionCoefficients]; linarith only [h1]
  · simp only [coldJunctionCoefficients]; linarith only [h2]
  · intro d hA hB
    apply quartic_pos_of_bernstein _ _ _ _ _ (-57) (35) d hA hB (by norm_num1) <;>
      (simp only [coldJunctionCoefficients]; norm_num1)
  · intro d hA hB
    apply quartic_pos_of_bernstein _ _ _ _ _ (-57) (35) d hA hB (by norm_num1) <;>
      (simp only [coldJunctionCoefficients]; norm_num1)

theorem computeColdJunctionVoltage_abs_lt_E (Tcj : α) (h1 : -40 ≤ Tcj) (h2 : Tcj ≤ 73)
    (hD : 0 < coldJunctionVoltageDenominator .E Tcj) :
    |computeColdJunctionVoltage .E Tcj| < 100 := by
  rw [computeColdJunctionVoltage_eq_quotient]
  refine coldJunction_abs_lt_of_bernstein (coldJunctionCoefficients .E) 100 (-65) (48) Tcj
    ?_ ?_ hD ?_ ?_
  · simp only [coldJunctionCoefficients]; linarith only [h1]
  · simp only [coldJunctionCoefficients]; linarith only [h2]
  · intro d hA hB
    apply quartic_pos_of_bernstein _ _ _ _ _ (-65) (48) d hA hB (by norm_num1) <;>
      (simp only [coldJunctionCoefficients]; norm_num1)
  · intro d hA hB
    apply quartic_pos_of_bernstein _ _ _ _ _ (-65) (48) d hA hB (by norm_num1) <;>
      (simp only [coldJunctionCoefficients]; norm_num1)

theorem computeColdJunctionVoltage_abs_lt_J (Tcj : α) (h1 : -147 ≤ Tcj) (h2 : Tcj ≤ 161)
    (hD : 0 < coldJunctionVoltageDenominator .J Tcj) :
    |computeColdJunctionVoltage .J Tcj| < 100 := by
  rw [computeColdJunctionVoltage_eq_quotient]
  refine coldJunction_abs_lt_of_bernstein (coldJunctionCoefficients .J) 100 (-172) (136) Tcj
    ?_ ?_ hD ?_ ?_
  · simp only [coldJunctionCoefficients]; linarith only [h1]
  · simp only [coldJunctionCoefficients]; linarith only [h2]
  · intro d hA hB
    apply quartic_pos_of_bernstein _ _ _ _ _ (-172) (136) d hA hB (by norm_num1) <;>
      (simp only [coldJunctionCoefficients]; norm_num1)
  · intro d hA hB
    apply quartic_pos_of_bernstein _ _ _ _ _ (-172) (136) d hA hB (by norm_num1) <;>
      (simp only [coldJunctionCoefficients]; norm_num1)

theorem computeColdJunctionVoltage_abs_lt_K (Tcj : α) (h1 : -106 ≤ Tcj) (h2 : Tcj ≤ 136)
    (hD : 0 < coldJunctionVoltageDenominator .K Tcj) :
    |computeColdJunctionVoltage .K Tcj| < 100 := by
  rw [computeColdJunctionVoltage_eq_quotient]
  refine coldJunction_abs_lt_of_bernstein (coldJunctionCoefficients .K) 100 (-131) (111) Tcj
    ?_ ?_ hD ?_ ?_
  · simp only [coldJunctionCoefficients]; linarith only [h1]
  · simp only [coldJunctionCoefficients]; linarith only [h2]
  · intro d hA hB
    apply quartic_pos_of_bernstein _ _ _ _ _ (-131) (111) d hA hB (by norm_num1) <;>
      (simp only [coldJunctionCoefficients]; norm_num1)
  · intro d hA hB
    apply quartic_pos_of_bernstein _ _ _ _ _ (-131) (111) d hA hB (by norm_num1) <;>
      (simp only [coldJunctionCoefficients]; norm_num1)

theorem computeColdJunctionVoltage_abs_lt_N_piece1 (Tcj : α) (h1 : -1000 ≤ Tcj) (h2 : Tcj ≤ -500)
    (hD : 0 < coldJunctionVoltageDenominator .N Tcj) :
    |computeColdJunctionVoltage .N Tcj| < 100 := by
  rw [computeColdJunctionVoltage_eq_quotient]
  refine coldJunction_abs_lt_of_bernstein (coldJunctionCoefficients .N) 100 (-1007) (-507) Tcj
    ?_ ?_ hD ?_ ?_
  · simp only [coldJunctionCoefficients]; linarith only [h1]
  · simp only [coldJunctionCoefficients]; linarith only [h2]
  · intro d hA hB
    apply quartic_pos_of_bernstein _ _ _ _ _ (-1007) (-507) d hA hB (by norm_num1) <;>
      (simp only [coldJunctionCoefficients]; norm_num1)
  · intro d hA hB
    apply quartic_pos_of_bernstein _ _ _ _ _ (-1007) (-507) d hA hB (by norm_num1) <;>
      (simp only [coldJunctionCoefficients]; norm_num1)

theorem computeColdJunctionVoltage_abs_lt_N_piece2 (Tcj : α) (h1 : -500 ≤ Tcj) (h2 : Tcj ≤ 0)
    (hD : 0 < coldJunctionVoltageDenominator .N Tcj) :
    |computeColdJunctionVoltage .N Tcj| < 100 := by
  rw [computeColdJunctionVoltage_eq_quotient]
  refine coldJunction_abs_lt_of_bernstein (coldJunctionCoefficients .N) 100 (-507) (-7) Tcj
    ?_ ?_ hD ?_ ?_
  · simp only [coldJunctionCoefficients]; linarith only [h1]
  · simp only [coldJunctionCoefficients]; linarith only [h2]
  · intro d hA hB
    apply quartic_pos_of_bernstein _ _ _ _ _ (-507) (-7) d hA hB (by norm_num1) <;>
      (simp only [coldJunctionCoefficients]; norm_num1)
  · intro d hA hB
    apply quartic_pos_of_bernstein _ _ _ _ _ (-507) (-7) d hA hB (by norm_num1) <;>
      (simp only [coldJunctionCoefficients]; norm_num1)

theorem computeColdJunctionVoltage_abs_lt_N_piece3 (Tcj : α) (h1 : 0 ≤ Tcj) (h2 : Tcj ≤ 500)
    (hD : 0 < coldJunctionVoltageDenominator .N Tcj) :
    |computeColdJunctionVoltage .N Tcj| < 100 := by
  rw [computeColdJunctionVoltage_eq_quotient]
  refine coldJunction_abs_lt_of_bernstein (coldJunctionCoefficients .N) 100 (-7) (493) Tcj
    ?_ ?_ hD ?_ ?_
  · simp only [coldJunctionCoefficients]; linarith only [h1]
  · simp only [coldJunctionCoefficients]; linarith only [h2]
  · intro d hA hB
    apply quartic_pos_of_bernstein _ _ _ _ _ (-7) (493) d hA hB (by norm_num1) <;>
      (simp only [coldJunctionCoefficients]; norm_num1)
  · intro d hA hB
    apply quartic_pos_of_bernstein _ _ _ _ _ (-7) (493) d hA hB (by norm_num1) <;>
      (simp only [coldJunctionCoefficients]; norm_num1)

theorem computeColdJunctionVoltage_abs_lt_N_piece4 (Tcj : α) (h1 : 500 ≤ Tcj) (h2 : Tcj ≤ 1000)
    (hD : 0 < coldJunctionVoltageDenominator .N Tcj) :
    |computeColdJunctionVoltage .N Tcj| < 100 := by
  rw [computeColdJunctionVoltage_eq_quotient]
  refine coldJunction_abs_lt_of_bernstein (coldJunctionCoefficients .N) 100 (493) (993) Tcj
    ?_ ?_ hD ?_ ?_
  · simp only [coldJunctionCoefficients]; linarith only [h1]
  · simp only [coldJunctionCoefficients]; linarith only [h2]
  · intro d hA hB
    apply quartic_pos_of_bernstein _ _ _ _ _ (493) (993) d hA hB (by norm_num1) <;>
      (simp only [coldJunctionCoefficients]; norm_num1)
  · intro d hA hB
    apply quartic_pos_of_bernstein _ _ _ _ _ (493) (993) d hA hB (by norm_num1) <;>
      (simp only [coldJunctionCoefficients]; norm_num1)

theorem computeColdJunctionVoltage_abs_lt_N (Tcj : α) (h1 : -1000 ≤ Tcj) (h2 : Tcj ≤ 1000)
    (hD : 0 < coldJunctionVoltageDenominator .N Tcj) :
    |computeColdJunctionVoltage .N Tcj| < 100 := by
  rcases le_total Tcj (-500) with hc0 | hc0
  · exact computeColdJunctionVoltage_abs_lt_N_piece1 Tcj h1 hc0 hD
  rcases le_total Tcj (0) with hc1 | hc1
  · exact computeColdJunctionVoltage_abs_lt_N_piece2 Tcj hc0 hc1 hD
  rcases le_total Tcj (500) with hc2 | hc2
  · exact computeColdJunctionVoltage_abs_lt_N_piece3 Tcj hc1 hc2 hD
  exact computeColdJunctionVoltage_abs_lt_N_piece4 Tcj hc2 h2 hD

theorem computeColdJunctionVoltage_abs_lt_R (Tcj : α) (h1 : -41 ≤ Tcj) (h2 : Tcj ≤ 105)
    (hD : 0 < coldJunctionVoltageDenominator .R Tcj) :
    |computeColdJunctionVoltage .R Tcj| < 100 := by
  rw [computeColdJunctionVoltage_eq_quotient]
  refine coldJunction_abs_lt_of_bernstein (coldJunctionCoefficients .R) 100 (-66) (80) Tcj
    ?_ ?_ hD ?_ ?_
  · simp only [coldJunctionCoefficients]; linarith only [h1]
  · simp only [coldJunctionCoefficients]; linarith only [h2]
  · intro d hA hB
    apply quartic_pos_of_bernstein _ _ _ _ _ (-66) (80) d hA hB (by norm_num1) <;>
      (simp only [coldJunctionCoefficients]; norm_num1)
  · intro d hA hB
    apply quartic_pos_of_bernstein _ _ _ _ _ (-66) (80) d hA hB (by norm_num1) <;>
      (simp only [coldJunctionCoefficients]; norm_num1)

theorem computeColdJunctionVoltage_abs_lt_S (Tcj : α) (h1 : -44 ≤ Tcj) (h2 : Tcj ≤ 89)
    (hD : 0 < coldJunctionVoltageDenominator .S Tcj) :
    |computeColdJunctionVoltage .S Tcj| < 100 := by
  rw [computeColdJunctionVoltage_eq_quotient]
  refine coldJunction_abs_lt_of_bernstein (coldJunctionCoefficients .S) 100 (-69) (64) Tcj
    ?_ ?_ hD ?_ ?_
  · simp only [coldJunctionCoefficients]; linarith only [h1]
  · simp only [coldJunctionCoefficients]; linarith only [h2]
  · intro d hA hB
    apply quartic_pos_of_bernstein _ _ _ _ _ (-69) (64) d hA hB (by norm_num1) <;>
      (simp only [coldJunctionCoefficients]; norm_num1)
  · intro d hA hB
    apply quartic_pos_of_bernstein _ _ _ _ _ (-69) (64) d hA hB (by norm_num1) <;>
      (simp only [coldJunctionCoefficients]; norm_num1)

theorem computeColdJunctionVoltage_abs_lt_T (Tcj : α) (h1 : -35 ≤ Tcj) (h2 : Tcj ≤ 1000)
    (hD : 0 < coldJunctionVoltageDenominator .T Tcj) :
    |computeColdJunctionVoltage .T Tcj| < 100 := by
  rw [computeColdJunctionVoltage_eq_quotient]
  refine coldJunction_abs_lt_of_bernstein (coldJunctionCoefficients .T) 100 (-60) (975) Tcj
    ?_ ?_ hD ?_ ?_
  · simp only [coldJunctionCoefficients]; linarith only [h1]
  · simp only [coldJunctionCoefficients]; linarith only [h2]
  · intro d hA hB
    apply quartic_pos_of_bernstein _ _ _ _ _ (-60) (975) d hA hB (by norm_num1) <;>
      (simp only [coldJunctionCoefficients]; norm_num1)
  · intro d hA hB
    apply quartic_pos_of_bernstein _ _ _ _ _ (-60) (975) d hA hB (by norm_num1) <;>
      (simp only [coldJunctionCoefficients]; norm_num1)

theorem computeColdJunctionVoltage_abs_lt (ty : ThermocoupleType) (Tcj : α)
    (h : coldJunctionWindow ty Tcj) : |computeColdJunctionVoltage ty Tcj| < 100 := by
  have hD : 0 < coldJunctionVoltageDenominator ty Tcj :=
    lt_of_lt_of_le (by norm_num) (coldJunctionVoltageDenominator_ge ty Tcj h)
  cases ty
  · exact computeColdJunctionVoltage_abs_lt_B Tcj h.1 h.2 hD
  · exact computeColdJunctionVoltage_abs_lt_E Tcj h.1 h.2 hD
  · exact computeColdJunctionVoltage_abs_lt_J Tcj h.1 h.2 hD
  · exact computeColdJunctionVoltage_abs_lt_K Tcj h.1 h.2 hD
  · exact computeColdJunctionVoltage_abs_lt_N Tcj h.1 h.2 hD
  · exact computeColdJunctionVoltage_abs_lt_R Tcj h.1 h.2 hD
  · exact computeColdJunctionVoltage_abs_lt_S Tcj h.1 h.2 hD
  · exact computeColdJunctionVoltage_abs_lt_T Tcj h.1 h.2 hD

/-- C9 as stated fails: at the cold-junction temperature 25 - 1000000000/16458102
(about -35.76 degrees) the divisor inside `TypeT::computeColdJunctionVoltage` is zero
while the dividend is not, so the division is not defined there. -/
theorem typeT_coldJunction_denominator_zero :
    coldJunctionVoltageDenominator .T (25 - 1000000000 / 16458102 : ℚ) = 0
      ∧ coldJunctionNumerator (25 - 1000000000 / 16458102 : ℚ)
          (coldJunctionCoefficients .T).T0 (coldJunctionCoefficients .T).p1
          (coldJunctionCoefficients .T).p2 (coldJunctionCoefficients .T).p3
          (coldJunctionCoefficients .T).p4 ≠ 0
      ∧ computeColdJunctionVoltage .T (25 - 1000000000 / 16458102 : ℚ)
          = (coldJunctionCoefficients .T).V0
            + coldJunctionNumerator (25 - 1000000000 / 16458102 : ℚ)
                (coldJunctionCoefficients .T).T0 (coldJunctionCoefficients .T).p1
                (coldJunctionCoefficients .T).p2 (coldJunctionCoefficients .T).p3
                (coldJunctionCoefficients .T).p4
              / coldJunctionVoltageDenominator .T (25 - 1000000000 / 16458102 : ℚ) := by
  refine ⟨?_, ?_, computeColdJunctionVoltage_eq_quotient _ _⟩
  · simp only [coldJunctionVoltageDenominator, coldJunctionDenominator,
      coldJunctionCoefficients]
    norm_num1
  · simp only [coldJunctionNumerator, coldJunctionCoefficients]
    norm_num1

/-- C9, amended: for every cold-junction temperature inside the window of its type
(B -15..77, E -40..73, J -147..161, K -106..136, N -1000..1000, R -41..105, S -44..89,
T -35..1000 degrees, ends included) the divisor 1 + d*(q1 + q2*d), d = Tcj - T0, of the
quotient that `computeColdJunctionVoltage` evaluates is at least 0.005, hence non-zero, and
the returned voltage is below 100 mV in magnitude. -/
theorem coldJunction_denominator_ge_in_window (ty : ThermocoupleType) (Tcj : α)
    (h : coldJunctionWindow ty Tcj) :
    computeColdJunctionVoltage ty Tcj
        = (coldJunctionCoefficients ty).V0
          + coldJunctionNumerator Tcj (coldJunctionCoefficients ty).T0
              (coldJunctionCoefficients ty).p1 (coldJunctionCoefficients ty).p2
              (coldJunctionCoefficients ty).p3 (coldJunctionCoefficients ty).p4
            / coldJunctionVoltageDenominator ty Tcj
      ∧ 0.005 ≤ coldJunctionVoltageDenominator ty Tcj
      ∧ coldJunctionVoltageDenominator ty Tcj ≠ 0
      ∧ |computeColdJunctionVoltage ty Tcj| < 100 :=
  ⟨computeColdJunctionVoltage_eq_quotient ty Tcj, coldJunctionVoltageDenominator_ge ty Tcj h,
    ne_of_gt (lt_of_lt_of_le (by norm_num) (coldJunctionVoltageDenominator_ge ty Tcj h)),
    computeColdJunctionVoltage_abs_lt ty Tcj h⟩

/-- Witness of the amended C9: type S at 30 degrees. -/
theorem coldJunction_denominator_ge_in_window_witness :
    coldJunctionWindow .S (30 : ℚ) ∧ 0.005 ≤ coldJunctionVoltageDenominator .S (30 : ℚ)
      ∧ |computeColdJunctionVoltage .S (30 : ℚ)| < 100 :=
  ⟨by norm_num [coldJunctionWindow],
    (coldJunction_denominator_ge_in_window .S (30 : ℚ)
      (by norm_num [coldJunctionWindow])).2.1,
    (coldJunction_denominator_ge_in_window .S (30 : ℚ)
      (by norm_num [coldJunctionWindow])).2.2.2⟩

/-- C10: for every type and every cold-junction temperature, with no range test and no
sentinel branch, `computeColdJunctionVoltage` is the cold-junction form
V0 + (d*(p1 + d*(p2 + d*(p3 + p4*d)))) / (1 + d*(q1 + q2*d)), d = Tcj - T0, of the
specification evaluated with the eight coefficients of the type. -/
theorem computeColdJunctionVoltage_eq_form (ty : ThermocoupleType) (Tcj : α) :
    computeColdJunctionVoltage ty Tcj = coldJunctionForm (coldJunctionCoefficients ty) Tcj := by
  have h1 : (1.0 : α) = 1 := by norm_num
  rw [computeColdJunctionVoltage_eq_quotient]
  simp only [coldJunctionForm, coldJunctionVoltageDenominator, coldJunctionDenominator,
    coldJunctionNumerator, h1]

/-! ## Claims on the inverse conversion and the entry points -/

theorem one_point_zero : (1.0 : α) = 1 := by norm_num1

theorem eval_eq_inverseConversionForm (c : Coefficients α) (x : α) :
    c.eval x = inverseConversionForm c x := by
  simp only [Coefficients.eval, computeTemperatureInternal, temperatureNumerator,
    temperatureDenominator, inverseConversionForm, one_point_zero]

/-- C11: for every input and every nine coefficients, `computeTemperatureInternal` returns
T0 + (d*(p1 + d*(p2 + d*(p3 + p4*d)))) / (1 + d*(q1 + d*(q2 + q3*d))) with d = x - V0, and
whenever the if-chain of a type selects a coefficient set (every in-range voltage), the
result of `computeTemperature` is this form applied to the selected set. -/
theorem computeTemperatureInternal_eq_form :
    (∀ x T0 V0 p1 p2 p3 p4 q1 q2 q3 : α,
        computeTemperatureInternal x T0 V0 p1 p2 p3 p4 q1 q2 q3
          = T0 + ((x - V0) * (p1 + (x - V0) * (p2 + (x - V0) * (p3 + p4 * (x - V0)))))
              / (1 + (x - V0) * (q1 + (x - V0) * (q2 + q3 * (x - V0))))
          ∧ computeTemperatureInternal x T0 V0 p1 p2 p3 p4 q1 q2 q3
              = inverseConversionForm ⟨T0, V0, p1, p2, p3, p4, q1, q2, q3⟩ x)
      ∧ (∀ (ty : ThermocoupleType) (v : α) (c : Coefficients α),
          selectCoefficients ty v = some c →
            computeTemperature ty v = inverseConversionForm c v)
      ∧ (∀ (ty : ThermocoupleType) (v : α), inDomain ty v →
          ∃ s ∈ segments ty, inSegment ty s v ∧ selectCoefficients ty v = some s.coef
            ∧ computeTemperature ty v = inverseConversionForm s.coef v) := by
  refine ⟨fun x T0 V0 p1 p2 p3 p4 q1 q2 q3 => ⟨?_, ?_⟩, fun ty v c h => ?_, fun ty v hv => ?_⟩
  · simp only [computeTemperatureInternal, temperatureNumerator, temperatureDenominator,
      one_point_zero]
  · simp only [computeTemperatureInternal, temperatureNumerator, temperatureDenominator,
      inverseConversionForm, one_point_zero]
  · rw [computeTemperature_of_select_some h, eval_eq_inverseConversionForm]
  · obtain ⟨s, hs, hin, hsel, _⟩ := select_of_inDomain ty v hv
    exact ⟨s, hs, hin, hsel, by
      rw [computeTemperature_of_select_some hsel, eval_eq_inverseConversionForm]⟩

/-- Witness of C11: type R at 10 mV, where the if-chain selects the third coefficient
set. -/
theorem computeTemperatureInternal_eq_form_witness :
    selectCoefficients .R (10 : ℚ) = some TypeR.segment3
      ∧ computeTemperature .R (10 : ℚ) = inverseConversionForm TypeR.segment3 10 :=
  ⟨by norm_num [selectCoefficients, TypeR.selectCoefficients],
    computeTemperatureInternal_eq_form.2.1 .R 10 TypeR.segment3
      (by norm_num [selectCoefficients, TypeR.selectCoefficients])⟩

/-- C13: the 32-bit entry point is a pure delegation to the 64-bit one: for every type and
all 32-bit inputs it is the narrowing of the 64-bit `getTemperature` at the widened
inputs, whatever the two conversions are, and so of `computeTemperature` at the widened
voltage plus the cold-junction voltage of the widened temperature. -/
theorem getTemperatureFloat_eq_delegation {F : Type} (toDouble : F → α) (toFloat : α → F)
    (ty : ThermocoupleType) (millivolts Tcj : F) :
    getTemperatureFloat toDouble toFloat ty millivolts Tcj
        = toFloat (getTemperature ty (toDouble millivolts) (toDouble Tcj))
      ∧ getTemperatureFloat toDouble toFloat ty millivolts Tcj
        = toFloat (computeTemperature ty
            (toDouble millivolts + computeColdJunctionVoltage ty (toDouble Tcj))) :=
  ⟨rfl, rfl⟩

theorem segments_V0_inside (ty : ThermocoupleType) :
    ∀ s ∈ (segments ty : List (Segment α)), s.lo < s.coef.V0 ∧ s.coef.V0 < s.hi := by
  cases ty <;>
    simp only [segments, List.forall_mem_cons, List.not_mem_nil, false_imp_iff,
      implies_true, and_true, TypeB.segment1, TypeB.segment2, TypeE.segment1, TypeE.segment2,
      TypeE.segment3, TypeE.segment4, TypeE.segment5, TypeJ.segment1, TypeJ.segment2,
      TypeJ.segment3, TypeJ.segment4, TypeJ.segment5, TypeK.segment1, TypeK.segment2,
      TypeK.segment3, TypeK.segment4, TypeK.segment5, TypeN.segment1, TypeN.segment2,
      TypeN.segment3, TypeR.segment1, TypeR.segment2, TypeR.segment3, TypeR.segment4,
      TypeS.segment1, TypeS.segment2, TypeS.segment3, TypeS.segment4, TypeT.segment1,
      TypeT.segment2, TypeT.segment3, TypeT.segment4] <;>
    norm_num

theorem inRange_of_lt_of_lt {ty : ThermocoupleType} {lo hi v : α} (h1 : lo < v) (h2 : v < hi) :
    inRange ty lo hi v := by
  cases ty <;> first
    | exact ⟨le_of_lt h1, h2⟩
    | exact ⟨h1, le_of_lt h2⟩

theorem inDomain_of_inSegment {ty : ThermocoupleType} {s : Segment α} {v : α}
    (hs : s ∈ segments ty) (hin : inSegment ty s v) : inDomain ty v := by
  have hb := segments_within_bounds ty s hs
  cases ty <;> first
    | exact ⟨hb.1.trans hin.1, lt_of_lt_of_le hin.2 hb.2⟩
    | exact ⟨lt_of_le_of_lt hb.1 hin.1, hin.2.trans hb.2⟩

theorem select_of_inSegment {ty : ThermocoupleType} {s : Segment α} {v : α}
    (hs : s ∈ segments ty) (hin : inSegment ty s v) :
    selectCoefficients ty v = some s.coef := by
  obtain ⟨u, _, _, hsel, huniq⟩ := select_of_inDomain ty v (inDomain_of_inSegment hs hin)
  rw [hsel, huniq s hs hin]

theorem computeTemperature_of_inSegment {ty : ThermocoupleType} {s : Segment α} {v : α}
    (hs : s ∈ segments ty) (hin : inSegment ty s v) :
    computeTemperature ty v = s.coef.eval v :=
  computeTemperature_of_select_some (select_of_inSegment hs hin)

theorem eval_V0 (c : Coefficients α) : c.eval c.V0 = c.T0 := by
  simp only [Coefficients.eval, computeTemperatureInternal, temperatureNumerator, sub_self,
    zero_mul, zero_div, add_zero]

/-- C15: for every type and every segment of that type, the segment's own reference
voltage V0 lies inside the segment's range, the numerator of the inverse form vanishes and
its denominator is 1 there, and `computeTemperature(V0)` returns exactly the segment's
T0. -/
theorem computeTemperature_at_V0 (ty : ThermocoupleType) (s : Segment α)
    (hs : s ∈ segments ty) :
    inSegment ty s s.coef.V0
      ∧ selectCoefficients ty s.coef.V0 = some s.coef
      ∧ temperatureNumerator s.coef.V0 s.coef.V0 s.coef.p1 s.coef.p2 s.coef.p3 s.coef.p4 = 0
      ∧ s.coef.denominator s.coef.V0 = 1
      ∧ computeTemperature ty s.coef.V0 = s.coef.T0 := by
  have hV := segments_V0_inside ty s hs
  have hin : inSegment ty s s.coef.V0 := inRange_of_lt_of_lt hV.1 hV.2
  refine ⟨hin, select_of_inSegment hs hin, ?_, ?_, ?_⟩
  · simp only [temperatureNumerator, sub_self, zero_mul]
  · simp only [Coefficients.denominator, temperatureDenominator, sub_self, zero_mul,
      add_zero, one_point_zero]
  · rw [computeTemperature_of_inSegment hs hin, eval_V0]

/-- Witness of C15: the fourth range test of type T, reference voltage 14.861780 mV,
reference temperature 300 degrees. -/
theorem computeTemperature_at_V0_witness :
    (⟨9.288, 20.872, TypeT.segment4⟩ : Segment ℚ) ∈ segments .T
      ∧ computeTemperature .T (1.4861780E+01 : ℚ) = 3.0000000E+02 :=
  ⟨by simp [segments],
    (computeTemperature_at_V0 .T (⟨9.288, 20.872, TypeT.segment4⟩ : Segment ℚ)
      (by simp [segments])).2.2.2.2⟩

theorem computeColdJunctionVoltage_at_reference (ty : ThermocoupleType) :
    computeColdJunctionVoltage ty (coldJunctionReferenceTemperature ty : α)
      = coldJunctionReferenceVoltage ty := by
  cases ty <;>
    simp only [computeColdJunctionVoltage, TypeB.computeColdJunctionVoltage,
      TypeE.computeColdJunctionVoltage, TypeJ.computeColdJunctionVoltage,
      TypeK.computeColdJunctionVoltage, TypeN.computeColdJunctionVoltage,
      TypeR.computeColdJunctionVoltage, TypeS.computeColdJunctionVoltage,
      TypeT.computeColdJunctionVoltage, computeColdJunction, coldJunctionNumerator,
      coldJunctionDenominator, coldJunctionReferenceTemperature,
      coldJunctionReferenceVoltage] <;>
    norm_num1

/-- C16: for every type, `computeColdJunctionVoltage` at the type's own reference
temperature T0 returns exactly the type's V0 (B: 42 -> 3.3933898E-04, E: 25 -> 1.4950582,
J: 25 -> 1.2773432, K: 25 -> 1.0003453, N: 7 -> 1.8210024E-01, R: 25 -> 1.4067016E-01,
S: 25 -> 1.4269163E-01, T: 25 -> 9.9198279E-01), and hence `getTemperature(mv, T0)` is
`computeTemperature(mv + V0)` for every mv. -/
theorem computeColdJunctionVoltage_at_T0 :
    (computeColdJunctionVoltage .B (42 : α) = 3.3933898E-04
        ∧ computeColdJunctionVoltage .E (25 : α) = 1.4950582
        ∧ computeColdJunctionVoltage .J (25 : α) = 1.2773432
        ∧ computeColdJunctionVoltage .K (25 : α) = 1.0003453
        ∧ computeColdJunctionVoltage .N (7 : α) = 1.8210024E-01
        ∧ computeColdJunctionVoltage .R (25 : α) = 1.4067016E-01
        ∧ computeColdJunctionVoltage .S (25 : α) = 1.4269163E-01
        ∧ computeColdJunctionVoltage .T (25 : α) = 9.9198279E-01)
      ∧ (∀ ty : ThermocoupleType,
          (coldJunctionCoefficients ty : ColdJunctionCoefficients α).T0
              = coldJunctionReferenceTemperature ty
            ∧ (coldJunctionCoefficients ty : ColdJunctionCoefficients α).V0
              = coldJunctionReferenceVoltage ty
            ∧ computeColdJunctionVoltage ty (coldJunctionReferenceTemperature ty : α)
              = coldJunctionReferenceVoltage ty)
      ∧ (∀ (ty : ThermocoupleType) (mv : α),
          getTemperature ty mv (coldJunctionReferenceTemperature ty)
            = computeTemperature ty (mv + coldJunctionReferenceVoltage ty)) := by
  refine ⟨⟨?_, ?_, ?_, ?_, ?_, ?_, ?_, ?_⟩, fun ty => ⟨?_, ?_, ?_⟩, fun ty mv => ?_⟩
  · exact computeColdJunctionVoltage_at_reference .B
  · exact computeColdJunctionVoltage_at_reference .E
  · exact computeColdJunctionVoltage_at_reference .J
  · exact computeColdJunctionVoltage_at_reference .K
  · exact computeColdJunctionVoltage_at_reference .N
  · exact computeColdJunctionVoltage_at_reference .R
  · exact computeColdJunctionVoltage_at_reference .S
  · exact computeColdJunctionVoltage_at_reference .T
  · cases ty <;> simp only [coldJunctionCoefficients, coldJunctionReferenceTemperature] <;>
      norm_num1
  · cases ty <;> simp only [coldJunctionCoefficients, coldJunctionReferenceVoltage]
  · exact computeColdJunctionVoltage_at_reference ty
  · unfold getTemperature
    simp only [computeColdJunctionVoltage_at_reference]

/-! ## Monotonicity inside a range test -/

theorem cubic_pos_general (c0 c1 c2 c3 A B d : α) (hA : A ≤ d) (hB : d ≤ B) (hAB : A < B)
    (h0 : 0 < c0 + c1 * blossom1 A B 0 + c2 * blossom2 A B 0 + c3 * blossom3 A B 0)
    (h1 : 0 < c0 + c1 * blossom1 A B 1 + c2 * blossom2 A B 1 + c3 * blossom3 A B 1)
    (h2 : 0 < c0 + c1 * blossom1 A B 2 + c2 * blossom2 A B 2 + c3 * blossom3 A B 2)
    (h3 : 0 < c0 + c1 * blossom1 A B 3 + c2 * blossom2 A B 3 + c3 * blossom3 A B 3) :
    0 < c0 + c1 * d + c2 * (d * d) + c3 * (d * d * d) := by
  simp only [blossom1, blossom2, blossom3] at h0 h1 h2 h3
  have hx : 0 ≤ d - A := sub_nonneg.2 hA
  have hy : 0 ≤ B - d := sub_nonneg.2 hB
  have hL : 0 < B - A := sub_pos.2 hAB
  have key : (B - A) ^ 3 * (c0 + c1 * d + c2 * (d * d) + c3 * (d * d * d))
      = (c0 + c1 * A + c2 * (A * A) + c3 * (A * A * A)) * (B - d) ^ 3
        + 3 * (c0 + c1 * ((2 * A + B) / 3) + c2 * ((A * A + 2 * A * B) / 3) + c3 * (A * A * B))
            * ((d - A) * (B - d) ^ 2)
        + 3 * (c0 + c1 * ((A + 2 * B) / 3) + c2 * ((2 * A * B + B * B) / 3) + c3 * (A * B * B))
            * ((d - A) ^ 2 * (B - d))
        + (c0 + c1 * B + c2 * (B * B) + c3 * (B * B * B)) * (d - A) ^ 3 := by
    ring
  have t0 := mul_nonneg (le_of_lt h0) (pow_nonneg hy 3)
  have t1 := mul_nonneg (mul_nonneg (by norm_num : (0 : α) ≤ 3) (le_of_lt h1))
    (mul_nonneg hx (pow_nonneg hy 2))
  have t2 := mul_nonneg (mul_nonneg (by norm_num : (0 : α) ≤ 3) (le_of_lt h2))
    (mul_nonneg (pow_nonneg hx 2) hy)
  have t3 := mul_nonneg (le_of_lt h3) (pow_nonneg hx 3)
  have hpos : 0 < (B - A) ^ 3 * (c0 + c1 * d + c2 * (d * d) + c3 * (d * d * d)) := by
    rw [key]
    rcases lt_or_eq_of_le hB with hlt | heq
    · have := mul_pos h0 (pow_pos (sub_pos.2 hlt) 3)
      linarith
    · have hd : 0 < d - A := by rw [heq]; exact hL
      have := mul_pos h3 (pow_pos hd 3)
      linarith
  exact pos_of_mul_pos_right hpos (le_of_lt (pow_pos hL 3))

theorem bicubicForm_symm (g00 g01 g02 g03 g11 g12 g13 g22 g23 g33 u1 u2 u3 w1 w2 w3 : α) :
    bicubicForm g00 g01 g02 g03 g11 g12 g13 g22 g23 g33 u1 u2 u3 w1 w2 w3
      = bicubicForm g00 g01 g02 g03 g11 g12 g13 g22 g23 g33 w1 w2 w3 u1 u2 u3 := by
  simp only [bicubicForm]
  ring

theorem bicubicForm_row_pos (g00 g01 g02 g03 g11 g12 g13 g22 g23 g33 u1 u2 u3 A B y : α)
    (hA : A ≤ y) (hB : y ≤ B) (hAB : A < B)
    (h0 : 0 < bicubicForm g00 g01 g02 g03 g11 g12 g13 g22 g23 g33 u1 u2 u3
      (blossom1 A B 0) (blossom2 A B 0) (blossom3 A B 0))
    (h1 : 0 < bicubicForm g00 g01 g02 g03 g11 g12 g13 g22 g23 g33 u1 u2 u3
      (blossom1 A B 1) (blossom2 A B 1) (blossom3 A B 1))
    (h2 : 0 < bicubicForm g00 g01 g02 g03 g11 g12 g13 g22 g23 g33 u1 u2 u3
      (blossom1 A B 2) (blossom2 A B 2) (blossom3 A B 2))
    (h3 : 0 < bicubicForm g00 g01 g02 g03 g11 g12 g13 g22 g23 g33 u1 u2 u3
      (blossom1 A B 3) (blossom2 A B 3) (blossom3 A B 3)) :
    0 < bicubicForm g00 g01 g02 g03 g11 g12 g13 g22 g23 g33 u1 u2 u3 y (y * y) (y * y * y) := by
  have hform : ∀ w1 w2 w3 : α,
      bicubicForm g00 g01 g02 g03 g11 g12 g13 g22 g23 g33 u1 u2 u3 w1 w2 w3
        = (g00 + g01 * u1 + g02 * u2 + g03 * u3)
          + (g01 + g11 * u1 + g12 * u2 + g13 * u3) * w1
          + (g02 + g12 * u1 + g22 * u2 + g23 * u3) * w2
          + (g03 + g13 * u1 + g23 * u2 + g33 * u3) * w3 := by
    intro w1 w2 w3
    simp only [bicubicForm]
    ring
  rw [hform] at h0 h1 h2 h3 ⊢
  exact cubic_pos_general _ _ _ _ A B y hA hB hAB h0 h1 h2 h3

theorem slopeForm_pos (c : Coefficients α) (m A B x y : α) (hAx : A ≤ x) (hxB : x ≤ B)
    (hAy : A ≤ y) (hyB : y ≤ B) (hAB : A < B)
    (b00 : 0 < c.slopeBernstein m A B 0 0) (b01 : 0 < c.slopeBernstein m A B 0 1)
    (b02 : 0 < c.slopeBernstein m A B 0 2) (b03 : 0 < c.slopeBernstein m A B 0 3)
    (b11 : 0 < c.slopeBernstein m A B 1 1) (b12 : 0 < c.slopeBernstein m A B 1 2)
    (b13 : 0 < c.slopeBernstein m A B 1 3) (b22 : 0 < c.slopeBernstein m A B 2 2)
    (b23 : 0 < c.slopeBernstein m A B 2 3) (b33 : 0 < c.slopeBernstein m A B 3 3) :
    0 < c.slopeForm m x (x * x) (x * x * x) y (y * y) (y * y * y) := by
  have hsymm : ∀ k l : Nat, c.slopeBernstein m A B k l = c.slopeBernstein m A B l k := by
    intro k l
    simp only [Coefficients.slopeBernstein, Coefficients.slopeForm]
    exact bicubicForm_symm _ _ _ _ _ _ _ _ _ _ _ _ _ _ _ _
  have b10 := hsymm 0 1 ▸ b01
  have b20 := hsymm 0 2 ▸ b02
  have b30 := hsymm 0 3 ▸ b03
  have b21 := hsymm 1 2 ▸ b12
  have b31 := hsymm 1 3 ▸ b13
  have b32 := hsymm 2 3 ▸ b23
  simp only [Coefficients.slopeBernstein, Coefficients.slopeForm] at *
  have r0 := bicubicForm_row_pos _ _ _ _ _ _ _ _ _ _ _ _ _ A B y hAy hyB hAB b00 b01 b02 b03
  have r1 := bicubicForm_row_pos _ _ _ _ _ _ _ _ _ _ _ _ _ A B y hAy hyB hAB b10 b11 b12 b13
  have r2 := bicubicForm_row_pos _ _ _ _ _ _ _ _ _ _ _ _ _ A B y hAy hyB hAB b20 b21 b22 b23
  have r3 := bicubicForm_row_pos _ _ _ _ _ _ _ _ _ _ _ _ _ A B y hAy hyB hAB b30 b31 b32 b33
  rw [bicubicForm_symm] at r0 r1 r2 r3 ⊢
  exact bicubicForm_row_pos _ _ _ _ _ _ _ _ _ _ _ _ _ A B x hAx hxB hAB r0 r1 r2 r3

theorem slopeForm_identity (c : Coefficients α) (m x y : α) :
    (y * (c.p1 + y * (c.p2 + y * (c.p3 + c.p4 * y)))) * (1 + x * (c.q1 + x * (c.q2 + c.q3 * x)))
      - (x * (c.p1 + x * (c.p2 + x * (c.p3 + c.p4 * x))))
          * (1 + y * (c.q1 + y * (c.q2 + c.q3 * y)))
      - m * (y - x) * ((1 + x * (c.q1 + x * (c.q2 + c.q3 * x)))
          * (1 + y * (c.q1 + y * (c.q2 + c.q3 * y))))
      = (y - x) * c.slopeForm m x (x * x) (x * x * x) y (y * y) (y * y * y) := by
  simp only [Coefficients.slopeForm, bicubicForm]
  ring

theorem quotient_slope {Nx Ny Dx Dy m h : α} (hDx : 0 < Dx) (hDy : 0 < Dy)
    (hpos : 0 < Ny * Dx - Nx * Dy - m * h * (Dx * Dy)) : Nx / Dx + m * h < Ny / Dy := by
  rw [div_add' _ _ _ (ne_of_gt hDx), div_lt_div_iff₀ hDx hDy]
  linarith

theorem eval_slope_of_slopeForm_pos (c : Coefficients α) (m v1 v2 : α) (h12 : v1 < v2)
    (hD1 : 0 < c.denominator v1) (hD2 : 0 < c.denominator v2)
    (hG : 0 < c.slopeForm m (v1 - c.V0) ((v1 - c.V0) * (v1 - c.V0))
      ((v1 - c.V0) * (v1 - c.V0) * (v1 - c.V0)) (v2 - c.V0) ((v2 - c.V0) * (v2 - c.V0))
      ((v2 - c.V0) * (v2 - c.V0) * (v2 - c.V0))) :
    c.eval v1 + m * (v2 - v1) < c.eval v2 := by
  simp only [Coefficients.denominator, temperatureDenominator, one_point_zero] at hD1 hD2
  simp only [Coefficients.eval, computeTemperatureInternal, temperatureNumerator,
    temperatureDenominator, one_point_zero]
  have hid := slopeForm_identity c m (v1 - c.V0) (v2 - c.V0)
  have hpos : 0 < (v2 - c.V0 - (v1 - c.V0)) * c.slopeForm m (v1 - c.V0)
      ((v1 - c.V0) * (v1 - c.V0)) ((v1 - c.V0) * (v1 - c.V0) * (v1 - c.V0)) (v2 - c.V0)
      ((v2 - c.V0) * (v2 - c.V0)) ((v2 - c.V0) * (v2 - c.V0) * (v2 - c.V0)) :=
    mul_pos (by linarith) hG
  rw [← hid] at hpos
  have hq := quotient_slope hD1 hD2 hpos
  rw [sub_sub_sub_cancel_right] at hq
  linarith

theorem eval_slope_of_bernstein (c : Coefficients α) (m A B v1 v2 : α)
    (hA : A ≤ v1 - c.V0) (h12 : v1 < v2) (hB : v2 - c.V0 ≤ B)
    (hD1 : 0 < c.denominator v1) (hD2 : 0 < c.denominator v2)
    (b00 : 0 < c.slopeBernstein m A B 0 0) (b01 : 0 < c.slopeBernstein m A B 0 1)
    (b02 : 0 < c.slopeBernstein m A B 0 2) (b03 : 0 < c.slopeBernstein m A B 0 3)
    (b11 : 0 < c.slopeBernstein m A B 1 1) (b12 : 0 < c.slopeBernstein m A B 1 2)
    (b13 : 0 < c.slopeBernstein m A B 1 3) (b22 : 0 < c.slopeBernstein m A B 2 2)
    (b23 : 0 < c.slopeBernstein m A B 2 3) (b33 : 0 < c.slopeBernstein m A B 3 3) :
    c.eval v1 + m * (v2 - v1) < c.eval v2 := by
  have hlt : v1 - c.V0 < v2 - c.V0 := sub_lt_sub_right h12 _
  exact eval_slope_of_slopeForm_pos c m v1 v2 h12 hD1 hD2
    (slopeForm_pos c m A B _ _ hA (le_of_lt (hlt.trans_le hB)) (hA.trans (le_of_lt hlt)) hB
      (lt_of_le_of_lt hA (hlt.trans_le hB)) b00 b01 b02 b03 b11 b12 b13 b22 b23 b33)

theorem eval_slope_of_certificate (c : Coefficients α) (m A B v1 v2 : α)
    (hA : A ≤ v1 - c.V0) (h12 : v1 < v2) (hB : v2 - c.V0 ≤ B)
    (hD1 : 0 < c.denominator v1) (hD2 : 0 < c.denominator v2)
    {g00 g01 g02 g03 g11 g12 g13 g22 g23 g33 a2 a3 b2 b3 m1 m2 m3 n1 n2 n3 : α}
    {r00 r01 r02 r03 r10 r11 r12 r13 r20 r21 r22 r23 r30 r31 r32 r33 : α}
    (hg00 : c.p1 - m = g00) (hg01 : c.p2 - m * c.q1 = g01)
    (hg02 : c.p3 - m * c.q2 = g02) (hg03 : c.p4 - m * c.q3 = g03)
    (hg11 : c.p3 + c.p2 * c.q1 - c.p1 * c.q2 - m * (c.q1 * c.q1) = g11)
    (hg12 : c.p4 + c.p3 * c.q1 - c.p1 * c.q3 - m * (c.q1 * c.q2) = g12)
    (hg13 : c.p4 * c.q1 - m * (c.q1 * c.q3) = g13)
    (hg22 : c.p4 * c.q1 + c.p3 * c.q2 - c.p2 * c.q3 - m * (c.q2 * c.q2) = g22)
    (hg23 : c.p4 * c.q2 - m * (c.q2 * c.q3) = g23)
    (hg33 : c.p4 * c.q3 - m * (c.q3 * c.q3) = g33)
    (ha2 : A * A = a2) (ha3 : a2 * A = a3) (hb2 : B * B = b2) (hb3 : b2 * B = b3)
    (hm1 : (2 * A + B) / 3 = m1) (hm2 : (a2 + 2 * A * B) / 3 = m2) (hm3 : a2 * B = m3)
    (hn1 : (A + 2 * B) / 3 = n1) (hn2 : (2 * A * B + b2) / 3 = n2) (hn3 : A * b2 = n3)
    (hr00 : g00 + g01 * A + g02 * a2 + g03 * a3 = r00)
    (hr01 : g01 + g11 * A + g12 * a2 + g13 * a3 = r01)
    (hr02 : g02 + g12 * A + g22 * a2 + g23 * a3 = r02)
    (hr03 : g03 + g13 * A + g23 * a2 + g33 * a3 = r03)
    (hr10 : g00 + g01 * m1 + g02 * m2 + g03 * m3 = r10)
    (hr11 : g01 + g11 * m1 + g12 * m2 + g13 * m3 = r11)
    (hr12 : g02 + g12 * m1 + g22 * m2 + g23 * m3 = r12)
    (hr13 : g03 + g13 * m1 + g23 * m2 + g33 * m3 = r13)
    (hr20 : g00 + g01 * n1 + g02 * n2 + g03 * n3 = r20)
    (hr21 : g01 + g11 * n1 + g12 * n2 + g13 * n3 = r21)
    (hr22 : g02 + g12 * n1 + g22 * n2 + g23 * n3 = r22)
    (hr23 : g03 + g13 * n1 + g23 * n2 + g33 * n3 = r23)
    (hr30 : g00 + g01 * B + g02 * b2 + g03 * b3 = r30)
    (hr31 : g01 + g11 * B + g12 * b2 + g13 * b3 = r31)
    (hr32 : g02 + g12 * B + g22 * b2 + g23 * b3 = r32)
    (hr33 : g03 + g13 * B + g23 * b2 + g33 * b3 = r33)
    (b00 : 0 < r00 + A * r01 + a2 * r02 + a3 * r03)
    (b01 : 0 < r10 + A * r11 + a2 * r12 + a3 * r13)
    (b02 : 0 < r20 + A * r21 + a2 * r22 + a3 * r23)
    (b03 : 0 < r30 + A * r31 + a2 * r32 + a3 * r33)
    (b11 : 0 < r10 + m1 * r11 + m2 * r12 + m3 * r13)
    (b12 : 0 < r20 + m1 * r21 + m2 * r22 + m3 * r23)
    (b13 : 0 < r30 + m1 * r31 + m2 * r32 + m3 * r33)
    (b22 : 0 < r20 + n1 * r21 + n2 * r22 + n3 * r23)
    (b23 : 0 < r30 + n1 * r31 + n2 * r32 + n3 * r33)
    (b33 : 0 < r30 + B * r31 + b2 * r32 + b3 * r33) :
    c.eval v1 + m * (v2 - v1) < c.eval v2 := by
  subst hg00 hg01 hg02 hg03 hg11 hg12 hg13 hg22 hg23 hg33
  subst ha2 ha3 hb2 hb3 hm1 hm2 hm3 hn1 hn2 hn3
  subst hr00 hr01 hr02 hr03 hr10 hr11 hr12 hr13 hr20 hr21 hr22 hr23 hr30 hr31 hr32 hr33
  refine eval_slope_of_bernstein c m A B v1 v2 hA h12 hB hD1 hD2
      ?_ ?_ ?_ ?_ ?_ ?_ ?_ ?_ ?_ ?_ <;>
    simp only [Coefficients.slopeBernstein, Coefficients.slopeForm, bicubicForm, blossom1,
      blossom2, blossom3]
  · convert b00 using 1; ring
  · convert b01 using 1; ring
  · convert b02 using 1; ring
  · convert b03 using 1; ring
  · convert b11 using 1; ring
  · convert b12 using 1; ring
  · convert b13 using 1; ring
  · convert b22 using 1; ring
  · convert b23 using 1; ring
  · convert b33 using 1; ring

/-! ## Rise of the inverse form inside a range test -/

theorem eval_slope_TypeB_segment1 (v1 v2 : α) (h1 : 0.291 ≤ v1) (h12 : v1 < v2) (h2 : v2 ≤ 2.431) :
    (TypeB.segment1 : Coefficients α).eval v1 + minimumSlope * (v2 - v1) < TypeB.segment1.eval v2 := by
  have hD1 := denominator_pos_TypeB_segment1 v1 h1 (le_of_lt (h12.trans_le h2))
  have hD2 := denominator_pos_TypeB_segment1 v2 (h1.trans (le_of_lt h12)) h2
  have hA : (-0.95079 : α) ≤ v1 - (TypeB.segment1 : Coefficients α).V0 := by
    simp only [TypeB.segment1]; linarith only [h1]
  have hB : v2 - (TypeB.segment1 : Coefficients α).V0 ≤ (1.18921 : α) := by
    simp only [TypeB.segment1]; linarith only [h2]
  apply eval_slope_of_certificate _ _ _ _ v1 v2 hA h12 hB hD1 hD2
  iterate 36 (conv_lhs => simp only [TypeB.segment1, minimumSlope]; norm_num1)
  all_goals norm_num1

theorem eval_slope_TypeB_segment2 (v1 v2 : α) (h1 : 2.431 ≤ v1) (h12 : v1 < v2) (h2 : v2 ≤ 13.820) :
    (TypeB.segment2 : Coefficients α).eval v1 + minimumSlope * (v2 - v1) < TypeB.segment2.eval v2 := by
  have hD1 := denominator_pos_TypeB_segment2 v1 h1 (le_of_lt (h12.trans_le h2))
  have hD2 := denominator_pos_TypeB_segment2 v2 (h1.trans (le_of_lt h12)) h2
  have hA : (-4.8391221 : α) ≤ v1 - (TypeB.segment2 : Coefficients α).V0 := by
    simp only [TypeB.segment2]; linarith only [h1]
  have hB : v2 - (TypeB.segment2 : Coefficients α).V0 ≤ (6.5498779 : α) := by
    simp only [TypeB.segment2]; linarith only [h2]
  apply eval_slope_of_certificate _ _ _ _ v1 v2 hA h12 hB hD1 hD2
  iterate 36 (conv_lhs => simp only [TypeB.segment2, minimumSlope]; norm_num1)
  all_goals norm_num1

theorem eval_slope_TypeE_segment1 (v1 v2 : α) (h1 : -9.835 ≤ v1) (h12 : v1 < v2) (h2 : v2 ≤ -5.237) :
    (TypeE.segment1 : Coefficients α).eval v1 + minimumSlope * (v2 - v1) < TypeE.segment1.eval v2 := by
  have hD1 := denominator_pos_TypeE_segment1 v1 h1 (le_of_lt (h12.trans_le h2))
  have hD2 := denominator_pos_TypeE_segment1 v2 (h1.trans (le_of_lt h12)) h2
  have hA : (-3.8448302 : α) ≤ v1 - (TypeE.segment1 : Coefficients α).V0 := by
    simp only [TypeE.segment1]; linarith only [h1]
  have hB : v2 - (TypeE.segment1 : Coefficients α).V0 ≤ (0.7531698 : α) := by
    simp only [TypeE.segment1]; linarith only [h2]
  apply eval_slope_of_certificate _ _ _ _ v1 v2 hA h12 hB hD1 hD2
  iterate 36 (conv_lhs => simp only [TypeE.segment1, minimumSlope]; norm_num1)
  all_goals norm_num1

theorem eval_slope_TypeE_segment2 (v1 v2 : α) (h1 : -5.237 ≤ v1) (h12 : v1 < v2) (h2 : v2 ≤ 0.591) :
    (TypeE.segment2 : Coefficients α).eval v1 + minimumSlope * (v2 - v1) < TypeE.segment2.eval v2 := by
  have hD1 := denominator_pos_TypeE_segment2 v1 h1 (le_of_lt (h12.trans_le h2))
  have hD2 := denominator_pos_TypeE_segment2 v2 (h1.trans (le_of_lt h12)) h2
  have hA : (-2.4498223 : α) ≤ v1 - (TypeE.segment2 : Coefficients α).V0 := by
    simp only [TypeE.segment2]; linarith only [h1]
  have hB : v2 - (TypeE.segment2 : Coefficients α).V0 ≤ (3.3781777 : α) := by
    simp only [TypeE.segment2]; linarith only [h2]
  apply eval_slope_of_certificate _ _ _ _ v1 v2 hA h12 hB hD1 hD2
  iterate 36 (conv_lhs => simp only [TypeE.segment2, minimumSlope]; norm_num1)
  all_goals norm_num1

theorem eval_slope_TypeE_segment3 (v1 v2 : α) (h1 : 0.591 ≤ v1) (h12 : v1 < v2) (h2 : v2 ≤ 24.964) :
    (TypeE.segment3 : Coefficients α).eval v1 + minimumSlope * (v2 - v1) < TypeE.segment3.eval v2 := by
  have hD1 := denominator_pos_TypeE_segment3 v1 h1 (le_of_lt (h12.trans_le h2))
  have hD2 := denominator_pos_TypeE_segment3 v2 (h1.trans (le_of_lt h12)) h2
  have hA : (-16.600713 : α) ≤ v1 - (TypeE.segment3 : Coefficients α).V0 := by
    simp only [TypeE.segment3]; linarith only [h1]
  have hB : v2 - (TypeE.segment3 : Coefficients α).V0 ≤ (7.772287 : α) := by
    simp only [TypeE.segment3]; linarith only [h2]
  apply eval_slope_of_certificate _ _ _ _ v1 v2 hA h12 hB hD1 hD2
  iterate 36 (conv_lhs => simp only [TypeE.segment3, minimumSlope]; norm_num1)
  all_goals norm_num1

theorem eval_slope_TypeE_segment4 (v1 v2 : α) (h1 : 24.964 ≤ v1) (h12 : v1 < v2) (h2 : v2 ≤ 53.112) :
    (TypeE.segment4 : Coefficients α).eval v1 + minimumSlope * (v2 - v1) < TypeE.segment4.eval v2 := by
  have hD1 := denominator_pos_TypeE_segment4 v1 h1 (le_of_lt (h12.trans_le h2))
  have hD2 := denominator_pos_TypeE_segment4 v2 (h1.trans (le_of_lt h12)) h2
  have hA : (-20.242167 : α) ≤ v1 - (TypeE.segment4 : Coefficients α).V0 := by
    simp only [TypeE.segment4]; linarith only [h1]
  have hB : v2 - (TypeE.segment4 : Coefficients α).V0 ≤ (7.905833 : α) := by
    simp only [TypeE.segment4]; linarith only [h2]
  apply eval_slope_of_certificate _ _ _ _ v1 v2 hA h12 hB hD1 hD2
  iterate 36 (conv_lhs => simp only [TypeE.segment4, minimumSlope]; norm_num1)
  all_goals norm_num1

theorem eval_slope_TypeE_segment5 (v1 v2 : α) (h1 : 53.112 ≤ v1) (h12 : v1 < v2) (h2 : v2 ≤ 76.373) :
    (TypeE.segment5 : Coefficients α).eval v1 + minimumSlope * (v2 - v1) < TypeE.segment5.eval v2 := by
  have hD1 := denominator_pos_TypeE_segment5 v1 h1 (le_of_lt (h12.trans_le h2))
  have hD2 := denominator_pos_TypeE_segment5 v2 (h1.trans (le_of_lt h12)) h2
  have hA : (-8.247178 : α) ≤ v1 - (TypeE.segment5 : Coefficients α).V0 := by
    simp only [TypeE.segment5]; linarith only [h1]
  have hB : v2 - (TypeE.segment5 : Coefficients α).V0 ≤ (15.013822 : α) := by
    simp only [TypeE.segment5]; linarith only [h2]
  apply eval_slope_of_certificate _ _ _ _ v1 v2 hA h12 hB hD1 hD2
  iterate 36 (conv_lhs => simp only [TypeE.segment5, minimumSlope]; norm_num1)
  all_goals norm_num1

theorem eval_slope_TypeJ_segment1 (v1 v2 : α) (h1 : -8.095 ≤ v1) (h12 : v1 < v2) (h2 : v2 ≤ 0) :
    (TypeJ.segment1 : Coefficients α).eval v1 + minimumSlope * (v2 - v1) < TypeJ.segment1.eval v2 := by
  have hD1 := denominator_pos_TypeJ_segment1 v1 h1 (le_of_lt (h12.trans_le h2))
  have hD2 := denominator_pos_TypeJ_segment1 v2 (h1.trans (le_of_lt h12)) h2
  have hA : (-4.9780227 : α) ≤ v1 - (TypeJ.segment1 : Coefficients α).V0 := by
    simp only [TypeJ.segment1]; linarith only [h1]
  have hB : v2 - (TypeJ.segment1 : Coefficients α).V0 ≤ (3.1169773 : α) := by
    simp only [TypeJ.segment1]; linarith only [h2]
  apply eval_slope_of_certificate _ _ _ _ v1 v2 hA h12 hB hD1 hD2
  iterate 36 (conv_lhs => simp only [TypeJ.segment1, minimumSlope]; norm_num1)
  all_goals norm_num1

theorem eval_slope_TypeJ_segment2 (v1 v2 : α) (h1 : 0 ≤ v1) (h12 : v1 < v2) (h2 : v2 ≤ 21.840) :
    (TypeJ.segment2 : Coefficients α).eval v1 + minimumSlope * (v2 - v1) < TypeJ.segment2.eval v2 := by
  have hD1 := denominator_pos_TypeJ_segment2 v1 h1 (le_of_lt (h12.trans_le h2))
  have hD2 := denominator_pos_TypeJ_segment2 v2 (h1.trans (le_of_lt h12)) h2
  have hA : (-13.592329 : α) ≤ v1 - (TypeJ.segment2 : Coefficients α).V0 := by
    simp only [TypeJ.segment2]; linarith only [h1]
  have hB : v2 - (TypeJ.segment2 : Coefficients α).V0 ≤ (8.247671 : α) := by
    simp only [TypeJ.segment2]; linarith only [h2]
  apply eval_slope_of_certificate _ _ _ _ v1 v2 hA h12 hB hD1 hD2
  iterate 36 (conv_lhs => simp only [TypeJ.segment2, minimumSlope]; norm_num1)
  all_goals norm_num1

theorem eval_slope_TypeJ_segment3 (v1 v2 : α) (h1 : 21.840 ≤ v1) (h12 : v1 < v2) (h2 : v2 ≤ 45.494) :
    (TypeJ.segment3 : Coefficients α).eval v1 + minimumSlope * (v2 - v1) < TypeJ.segment3.eval v2 := by
  have hD1 := denominator_pos_TypeJ_segment3 v1 h1 (le_of_lt (h12.trans_le h2))
  have hD2 := denominator_pos_TypeJ_segment3 v2 (h1.trans (le_of_lt h12)) h2
  have hA : (-14.200848 : α) ≤ v1 - (TypeJ.segment3 : Coefficients α).V0 := by
    simp only [TypeJ.segment3]; linarith only [h1]
  have hB : v2 - (TypeJ.segment3 : Coefficients α).V0 ≤ (9.453152 : α) := by
    simp only [TypeJ.segment3]; linarith only [h2]
  apply eval_slope_of_certificate _ _ _ _ v1 v2 hA h12 hB hD1 hD2
  iterate 36 (conv_lhs => simp only [TypeJ.segment3, minimumSlope]; norm_num1)
  all_goals norm_num1

theorem eval_slope_TypeJ_segment4 (v1 v2 : α) (h1 : 45.494 ≤ v1) (h12 : v1 < v2) (h2 : v2 ≤ 57.953) :
    (TypeJ.segment4 : Coefficients α).eval v1 + minimumSlope * (v2 - v1) < TypeJ.segment4.eval v2 := by
  have hD1 := denominator_pos_TypeJ_segment4 v1 h1 (le_of_lt (h12.trans_le h2))
  have hD2 := denominator_pos_TypeJ_segment4 v2 (h1.trans (le_of_lt h12)) h2
  have hA : (-7.939832 : α) ≤ v1 - (TypeJ.segment4 : Coefficients α).V0 := by
    simp only [TypeJ.segment4]; linarith only [h1]
  have hB : v2 - (TypeJ.segment4 : Coefficients α).V0 ≤ (4.519168 : α) := by
    simp only [TypeJ.segment4]; linarith only [h2]
  apply eval_slope_of_certificate _ _ _ _ v1 v2 hA h12 hB hD1 hD2
  iterate 36 (conv_lhs => simp only [TypeJ.segment4, minimumSlope]; norm_num1)
  all_goals norm_num1

theorem eval_slope_TypeJ_segment5_low (v1 v2 : α) (h1 : 57.953 ≤ v1) (h12 : v1 < v2) (h2 : v2 ≤ 63.753) :
    (TypeJ.segment5 : Coefficients α).eval v1 + minimumSlope * (v2 - v1) < TypeJ.segment5.eval v2 := by
  have hD1 := denominator_pos_TypeJ_segment5 v1 h1 (by linarith only [h12, h2])
  have hD2 := denominator_pos_TypeJ_segment5 v2 (by linarith only [h1, h12]) (by linarith only [h2])
  have hA : (-3.003091 : α) ≤ v1 - (TypeJ.segment5 : Coefficients α).V0 := by
    simp only [TypeJ.segment5]; linarith only [h1]
  have hB : v2 - (TypeJ.segment5 : Coefficients α).V0 ≤ (2.796909 : α) := by
    simp only [TypeJ.segment5]; linarith only [h2]
  apply eval_slope_of_certificate _ _ _ _ v1 v2 hA h12 hB hD1 hD2
  iterate 36 (conv_lhs => simp only [TypeJ.segment5, minimumSlope]; norm_num1)
  all_goals norm_num1

theorem eval_slope_TypeJ_segment5_high (v1 v2 : α) (h1 : 63.753 ≤ v1) (h12 : v1 < v2) (h2 : v2 ≤ 69.553) :
    (TypeJ.segment5 : Coefficients α).eval v1 + minimumSlope * (v2 - v1) < TypeJ.segment5.eval v2 := by
  have hD1 := denominator_pos_TypeJ_segment5 v1 (by linarith only [h1]) (by linarith only [h12, h2])
  have hD2 := denominator_pos_TypeJ_segment5 v2 (by linarith only [h1, h12]) h2
  have hA : (2.796909 : α) ≤ v1 - (TypeJ.segment5 : Coefficients α).V0 := by
    simp only [TypeJ.segment5]; linarith only [h1]
  have hB : v2 - (TypeJ.segment5 : Coefficients α).V0 ≤ (8.596909 : α) := by
    simp only [TypeJ.segment5]; linarith only [h2]
  apply eval_slope_of_certificate _ _ _ _ v1 v2 hA h12 hB hD1 hD2
  iterate 36 (conv_lhs => simp only [TypeJ.segment5, minimumSlope]; norm_num1)
  all_goals norm_num1

theorem eval_slope_TypeJ_segment5 (v1 v2 : α) (h1 : 57.953 ≤ v1) (h12 : v1 < v2) (h2 : v2 ≤ 69.553) :
    (TypeJ.segment5 : Coefficients α).eval v1 + minimumSlope * (v2 - v1)
      < TypeJ.segment5.eval v2 := by
  rcases le_total v2 63.753 with hv2 | hv2
  · exact eval_slope_TypeJ_segment5_low v1 v2 h1 h12 hv2
  · rcases le_total 63.753 v1 with hv1 | hv1
    · exact eval_slope_TypeJ_segment5_high v1 v2 hv1 h12 h2
    · rcases lt_or_eq_of_le hv1 with hlt1 | heq1
      · rcases lt_or_eq_of_le hv2 with hlt2 | heq2
        · have ha := eval_slope_TypeJ_segment5_low v1 63.753 h1 hlt1 (le_refl _)
          have hb := eval_slope_TypeJ_segment5_high 63.753 v2 (le_refl _) hlt2 h2
          linarith only [ha, hb]
        · rw [← heq2]
          exact eval_slope_TypeJ_segment5_low v1 63.753 h1 hlt1 (le_refl _)
      · rw [heq1]
        exact eval_slope_TypeJ_segment5_high 63.753 v2 (le_refl _) (heq1 ▸ h12) h2

theorem eval_slope_TypeK_segment1 (v1 v2 : α) (h1 : -6.404 ≤ v1) (h12 : v1 < v2) (h2 : v2 ≤ -3.554) :
    (TypeK.segment1 : Coefficients α).eval v1 + minimumSlope * (v2 - v1) < TypeK.segment1.eval v2 := by
  have hD1 := denominator_pos_TypeK_segment1 v1 h1 (le_of_lt (h12.trans_le h2))
  have hD2 := denominator_pos_TypeK_segment1 v2 (h1.trans (le_of_lt h12)) h2
  have hA : (-2.2249142 : α) ≤ v1 - (TypeK.segment1 : Coefficients α).V0 := by
    simp only [TypeK.segment1]; linarith only [h1]
  have hB : v2 - (TypeK.segment1 : Coefficients α).V0 ≤ (0.6250858 : α) := by
    simp only [TypeK.segment1]; linarith only [h2]
  apply eval_slope_of_certificate _ _ _ _ v1 v2 hA h12 hB hD1 hD2
  iterate 36 (conv_lhs => simp only [TypeK.segment1, minimumSlope]; norm_num1)
  all_goals norm_num1

theorem eval_slope_TypeK_segment2 (v1 v2 : α) (h1 : -3.554 ≤ v1) (h12 : v1 < v2) (h2 : v2 ≤ 4.096) :
    (TypeK.segment2 : Coefficients α).eval v1 + minimumSlope * (v2 - v1) < TypeK.segment2.eval v2 := by
  have hD1 := denominator_pos_TypeK_segment2 v1 h1 (le_of_lt (h12.trans_le h2))
  have hD2 := denominator_pos_TypeK_segment2 v2 (h1.trans (le_of_lt h12)) h2
  have hA : (-3.20910086 : α) ≤ v1 - (TypeK.segment2 : Coefficients α).V0 := by
    simp only [TypeK.segment2]; linarith only [h1]
  have hB : v2 - (TypeK.segment2 : Coefficients α).V0 ≤ (4.44089914 : α) := by
    simp only [TypeK.segment2]; linarith only [h2]
  apply eval_slope_of_certificate _ _ _ _ v1 v2 hA h12 hB hD1 hD2
  iterate 36 (conv_lhs => simp only [TypeK.segment2, minimumSlope]; norm_num1)
  all_goals norm_num1

theorem eval_slope_TypeK_segment3 (v1 v2 : α) (h1 : 4.096 ≤ v1) (h12 : v1 < v2) (h2 : v2 ≤ 16.397) :
    (TypeK.segment3 : Coefficients α).eval v1 + minimumSlope * (v2 - v1) < TypeK.segment3.eval v2 := by
  have hD1 := denominator_pos_TypeK_segment3 v1 h1 (le_of_lt (h12.trans_le h2))
  have hD2 := denominator_pos_TypeK_segment3 v2 (h1.trans (le_of_lt h12)) h2
  have hA : (-8.535386 : α) ≤ v1 - (TypeK.segment3 : Coefficients α).V0 := by
    simp only [TypeK.segment3]; linarith only [h1]
  have hB : v2 - (TypeK.segment3 : Coefficients α).V0 ≤ (3.765614 : α) := by
    simp only [TypeK.segment3]; linarith only [h2]
  apply eval_slope_of_certificate _ _ _ _ v1 v2 hA h12 hB hD1 hD2
  iterate 36 (conv_lhs => simp only [TypeK.segment3, minimumSlope]; norm_num1)
  all_goals norm_num1

theorem eval_slope_TypeK_segment4 (v1 v2 : α) (h1 : 16.397 ≤ v1) (h12 : v1 < v2) (h2 : v2 ≤ 33.275) :
    (TypeK.segment4 : Coefficients α).eval v1 + minimumSlope * (v2 - v1) < TypeK.segment4.eval v2 := by
  have hD1 := denominator_pos_TypeK_segment4 v1 h1 (le_of_lt (h12.trans_le h2))
  have hD2 := denominator_pos_TypeK_segment4 v2 (h1.trans (le_of_lt h12)) h2
  have hA : (-8.751718 : α) ≤ v1 - (TypeK.segment4 : Coefficients α).V0 := by
    simp only [TypeK.segment4]; linarith only [h1]
  have hB : v2 - (TypeK.segment4 : Coefficients α).V0 ≤ (8.126282 : α) := by
    simp only [TypeK.segment4]; linarith only [h2]
  apply eval_slope_of_certificate _ _ _ _ v1 v2 hA h12 hB hD1 hD2
  iterate 36 (conv_lhs => simp only [TypeK.segment4, minimumSlope]; norm_num1)
  all_goals norm_num1

theorem eval_slope_TypeK_segment5 (v1 v2 : α) (h1 : 33.275 ≤ v1) (h12 : v1 < v2) (h2 : v2 ≤ 69.553) :
    (TypeK.segment5 : Coefficients α).eval v1 + minimumSlope * (v2 - v1) < TypeK.segment5.eval v2 := by
  have hD1 := denominator_pos_TypeK_segment5 v1 h1 (le_of_lt (h12.trans_le h2))
  have hD2 := denominator_pos_TypeK_segment5 v2 (h1.trans (le_of_lt h12)) h2
  have hA : (-8.718851 : α) ≤ v1 - (TypeK.segment5 : Coefficients α).V0 := by
    simp only [TypeK.segment5]; linarith only [h1]
  have hB : v2 - (TypeK.segment5 : Coefficients α).V0 ≤ (27.559149 : α) := by
    simp only [TypeK.segment5]; linarith only [h2]
  apply eval_slope_of_certificate _ _ _ _ v1 v2 hA h12 hB hD1 hD2
  iterate 36 (conv_lhs => simp only [TypeK.segment5, minimumSlope]; norm_num1)
  all_goals norm_num1

theorem eval_slope_TypeN_segment1 (v1 v2 : α) (h1 : -4.313 ≤ v1) (h12 : v1 < v2) (h2 : v2 ≤ 0.0) :
    (TypeN.segment1 : Coefficients α).eval v1 + minimumSlope * (v2 - v1) < TypeN.segment1.eval v2 := by
  have hD1 := denominator_pos_TypeN_segment1 v1 h1 (le_of_lt (h12.trans_le h2))
  have hD2 := denominator_pos_TypeN_segment1 v2 (h1.trans (le_of_lt h12)) h2
  have hA : (-2.813 : α) ≤ v1 - (TypeN.segment1 : Coefficients α).V0 := by
    simp only [TypeN.segment1]; linarith only [h1]
  have hB : v2 - (TypeN.segment1 : Coefficients α).V0 ≤ (1.5 : α) := by
    simp only [TypeN.segment1]; linarith only [h2]
  apply eval_slope_of_certificate _ _ _ _ v1 v2 hA h12 hB hD1 hD2
  iterate 36 (conv_lhs => simp only [TypeN.segment1, minimumSlope]; norm_num1)
  all_goals norm_num1

theorem eval_slope_TypeN_segment2 (v1 v2 : α) (h1 : 0.0 ≤ v1) (h12 : v1 < v2) (h2 : v2 ≤ 20.613) :
    (TypeN.segment2 : Coefficients α).eval v1 + minimumSlope * (v2 - v1) < TypeN.segment2.eval v2 := by
  have hD1 := denominator_pos_TypeN_segment2 v1 h1 (le_of_lt (h12.trans_le h2))
  have hD2 := denominator_pos_TypeN_segment2 v2 (h1.trans (le_of_lt h12)) h2
  have hA : (-9.8870997 : α) ≤ v1 - (TypeN.segment2 : Coefficients α).V0 := by
    simp only [TypeN.segment2]; linarith only [h1]
  have hB : v2 - (TypeN.segment2 : Coefficients α).V0 ≤ (10.7259003 : α) := by
    simp only [TypeN.segment2]; linarith only [h2]
  apply eval_slope_of_certificate _ _ _ _ v1 v2 hA h12 hB hD1 hD2
  iterate 36 (conv_lhs => simp only [TypeN.segment2, minimumSlope]; norm_num1)
  all_goals norm_num1

theorem eval_slope_TypeN_segment3 (v1 v2 : α) (h1 : 20.613 ≤ v1) (h12 : v1 < v2) (h2 : v2 ≤ 47.513) :
    (TypeN.segment3 : Coefficients α).eval v1 + minimumSlope * (v2 - v1) < TypeN.segment3.eval v2 := by
  have hD1 := denominator_pos_TypeN_segment3 v1 h1 (le_of_lt (h12.trans_le h2))
  have hD2 := denominator_pos_TypeN_segment3 v2 (h1.trans (le_of_lt h12)) h2
  have hA : (-16.952475 : α) ≤ v1 - (TypeN.segment3 : Coefficients α).V0 := by
    simp only [TypeN.segment3]; linarith only [h1]
  have hB : v2 - (TypeN.segment3 : Coefficients α).V0 ≤ (9.947525 : α) := by
    simp only [TypeN.segment3]; linarith only [h2]
  apply eval_slope_of_certificate _ _ _ _ v1 v2 hA h12 hB hD1 hD2
  iterate 36 (conv_lhs => simp only [TypeN.segment3, minimumSlope]; norm_num1)
  all_goals norm_num1

theorem eval_slope_TypeR_segment1 (v1 v2 : α) (h1 : -0.226 ≤ v1) (h12 : v1 < v2) (h2 : v2 ≤ 1.469) :
    (TypeR.segment1 : Coefficients α).eval v1 + minimumSlope * (v2 - v1) < TypeR.segment1.eval v2 := by
  have hD1 := denominator_pos_TypeR_segment1 v1 h1 (le_of_lt (h12.trans_le h2))
  have hD2 := denominator_pos_TypeR_segment1 v2 (h1.trans (le_of_lt h12)) h2
  have hA : (-1.1093309 : α) ≤ v1 - (TypeR.segment1 : Coefficients α).V0 := by
    simp only [TypeR.segment1]; linarith only [h1]
  have hB : v2 - (TypeR.segment1 : Coefficients α).V0 ≤ (0.5856691 : α) := by
    simp only [TypeR.segment1]; linarith only [h2]
  apply eval_slope_of_certificate _ _ _ _ v1 v2 hA h12 hB hD1 hD2
  iterate 36 (conv_lhs => simp only [TypeR.segment1, minimumSlope]; norm_num1)
  all_goals norm_num1

theorem eval_slope_TypeR_segment2 (v1 v2 : α) (h1 : 1.469 ≤ v1) (h12 : v1 < v2) (h2 : v2 ≤ 7.461) :
    (TypeR.segment2 : Coefficients α).eval v1 + minimumSlope * (v2 - v1) < TypeR.segment2.eval v2 := by
  have hD1 := denominator_pos_TypeR_segment2 v1 h1 (le_of_lt (h12.trans_le h2))
  have hD2 := denominator_pos_TypeR_segment2 v2 (h1.trans (le_of_lt h12)) h2
  have hA : (-3.4622886 : α) ≤ v1 - (TypeR.segment2 : Coefficients α).V0 := by
    simp only [TypeR.segment2]; linarith only [h1]
  have hB : v2 - (TypeR.segment2 : Coefficients α).V0 ≤ (2.5297114 : α) := by
    simp only [TypeR.segment2]; linarith only [h2]
  apply eval_slope_of_certificate _ _ _ _ v1 v2 hA h12 hB hD1 hD2
  iterate 36 (conv_lhs => simp only [TypeR.segment2, minimumSlope]; norm_num1)
  all_goals norm_num1

theorem eval_slope_TypeR_segment3 (v1 v2 : α) (h1 : 7.461 ≤ v1) (h12 : v1 < v2) (h2 : v2 ≤ 14.277) :
    (TypeR.segment3 : Coefficients α).eval v1 + minimumSlope * (v2 - v1) < TypeR.segment3.eval v2 := by
  have hD1 := denominator_pos_TypeR_segment3 v1 h1 (le_of_lt (h12.trans_le h2))
  have hD2 := denominator_pos_TypeR_segment3 v2 (h1.trans (le_of_lt h12)) h2
  have hA : (-3.553763 : α) ≤ v1 - (TypeR.segment3 : Coefficients α).V0 := by
    simp only [TypeR.segment3]; linarith only [h1]
  have hB : v2 - (TypeR.segment3 : Coefficients α).V0 ≤ (3.262237 : α) := by
    simp only [TypeR.segment3]; linarith only [h2]
  apply eval_slope_of_certificate _ _ _ _ v1 v2 hA h12 hB hD1 hD2
  iterate 36 (conv_lhs => simp only [TypeR.segment3, minimumSlope]; norm_num1)
  all_goals norm_num1

theorem eval_slope_TypeR_segment4 (v1 v2 : α) (h1 : 14.277 ≤ v1) (h12 : v1 < v2) (h2 : v2 ≤ 21.101) :
    (TypeR.segment4 : Coefficients α).eval v1 + minimumSlope * (v2 - v1) < TypeR.segment4.eval v2 := by
  have hD1 := denominator_pos_TypeR_segment4 v1 h1 (le_of_lt (h12.trans_le h2))
  have hD2 := denominator_pos_TypeR_segment4 v2 (h1.trans (le_of_lt h12)) h2
  have hA : (-4.12091 : α) ≤ v1 - (TypeR.segment4 : Coefficients α).V0 := by
    simp only [TypeR.segment4]; linarith only [h1]
  have hB : v2 - (TypeR.segment4 : Coefficients α).V0 ≤ (2.70309 : α) := by
    simp only [TypeR.segment4]; linarith only [h2]
  apply eval_slope_of_certificate _ _ _ _ v1 v2 hA h12 hB hD1 hD2
  iterate 36 (conv_lhs => simp only [TypeR.segment4, minimumSlope]; norm_num1)
  all_goals norm_num1

theorem eval_slope_TypeS_segment1 (v1 v2 : α) (h1 : -0.236 ≤ v1) (h12 : v1 < v2) (h2 : v2 ≤ 1.441) :
    (TypeS.segment1 : Coefficients α).eval v1 + minimumSlope * (v2 - v1) < TypeS.segment1.eval v2 := by
  have hD1 := denominator_pos_TypeS_segment1 v1 h1 (le_of_lt (h12.trans_le h2))
  have hD2 := denominator_pos_TypeS_segment1 v2 (h1.trans (le_of_lt h12)) h2
  have hA : (-1.16995024 : α) ≤ v1 - (TypeS.segment1 : Coefficients α).V0 := by
    simp only [TypeS.segment1]; linarith only [h1]
  have hB : v2 - (TypeS.segment1 : Coefficients α).V0 ≤ (0.50704976 : α) := by
    simp only [TypeS.segment1]; linarith only [h2]
  apply eval_slope_of_certificate _ _ _ _ v1 v2 hA h12 hB hD1 hD2
  iterate 36 (conv_lhs => simp only [TypeS.segment1, minimumSlope]; norm_num1)
  all_goals norm_num1

theorem eval_slope_TypeS_segment2 (v1 v2 : α) (h1 : 1.441 ≤ v1) (h12 : v1 < v2) (h2 : v2 ≤ 6.913) :
    (TypeS.segment2 : Coefficients α).eval v1 + minimumSlope * (v2 - v1) < TypeS.segment2.eval v2 := by
  have hD1 := denominator_pos_TypeS_segment2 v1 h1 (le_of_lt (h12.trans_le h2))
  have hD2 := denominator_pos_TypeS_segment2 v2 (h1.trans (le_of_lt h12)) h2
  have hA : (-2.5627367 : α) ≤ v1 - (TypeS.segment2 : Coefficients α).V0 := by
    simp only [TypeS.segment2]; linarith only [h1]
  have hB : v2 - (TypeS.segment2 : Coefficients α).V0 ≤ (2.9092633 : α) := by
    simp only [TypeS.segment2]; linarith only [h2]
  apply eval_slope_of_certificate _ _ _ _ v1 v2 hA h12 hB hD1 hD2
  iterate 36 (conv_lhs => simp only [TypeS.segment2, minimumSlope]; norm_num1)
  all_goals norm_num1

theorem eval_slope_TypeS_segment3 (v1 v2 : α) (h1 : 6.913 ≤ v1) (h12 : v1 < v2) (h2 : v2 ≤ 12.856) :
    (TypeS.segment3 : Coefficients α).eval v1 + minimumSlope * (v2 - v1) < TypeS.segment3.eval v2 := by
  have hD1 := denominator_pos_TypeS_segment3 v1 h1 (le_of_lt (h12.trans_le h2))
  have hD2 := denominator_pos_TypeS_segment3 v2 (h1.trans (le_of_lt h12)) h2
  have hA : (-2.4378283 : α) ≤ v1 - (TypeS.segment3 : Coefficients α).V0 := by
    simp only [TypeS.segment3]; linarith only [h1]
  have hB : v2 - (TypeS.segment3 : Coefficients α).V0 ≤ (3.5051717 : α) := by
    simp only [TypeS.segment3]; linarith only [h2]
  apply eval_slope_of_certificate _ _ _ _ v1 v2 hA h12 hB hD1 hD2
  iterate 36 (conv_lhs => simp only [TypeS.segment3, minimumSlope]; norm_num1)
  all_goals norm_num1

theorem eval_slope_TypeS_segment4 (v1 v2 : α) (h1 : 12.856 ≤ v1) (h12 : v1 < v2) (h2 : v2 ≤ 18.693) :
    (TypeS.segment4 : Coefficients α).eval v1 + minimumSlope * (v2 - v1) < TypeS.segment4.eval v2 := by
  have hD1 := denominator_pos_TypeS_segment4 v1 h1 (le_of_lt (h12.trans_le h2))
  have hD2 := denominator_pos_TypeS_segment4 v2 (h1.trans (le_of_lt h12)) h2
  have hA : (-3.933315 : α) ≤ v1 - (TypeS.segment4 : Coefficients α).V0 := by
    simp only [TypeS.segment4]; linarith only [h1]
  have hB : v2 - (TypeS.segment4 : Coefficients α).V0 ≤ (1.903685 : α) := by
    simp only [TypeS.segment4]; linarith only [h2]
  apply eval_slope_of_certificate _ _ _ _ v1 v2 hA h12 hB hD1 hD2
  iterate 36 (conv_lhs => simp only [TypeS.segment4, minimumSlope]; norm_num1)
  all_goals norm_num1

theorem eval_slope_TypeT_segment1 (v1 v2 : α) (h1 : -6.18 ≤ v1) (h12 : v1 < v2) (h2 : v2 ≤ -4.648) :
    (TypeT.segment1 : Coefficients α).eval v1 + minimumSlope * (v2 - v1) < TypeT.segment1.eval v2 := by
  have hD1 := denominator_pos_TypeT_segment1 v1 h1 (le_of_lt (h12.trans_le h2))
  have hD2 := denominator_pos_TypeT_segment1 v2 (h1.trans (le_of_lt h12)) h2
  have hA : (-0.7001037 : α) ≤ v1 - (TypeT.segment1 : Coefficients α).V0 := by
    simp only [TypeT.segment1]; linarith only [h1]
  have hB : v2 - (TypeT.segment1 : Coefficients α).V0 ≤ (0.8318963 : α) := by
    simp only [TypeT.segment1]; linarith only [h2]
  apply eval_slope_of_certificate _ _ _ _ v1 v2 hA h12 hB hD1 hD2
  iterate 36 (conv_lhs => simp only [TypeT.segment1, minimumSlope]; norm_num1)
  all_goals norm_num1

theorem eval_slope_TypeT_segment2 (v1 v2 : α) (h1 : -4.648 ≤ v1) (h12 : v1 < v2) (h2 : v2 ≤ 0.0) :
    (TypeT.segment2 : Coefficients α).eval v1 + minimumSlope * (v2 - v1) < TypeT.segment2.eval v2 := by
  have hD1 := denominator_pos_TypeT_segment2 v1 h1 (le_of_lt (h12.trans_le h2))
  have hD2 := denominator_pos_TypeT_segment2 v2 (h1.trans (le_of_lt h12)) h2
  have hA : (-2.495165 : α) ≤ v1 - (TypeT.segment2 : Coefficients α).V0 := by
    simp only [TypeT.segment2]; linarith only [h1]
  have hB : v2 - (TypeT.segment2 : Coefficients α).V0 ≤ (2.152835 : α) := by
    simp only [TypeT.segment2]; linarith only [h2]
  apply eval_slope_of_certificate _ _ _ _ v1 v2 hA h12 hB hD1 hD2
  iterate 36 (conv_lhs => simp only [TypeT.segment2, minimumSlope]; norm_num1)
  all_goals norm_num1

theorem eval_slope_TypeT_segment3 (v1 v2 : α) (h1 : 0.0 ≤ v1) (h12 : v1 < v2) (h2 : v2 ≤ 9.288) :
    (TypeT.segment3 : Coefficients α).eval v1 + minimumSlope * (v2 - v1) < TypeT.segment3.eval v2 := by
  have hD1 := denominator_pos_TypeT_segment3 v1 h1 (le_of_lt (h12.trans_le h2))
  have hD2 := denominator_pos_TypeT_segment3 v2 (h1.trans (le_of_lt h12)) h2
  have hA : (-5.95886 : α) ≤ v1 - (TypeT.segment3 : Coefficients α).V0 := by
    simp only [TypeT.segment3]; linarith only [h1]
  have hB : v2 - (TypeT.segment3 : Coefficients α).V0 ≤ (3.32914 : α) := by
    simp only [TypeT.segment3]; linarith only [h2]
  apply eval_slope_of_certificate _ _ _ _ v1 v2 hA h12 hB hD1 hD2
  iterate 36 (conv_lhs => simp only [TypeT.segment3, minimumSlope]; norm_num1)
  all_goals norm_num1

/-- On every range test except the fourth of type T, the inverse form with the coefficient
set of the range test rises by more than `minimumSlope` degrees per millivolt between the
two bounds, both included. -/
theorem eval_slope_on_segment (ty : ThermocoupleType) :
    ∀ s ∈ (segments ty : List (Segment α)), ¬ (ty = .T ∧ s.lo = 9.288) →
      ∀ v1 v2 : α, s.lo ≤ v1 → v1 < v2 → v2 ≤ s.hi →
        s.coef.eval v1 + minimumSlope * (v2 - v1) < s.coef.eval v2 := by
  cases ty <;>
    simp only [segments, List.forall_mem_cons, List.not_mem_nil, false_imp_iff,
      implies_true, and_true]
  · exact ⟨fun _ => eval_slope_TypeB_segment1,
      fun _ => eval_slope_TypeB_segment2⟩
  · exact ⟨fun _ => eval_slope_TypeE_segment1,
      fun _ => eval_slope_TypeE_segment2,
      fun _ => eval_slope_TypeE_segment3,
      fun _ => eval_slope_TypeE_segment4,
      fun _ => eval_slope_TypeE_segment5⟩
  · exact ⟨fun _ => eval_slope_TypeJ_segment1,
      fun _ => eval_slope_TypeJ_segment2,
      fun _ => eval_slope_TypeJ_segment3,
      fun _ => eval_slope_TypeJ_segment4,
      fun _ => eval_slope_TypeJ_segment5⟩
  · exact ⟨fun _ => eval_slope_TypeK_segment1,
      fun _ => eval_slope_TypeK_segment2,
      fun _ => eval_slope_TypeK_segment3,
      fun _ => eval_slope_TypeK_segment4,
      fun _ => eval_slope_TypeK_segment5⟩
  · exact ⟨fun _ => eval_slope_TypeN_segment1,
      fun _ => eval_slope_TypeN_segment2,
      fun _ => eval_slope_TypeN_segment3⟩
  · exact ⟨fun _ => eval_slope_TypeR_segment1,
      fun _ => eval_slope_TypeR_segment2,
      fun _ => eval_slope_TypeR_segment3,
      fun _ => eval_slope_TypeR_segment4⟩
  · exact ⟨fun _ => eval_slope_TypeS_segment1,
      fun _ => eval_slope_TypeS_segment2,
      fun _ => eval_slope_TypeS_segment3,
      fun _ => eval_slope_TypeS_segment4⟩
  · exact ⟨fun _ => eval_slope_TypeT_segment1,
      fun _ => eval_slope_TypeT_segment2,
      fun _ => eval_slope_TypeT_segment3,
      fun h => absurd trivial h⟩

theorem inSegment_bounds {ty : ThermocoupleType} {s : Segment α} {v : α}
    (h : inSegment ty s v) : s.lo ≤ v ∧ v ≤ s.hi :=
  inRange_bounds h

/-- C17 as stated fails: for type K the voltages 4.096 (end of the second range test) and
4.0961 (in the third) are both in the domain and increase, but `computeTemperature` drops
from about 100.0091 to about 99.9971 degrees. -/
theorem computeTemperature_strictly_increasing_fails :
    ¬ ∀ (ty : ThermocoupleType) (v1 v2 : ℚ), inDomain ty v1 → inDomain ty v2 → v1 < v2 →
        computeTemperature ty v1 < computeTemperature ty v2 := by
  intro h
  have h1 : inDomain .K (4.096 : ℚ) := by
    norm_num [inDomain, inRange, lowBound, highBound]
  have h2 : inDomain .K (4.0961 : ℚ) := by
    norm_num [inDomain, inRange, lowBound, highBound]
  have hlt := h .K 4.096 4.0961 h1 h2 (by norm_num)
  have hs1 : selectCoefficients .K (4.096 : ℚ) = some TypeK.segment2 := by
    norm_num [selectCoefficients, TypeK.selectCoefficients]
  have hs2 : selectCoefficients .K (4.0961 : ℚ) = some TypeK.segment3 := by
    norm_num [selectCoefficients, TypeK.selectCoefficients]
  rw [computeTemperature_of_select_some hs1, computeTemperature_of_select_some hs2] at hlt
  simp only [Coefficients.eval, computeTemperatureInternal, temperatureNumerator,
    temperatureDenominator, TypeK.segment2, TypeK.segment3] at hlt
  norm_num1 at hlt

/-- C17, amended: for every type, every range test other than the fourth of type T, and
all voltages v1, v2 that pass that same range test with v2 at least 1e-6 mV (one
nanovolt) above v1, `computeTemperature` rises by more than 10 degrees per millivolt:
computeTemperature(v1) + 10 * (v2 - v1) < computeTemperature(v2); so it rises by more
than 1e-5 degrees, and computeTemperature(v1) < computeTemperature(v2). -/
theorem computeTemperature_rises_in_segment (ty : ThermocoupleType)
    (s : Segment α) (hs : s ∈ segments ty) (hslip : ¬ (ty = .T ∧ s.lo = 9.288))
    (v1 v2 : α) (h1 : inSegment ty s v1) (h2 : inSegment ty s v2) (h12 : v1 + 1e-6 ≤ v2) :
    computeTemperature ty v1 + 10 * (v2 - v1) < computeTemperature ty v2
      ∧ computeTemperature ty v1 + 1e-5 < computeTemperature ty v2
      ∧ computeTemperature ty v1 < computeTemperature ty v2 := by
  have hpos : (0 : α) < 1e-6 := by norm_num
  have hlt : v1 < v2 := by linarith only [h12, hpos]
  have hm : (minimumSlope : α) = 10 := rfl
  have hstep : (10 : α) * 1e-6 = 1e-5 := by norm_num
  have h := eval_slope_on_segment ty s hs hslip v1 v2 (inSegment_bounds h1).1 hlt
    (inSegment_bounds h2).2
  rw [hm] at h
  rw [computeTemperature_of_inSegment hs h1, computeTemperature_of_inSegment hs h2]
  refine ⟨h, ?_, ?_⟩
  · linarith only [h, h12, hstep]
  · linarith only [h, h12, hpos]

/-- Witness of the amended C17: type K at 5 and 6 mV, both in its third range test. -/
theorem computeTemperature_rises_in_segment_witness :
    (⟨4.096, 16.397, TypeK.segment3⟩ : Segment ℚ) ∈ segments .K
      ∧ inSegment .K (⟨4.096, 16.397, TypeK.segment3⟩ : Segment ℚ) 5
      ∧ inSegment .K (⟨4.096, 16.397, TypeK.segment3⟩ : Segment ℚ) 6
      ∧ (5 : ℚ) + 1e-6 ≤ 6
      ∧ computeTemperature .K (5 : ℚ) + 10 * (6 - 5) < computeTemperature .K (6 : ℚ) :=
  ⟨by simp [segments], by norm_num [inSegment, inRange], by norm_num [inSegment, inRange],
    by norm_num,
    (computeTemperature_rises_in_segment .K
      (⟨4.096, 16.397, TypeK.segment3⟩ : Segment ℚ) (by simp [segments])
      (by simp) 5 6 (by norm_num [inSegment, inRange]) (by norm_num [inSegment, inRange])
      (by norm_num)).1⟩

/-! ## The sentinel inside the domain -/

theorem typeT_segment4_sentinel_form_continuous :
    Continuous fun v : ℝ =>
      temperatureNumerator v (TypeT.segment4 : Coefficients ℝ).V0 TypeT.segment4.p1
          TypeT.segment4.p2 TypeT.segment4.p3 TypeT.segment4.p4
        + 1300 * (TypeT.segment4 : Coefficients ℝ).denominator v := by
  simp only [Coefficients.denominator, temperatureDenominator, temperatureNumerator]
  fun_prop

theorem typeT_segment4_denominator_neg (v : ℝ) (h1 : 18.85 ≤ v) (h2 : v ≤ 18.86) :
    (TypeT.segment4 : Coefficients ℝ).denominator v < 0 := by
  have hA : (3.98822 : ℝ) ≤ v - 1.4861780E+01 := by linarith only [h1]
  have hB : v - 1.4861780E+01 ≤ (3.99822 : ℝ) := by linarith only [h2]
  have hpos := cubic_pos_general (-1 : ℝ) (4.8095795E-02) (4.7352054E-03) (1.2146518E-02)
    3.98822 3.99822 (v - 1.4861780E+01) hA hB (by norm_num1)
    (by simp only [blossom1, blossom2, blossom3]; norm_num1)
    (by simp only [blossom1, blossom2, blossom3]; norm_num1)
    (by simp only [blossom1, blossom2, blossom3]; norm_num1)
    (by simp only [blossom1, blossom2, blossom3]; norm_num1)
  simp only [Coefficients.denominator, temperatureDenominator, TypeT.segment4, one_point_zero]
  linarith only [hpos]

/-- The fourth range test of type T (the range test with the `q3` of type S) in real
arithmetic: at 18.8502 mV `computeTemperature` is below -1000 degrees, at 18.8503 mV it is
above, both voltages pass the range test, and at a real voltage in between
`computeTemperature` equals the sentinel -1000.0.  That voltage is not rational
(`typeT_segment4_eval_ne_sentinel_rat`). -/
theorem typeT_sentinel_inside_domain :
    (selectCoefficients .T (18.8502 : ℚ) = some TypeT.segment4
        ∧ computeTemperature .T (18.8502 : ℚ) < -1000)
      ∧ (selectCoefficients .T (18.8503 : ℚ) = some TypeT.segment4
        ∧ -1000 < computeTemperature .T (18.8503 : ℚ))
      ∧ ∃ v : ℝ, 18.8502 < v ∧ v < 18.8503 ∧ inDomain .T v
          ∧ selectCoefficients .T v = some TypeT.segment4
          ∧ computeTemperature .T v = TCOUPLE_OUT_OF_RANGE := by
  have ha : selectCoefficients .T (18.8502 : ℚ) = some TypeT.segment4 := by
    norm_num [selectCoefficients, TypeT.selectCoefficients]
  have hb : selectCoefficients .T (18.8503 : ℚ) = some TypeT.segment4 := by
    norm_num [selectCoefficients, TypeT.selectCoefficients]
  refine ⟨⟨ha, ?_⟩, ⟨hb, ?_⟩, ?_⟩
  · rw [computeTemperature_of_select_some ha]
    simp only [Coefficients.eval, computeTemperatureInternal, temperatureNumerator,
      temperatureDenominator, TypeT.segment4]
    norm_num1
  · rw [computeTemperature_of_select_some hb]
    simp only [Coefficients.eval, computeTemperatureInternal, temperatureNumerator,
      temperatureDenominator, TypeT.segment4]
    norm_num1
  · have hpos : 0 < temperatureNumerator (18.8502 : ℝ) (TypeT.segment4 : Coefficients ℝ).V0
        TypeT.segment4.p1 TypeT.segment4.p2 TypeT.segment4.p3 TypeT.segment4.p4
        + 1300 * (TypeT.segment4 : Coefficients ℝ).denominator 18.8502 := by
      simp only [Coefficients.denominator, temperatureDenominator, temperatureNumerator,
        TypeT.segment4]
      norm_num1
    have hneg : temperatureNumerator (18.8503 : ℝ) (TypeT.segment4 : Coefficients ℝ).V0
        TypeT.segment4.p1 TypeT.segment4.p2 TypeT.segment4.p3 TypeT.segment4.p4
        + 1300 * (TypeT.segment4 : Coefficients ℝ).denominator 18.8503 < 0 := by
      simp only [Coefficients.denominator, temperatureDenominator, temperatureNumerator,
        TypeT.segment4]
      norm_num1
    have hle : (18.8502 : ℝ) ≤ 18.8503 := by norm_num1
    have hivt := intermediate_value_Icc' hle
      typeT_segment4_sentinel_form_continuous.continuousOn
    obtain ⟨v, ⟨hv1, hv2⟩, hv0⟩ := hivt ⟨le_of_lt hneg, le_of_lt hpos⟩
    have hv0' : temperatureNumerator v (TypeT.segment4 : Coefficients ℝ).V0
        TypeT.segment4.p1 TypeT.segment4.p2 TypeT.segment4.p3 TypeT.segment4.p4
        + 1300 * (TypeT.segment4 : Coefficients ℝ).denominator v = 0 := hv0
    have h1 : (18.8502 : ℝ) < v := by
      rcases lt_or_eq_of_le hv1 with h | h
      · exact h
      · rw [← h] at hv0'
        exact absurd hv0' (ne_of_gt hpos)
    have h2 : v < (18.8503 : ℝ) := by
      rcases lt_or_eq_of_le hv2 with h | h
      · exact h
      · rw [h] at hv0'
        exact absurd hv0' (ne_of_lt hneg)
    have hD : (TypeT.segment4 : Coefficients ℝ).denominator v < 0 :=
      typeT_segment4_denominator_neg v (by linarith only [h1]) (by linarith only [h2])
    have hn1 : ¬ ((-6.18 : ℝ) ≤ v ∧ v < -4.648) := fun hc => by linarith only [h1, hc.2]
    have hn2 : ¬ ((-4.648 : ℝ) ≤ v ∧ v < 0.0) := fun hc => by linarith only [h1, hc.2]
    have hn3 : ¬ ((0.0 : ℝ) ≤ v ∧ v < 9.288) := fun hc => by linarith only [h1, hc.2]
    have hp4 : (9.288 : ℝ) ≤ v ∧ v < 20.872 :=
      ⟨by linarith only [h1], by linarith only [h2]⟩
    have hsel : selectCoefficients .T v = some TypeT.segment4 := by
      simp only [selectCoefficients, TypeT.selectCoefficients, if_neg hn1, if_neg hn2,
        if_neg hn3, if_pos hp4]
    have hdom : inDomain .T v :=
      ⟨by simp only [lowBound]; linarith only [h1], by simp only [highBound]; linarith only [h2]⟩
    refine ⟨v, h1, h2, hdom, hsel, ?_⟩
    rw [computeTemperature_of_select_some hsel, TCOUPLE_OUT_OF_RANGE_eq]
    have hT0 : (TypeT.segment4 : Coefficients ℝ).T0 = 300 := by
      simp only [TypeT.segment4]; norm_num1
    have hN : temperatureNumerator v (TypeT.segment4 : Coefficients ℝ).V0
        TypeT.segment4.p1 TypeT.segment4.p2 TypeT.segment4.p3 TypeT.segment4.p4
        = -1300 * (TypeT.segment4 : Coefficients ℝ).denominator v := by
      linarith only [hv0']
    have hne : (TypeT.segment4 : Coefficients ℝ).denominator v ≠ 0 := ne_of_lt hD
    show (TypeT.segment4 : Coefficients ℝ).T0
      + temperatureNumerator v (TypeT.segment4 : Coefficients ℝ).V0 TypeT.segment4.p1
          TypeT.segment4.p2 TypeT.segment4.p3 TypeT.segment4.p4
        / (TypeT.segment4 : Coefficients ℝ).denominator v = -1000
    rw [hN, hT0, mul_div_assoc, div_self hne]
    norm_num1

/-! ## Continuity over the real voltages -/

theorem eval_continuousAt (c : Coefficients ℝ) (v : ℝ) (h : c.denominator v ≠ 0) :
    ContinuousAt c.eval v := by
  have hN : Continuous fun x : ℝ => temperatureNumerator x c.V0 c.p1 c.p2 c.p3 c.p4 := by
    unfold temperatureNumerator
    fun_prop
  have hD : Continuous fun x : ℝ => temperatureDenominator x c.V0 c.q1 c.q2 c.q3 := by
    unfold temperatureDenominator
    fun_prop
  show ContinuousAt (fun x : ℝ => c.T0 + temperatureNumerator x c.V0 c.p1 c.p2 c.p3 c.p4
    / temperatureDenominator x c.V0 c.q1 c.q2 c.q3) v
  exact continuousAt_const.add (hN.continuousAt.div hD.continuousAt h)

theorem adjacent_mem (ty : ThermocoupleType) (p : Segment α × Segment α)
    (hp : p ∈ adjacentSegments ty) : p.1 ∈ segments ty ∧ p.2 ∈ segments ty := by
  obtain ⟨a, b⟩ := p
  have h := List.of_mem_zip hp
  exact ⟨h.1, List.mem_of_mem_tail h.2⟩

theorem adjacent_hi_eq_lo (ty : ThermocoupleType) :
    ∀ p ∈ (adjacentSegments ty : List (Segment α × Segment α)),
      p.1.hi = p.2.lo ∧ ¬ (ty = .T ∧ p.1.lo = 9.288) := by
  cases ty <;>
    simp only [adjacentSegments, segments, List.tail_cons, List.zip_cons_cons,
      List.zip_nil_right, List.forall_mem_cons, List.not_mem_nil, false_imp_iff,
      implies_true, and_true] <;>
    norm_num

theorem adjacent_agree (ty : ThermocoupleType) (p : Segment α × Segment α)
    (hp : p ∈ adjacentSegments ty) (hB : ty ≠ .B) (hT : ¬ (ty = .T ∧ p.1.hi = 9.288)) :
    |p.1.coef.eval p.1.hi - p.2.coef.eval p.1.hi| ≤ 0.03 := by
  cases ty with
  | B => exact absurd rfl hB
  | E => exact adjacent_agree_E p hp
  | J => exact adjacent_agree_J p hp
  | K => exact adjacent_agree_K p hp
  | N => exact adjacent_agree_N p hp
  | R => exact adjacent_agree_R p hp
  | S => exact adjacent_agree_S p hp
  | T => exact adjacent_agree_T p hp fun h => hT ⟨rfl, h⟩

theorem computeTemperature_continuousOn_segment (ty : ThermocoupleType) (s : Segment ℝ)
    (hs : s ∈ segments ty) (hslip : ¬ (ty = .T ∧ s.lo = 9.288)) :
    ContinuousOn (computeTemperature ty) {v : ℝ | inSegment ty s v} := by
  have hg : ContinuousOn s.coef.eval {v : ℝ | inSegment ty s v} := by
    intro v hv
    have hb := inSegment_bounds hv
    exact (eval_continuousAt s.coef v
      (ne_of_gt (denominator_pos_on_segment ty s hs hslip v hb.1 hb.2))).continuousWithinAt
  exact hg.congr fun v hv => computeTemperature_of_inSegment hs hv

theorem computeTemperature_tendsto_left (ty : ThermocoupleType) (s : Segment ℝ)
    (hs : s ∈ segments ty) (hslip : ¬ (ty = .T ∧ s.lo = 9.288)) :
    Filter.Tendsto (computeTemperature ty) (nhdsWithin s.hi (Set.Iio s.hi))
      (nhds (s.coef.eval s.hi)) := by
  have hlt := segments_lo_lt_hi ty s hs
  have hc := eval_continuousAt s.coef s.hi
    (ne_of_gt (denominator_pos_on_segment ty s hs hslip s.hi (le_of_lt hlt) (le_refl _)))
  have ht : Filter.Tendsto s.coef.eval (nhdsWithin s.hi (Set.Iio s.hi))
      (nhds (s.coef.eval s.hi)) := hc.tendsto.mono_left nhdsWithin_le_nhds
  refine ht.congr' ?_
  refine Filter.eventually_of_mem (Ioo_mem_nhdsWithin_Iio' hlt) fun v hv => ?_
  exact (computeTemperature_of_inSegment hs (inRange_of_lt_of_lt hv.1 hv.2)).symm

theorem computeTemperature_tendsto_right (ty : ThermocoupleType) (s : Segment ℝ)
    (hs : s ∈ segments ty) (hslip : ¬ (ty = .T ∧ s.lo = 9.288)) :
    Filter.Tendsto (computeTemperature ty) (nhdsWithin s.lo (Set.Ioi s.lo))
      (nhds (s.coef.eval s.lo)) := by
  have hlt := segments_lo_lt_hi ty s hs
  have hc := eval_continuousAt s.coef s.lo
    (ne_of_gt (denominator_pos_on_segment ty s hs hslip s.lo (le_refl _) (le_of_lt hlt)))
  have ht : Filter.Tendsto s.coef.eval (nhdsWithin s.lo (Set.Ioi s.lo))
      (nhds (s.coef.eval s.lo)) := hc.tendsto.mono_left nhdsWithin_le_nhds
  refine ht.congr' ?_
  refine Filter.eventually_of_mem (Ioo_mem_nhdsWithin_Ioi' hlt) fun v hv => ?_
  exact (computeTemperature_of_inSegment hs (inRange_of_lt_of_lt hv.1 hv.2)).symm

/-- C12 as stated fails: over the real voltages `computeTemperature` of type K is not
continuous on the domain of the type; at 4.096 mV it returns the value of the second
coefficient set (about 100.0091) while its limit from the right is the value of the third
(about 99.9946). -/
theorem computeTemperature_typeK_not_continuousOn :
    ¬ ContinuousOn (computeTemperature .K : ℝ → ℝ) {v : ℝ | inDomain .K v} := by
  intro hcont
  have hnhds : {v : ℝ | inDomain .K v} ∈ nhds (4.096 : ℝ) := by
    refine Filter.mem_of_superset
      (Ioo_mem_nhds (by norm_num : (-6.404 : ℝ) < 4.096) (by norm_num : (4.096 : ℝ) < 69.553))
      fun v hv => ?_
    exact ⟨hv.1, le_of_lt hv.2⟩
  have hat : ContinuousAt (computeTemperature .K : ℝ → ℝ) 4.096 := hcont.continuousAt hnhds
  have ht1 : Filter.Tendsto (computeTemperature .K : ℝ → ℝ)
      (nhdsWithin 4.096 (Set.Ioi 4.096)) (nhds (computeTemperature .K (4.096 : ℝ))) :=
    hat.tendsto.mono_left nhdsWithin_le_nhds
  have hs3 : (⟨4.096, 16.397, TypeK.segment3⟩ : Segment ℝ) ∈ segments .K := by
    simp [segments]
  have ht2 := computeTemperature_tendsto_right .K ⟨4.096, 16.397, TypeK.segment3⟩ hs3 (by simp)
  have heq : computeTemperature .K (4.096 : ℝ) = TypeK.segment3.eval 4.096 :=
    tendsto_nhds_unique ht1 ht2
  have hs2 : selectCoefficients .K (4.096 : ℝ) = some TypeK.segment2 := by
    norm_num [selectCoefficients, TypeK.selectCoefficients]
  rw [computeTemperature_of_select_some hs2] at heq
  simp only [Coefficients.eval, computeTemperatureInternal, temperatureNumerator,
    temperatureDenominator, TypeK.segment2, TypeK.segment3] at heq
  norm_num1 at heq

/-- C12, amended: over the real voltages, for every type `computeTemperature` is
continuous inside every range test other than the fourth of type T, and at every interior
boundary b other than 2.431 of type B and 9.288 of type T its limits from the left and
from the right exist, are the values at b of the two neighbouring coefficient sets, and
differ by at most 0.03 degrees. -/
theorem computeTemperature_piecewise_continuous (ty : ThermocoupleType) :
    (∀ s ∈ (segments ty : List (Segment ℝ)), ¬ (ty = .T ∧ s.lo = 9.288) →
        ContinuousOn (computeTemperature ty) {v : ℝ | inSegment ty s v})
      ∧ (∀ p ∈ (adjacentSegments ty : List (Segment ℝ × Segment ℝ)),
          ty ≠ .B → ¬ (ty = .T ∧ p.1.hi = 9.288) →
            p.1.hi = p.2.lo
              ∧ Filter.Tendsto (computeTemperature ty) (nhdsWithin p.1.hi (Set.Iio p.1.hi))
                  (nhds (p.1.coef.eval p.1.hi))
              ∧ Filter.Tendsto (computeTemperature ty) (nhdsWithin p.1.hi (Set.Ioi p.1.hi))
                  (nhds (p.2.coef.eval p.1.hi))
              ∧ |p.1.coef.eval p.1.hi - p.2.coef.eval p.1.hi| ≤ 0.03) := by
  refine ⟨fun s hs hslip => computeTemperature_continuousOn_segment ty s hs hslip,
    fun p hp hB hT => ?_⟩
  obtain ⟨h1, h2⟩ := adjacent_mem ty p hp
  obtain ⟨hbd, hslip1⟩ := adjacent_hi_eq_lo ty p hp
  have hslip2 : ¬ (ty = .T ∧ p.2.lo = 9.288) := fun h => hT ⟨h.1, hbd.trans h.2⟩
  refine ⟨hbd, computeTemperature_tendsto_left ty p.1 h1 hslip1, ?_, adjacent_agree ty p hp hB hT⟩
  have := computeTemperature_tendsto_right ty p.2 h2 hslip2
  rw [← hbd] at this
  exact this

/-- Witness of the amended C12: the third range test of type K and the boundary 4.096
between its second and third range tests. -/
theorem computeTemperature_piecewise_continuous_witness :
    ((⟨4.096, 16.397, TypeK.segment3⟩ : Segment ℝ) ∈ segments .K
        ∧ ContinuousOn (computeTemperature .K)
            {v : ℝ | inSegment .K (⟨4.096, 16.397, TypeK.segment3⟩ : Segment ℝ) v})
      ∧ (((⟨-3.554, 4.096, TypeK.segment2⟩, ⟨4.096, 16.397, TypeK.segment3⟩) :
            Segment ℝ × Segment ℝ) ∈ adjacentSegments .K
        ∧ |(TypeK.segment2 : Coefficients ℝ).eval 4.096 - TypeK.segment3.eval 4.096| ≤ 0.03) :=
  ⟨⟨by simp [segments],
      (computeTemperature_piecewise_continuous .K).1 ⟨4.096, 16.397, TypeK.segment3⟩
        (by simp [segments]) (by simp)⟩,
    ⟨by simp [adjacentSegments, segments],
      ((computeTemperature_piecewise_continuous .K).2
        (⟨-3.554, 4.096, TypeK.segment2⟩, ⟨4.096, 16.397, TypeK.segment3⟩)
        (by simp [adjacentSegments, segments]) (by decide) (by simp)).2.2.2⟩⟩

end Thermocouple
